import Mathlib

/-!
# vtgateconntest: the fake VTGate service and its fixtures

A shallow embedding of `go/vt/vtgate/vtgateconntest/client.go`.

Conventions of the embedding:

* a Go pointer that may be `nil` is an `Option`; a Go slice is a `Slice`, either
  the `nil` slice or a non-nil slice with the list of its elements, which may be
  empty; a Go `map` is a `GoMap`, either the `nil` map or a non-nil map with the
  association list of its entries in increasing key order. `reflect.DeepEqual`
  tells a `nil` slice or map from an empty one, and so does structural equality
  (`=`) on the embedded values, which stands for it;
* a Go `error` is the `Option String` of its `Error()` text, `nil` being `none`;
* a handler is a function from the receiver, its arguments and the values
  behind its pointer arguments to a record holding the receiver, those values
  after the call, and the way the call ended (`Outcome`);
* `*testing.T` is the list of failures recorded with `Errorf`, oldest first;
* the `sendReply` callback of a streaming handler is a function of the messages
  it was handed before and of the message it is handed now.
-/

namespace vtgateconntest

/-! ## Data model (packages `vtrpc`, `topo`, `key`, `sqltypes`, `mproto`, `proto`) -/

/-- A Go slice: `nil`, or a non-nil slice with its elements in order. The empty
non-nil slice `[]T{}` is `Slice.of []`, which `reflect.DeepEqual` tells from `nil`. -/
inductive Slice (α : Type) where
  | nil
  | of (elems : List α)
deriving DecidableEq, Repr

/-- The elements of a slice in order, as `range` visits them; none for `nil`. -/
def Slice.toList {α : Type} : Slice α → List α
  | Slice.nil => []
  | Slice.of elems => elems

/-- The Go builtin `len` on a slice. -/
def Slice.len {α : Type} (s : Slice α) : Nat := s.toList.length

/-- The Go builtin `append(s, elems...)`: with nothing to append the result is `s`
itself, so `nil` stays `nil`; otherwise it is a non-nil slice. -/
def Slice.append {α : Type} (s : Slice α) (elems : List α) : Slice α :=
  match elems with
  | [] => s
  | _ :: _ => Slice.of (s.toList ++ elems)

/-- A Go map: `nil`, or a non-nil map with the association list of its entries in
increasing key order. The empty non-nil map is `GoMap.of []`. -/
inductive GoMap (κ ν : Type) where
  | nil
  | of (entries : List (κ × ν))
deriving DecidableEq, Repr

/-- The Go conversion `[]byte(s)` of a string: the non-nil slice of the bytes of
its UTF-8 encoding. -/
def bytesOf (s : String) : Slice Nat :=
  Slice.of (s.toUTF8.data.toList.map UInt8.toNat)

/-- Modelled from the spec: the `vtrpc.CallerID` record (principal, component,
subcomponent); its declaration is outside this file. -/
structure CallerID where
  Principal : String
  Component : String
  Subcomponent : String
deriving DecidableEq, Repr

/-- Modelled from the spec: the ambient call context (`context.Context`), of which
only the effective caller identity attached by `callerid.NewContext` is read. -/
structure Context where
  effectiveCallerID : Option CallerID
deriving DecidableEq, Repr

/-- Modelled from the spec: `context.Background()`, a context carrying no identity. -/
def Context.Background : Context := { effectiveCallerID := none }

/-- Modelled from the spec: `callerid.NewContext(ctx, ef, nil)` attaches the
effective caller identity `ef` to the context. -/
def callerid.NewContext (_ctx : Context) (ef : Option CallerID) : Context :=
  { effectiveCallerID := ef }

/-- Modelled from the spec: `callerid.EffectiveCallerIDFromContext` recovers the
identity attached to the context, `nil` when there is none. -/
def callerid.EffectiveCallerIDFromContext (ctx : Context) : Option CallerID :=
  ctx.effectiveCallerID

/-- Modelled from the spec: the tablet-role selector `topo.TabletType`, a string
type in Go; the three roles the fixtures use are named, any other is `other`. -/
inductive TabletType where
  | TYPE_MASTER
  | TYPE_REPLICA
  | TYPE_RDONLY
  | other (name : String)
deriving DecidableEq, Repr

/-- Modelled from the spec: a typed scalar held in an `interface{}` (a bind
variable or an external id); the dynamic type is the constructor. -/
inductive Scalar where
  | null
  | int64 (v : Int)
  | uint64 (v : Nat)
  | str (s : String)
  | bytes (b : Slice Nat)
deriving DecidableEq, Repr

/-- Modelled from the spec: `map[string]interface{}`, bind-variable name to typed
scalar. -/
abbrev BindVariables := GoMap String Scalar

/-- Modelled from the spec: `key.KeyspaceId`, a string type. -/
abbrev KeyspaceId := String

/-- Modelled from the spec: `key.KeyRange`, the half-open range from `Start` to `End`. -/
structure KeyRange where
  Start : KeyspaceId
  End : KeyspaceId
deriving DecidableEq, Repr

/-- Modelled from the spec: `proto.ShardSession`, the per-shard transaction record. -/
structure ShardSession where
  Keyspace : String
  Shard : String
  TabletType : TabletType
  TransactionId : Int
deriving DecidableEq, Repr

/-- Modelled from the spec: `proto.Session`, the transaction state and its ordered
shard sessions (`[]*ShardSession`, a slice of pointers). -/
structure Session where
  InTransaction : Bool
  ShardSessions : Slice (Option ShardSession)
deriving DecidableEq, Repr

/-- Modelled from the spec: `mproto.Field`, a field descriptor (name, type). -/
structure Field where
  Name : String
  Type_ : Int
deriving DecidableEq, Repr

/-- Modelled from the spec: `sqltypes.Value`, a typed cell holding its bytes;
`MakeString` builds the string kind from its bytes. -/
inductive Value where
  | Null
  | Numeric (raw : Slice Nat)
  | Fractional (raw : Slice Nat)
  | String (raw : Slice Nat)
deriving DecidableEq, Repr

/-- Modelled from the spec: `sqltypes.MakeString`. -/
def sqltypes.MakeString (b : Slice Nat) : Value := Value.String b

/-- Modelled from the spec: `mproto.QueryResult`, the result payload of a query.
A zero value (`mproto.QueryResult{}`) has `nil` fields, `nil` rows and both
counters 0. -/
structure mproto.QueryResult where
  Fields : Slice Field := Slice.nil
  RowsAffected : Nat := 0
  InsertId : Nat := 0
  Rows : Slice (Slice Value) := Slice.nil
deriving DecidableEq, Repr

/-- Modelled from the spec: `proto.QueryResult`, the reply envelope: optional
result, optional session and the application error string. -/
structure proto.QueryResult where
  Result : Option mproto.QueryResult := none
  Session : Option Session := none
  Error : String := ""
deriving DecidableEq, Repr

/-- Modelled from the spec: `proto.QueryResultList`, the reply envelope of the
batch operations. -/
structure proto.QueryResultList where
  List : Slice mproto.QueryResult := Slice.nil
  Session : Option Session := none
  Error : String := ""
deriving DecidableEq, Repr

/-- Modelled from the spec: `proto.Query`, the whole-query request. -/
structure proto.Query where
  Sql : String := ""
  BindVariables : BindVariables := GoMap.nil
  TabletType : TabletType := TabletType.other ""
  Session : Option Session := none
  NotInTransaction : Bool := false
  CallerID : Option CallerID := none
deriving DecidableEq, Repr

/-- Modelled from the spec: `proto.QueryShard`, the shard-list request. -/
structure proto.QueryShard where
  Sql : String := ""
  BindVariables : BindVariables := GoMap.nil
  Keyspace : String := ""
  Shards : Slice String := Slice.nil
  TabletType : TabletType := TabletType.other ""
  Session : Option Session := none
  NotInTransaction : Bool := false
  CallerID : Option CallerID := none
deriving DecidableEq, Repr

/-- Modelled from the spec: `proto.KeyspaceIdQuery`, the keyspace-id-list request. -/
structure proto.KeyspaceIdQuery where
  Sql : String := ""
  BindVariables : BindVariables := GoMap.nil
  Keyspace : String := ""
  KeyspaceIds : Slice KeyspaceId := Slice.nil
  TabletType : TabletType := TabletType.other ""
  Session : Option Session := none
  NotInTransaction : Bool := false
  CallerID : Option CallerID := none
deriving DecidableEq, Repr

/-- Modelled from the spec: `proto.KeyRangeQuery`, the key-range-list request. -/
structure proto.KeyRangeQuery where
  Sql : String := ""
  BindVariables : BindVariables := GoMap.nil
  Keyspace : String := ""
  KeyRanges : Slice KeyRange := Slice.nil
  TabletType : TabletType := TabletType.other ""
  Session : Option Session := none
  NotInTransaction : Bool := false
  CallerID : Option CallerID := none
deriving DecidableEq, Repr

/-- Modelled from the spec: `proto.EntityId`, an external id with its keyspace id. -/
structure proto.EntityId where
  ExternalID : Scalar
  KeyspaceID : KeyspaceId
deriving DecidableEq, Repr

/-- Modelled from the spec: `proto.EntityIdsQuery`, the entity-id-list request. -/
structure proto.EntityIdsQuery where
  Sql : String := ""
  BindVariables : BindVariables := GoMap.nil
  Keyspace : String := ""
  EntityColumnName : String := ""
  EntityKeyspaceIDs : Slice proto.EntityId := Slice.nil
  TabletType : TabletType := TabletType.other ""
  Session : Option Session := none
  NotInTransaction : Bool := false
  CallerID : Option CallerID := none
deriving DecidableEq, Repr

/-- Modelled from the spec: `proto.BoundShardQuery`, one sub-query of a shard batch. -/
structure proto.BoundShardQuery where
  Sql : String := ""
  BindVariables : BindVariables := GoMap.nil
  Keyspace : String := ""
  Shards : Slice String := Slice.nil
deriving DecidableEq, Repr

/-- Modelled from the spec: `proto.BatchQueryShard`, the batch-of-shard-queries request. -/
structure proto.BatchQueryShard where
  Queries : Slice proto.BoundShardQuery := Slice.nil
  TabletType : TabletType := TabletType.other ""
  AsTransaction : Bool := false
  Session : Option Session := none
  CallerID : Option CallerID := none
deriving DecidableEq, Repr

/-- Modelled from the spec: `proto.BoundKeyspaceIdQuery`, one sub-query of a
keyspace-id batch. -/
structure proto.BoundKeyspaceIdQuery where
  Sql : String := ""
  BindVariables : BindVariables := GoMap.nil
  Keyspace : String := ""
  KeyspaceIds : Slice KeyspaceId := Slice.nil
deriving DecidableEq, Repr

/-- Modelled from the spec: `proto.KeyspaceIdBatchQuery`, the
batch-of-keyspace-id-queries request. -/
structure proto.KeyspaceIdBatchQuery where
  Queries : Slice proto.BoundKeyspaceIdQuery := Slice.nil
  TabletType : TabletType := TabletType.other ""
  AsTransaction : Bool := false
  Session : Option Session := none
  CallerID : Option CallerID := none
deriving DecidableEq, Repr

/-- Modelled from the spec: `tproto.BoundQuery`, SQL text with its bind variables. -/
structure tproto.BoundQuery where
  Sql : String := ""
  BindVariables : BindVariables := GoMap.nil
deriving DecidableEq, Repr

/-- Modelled from the spec: `proto.SplitQueryRequest`. -/
structure proto.SplitQueryRequest where
  Keyspace : String := ""
  Query : tproto.BoundQuery := {}
  SplitColumn : String := ""
  SplitCount : Int := 0
  CallerID : Option CallerID := none
deriving DecidableEq, Repr

/-- Modelled from the spec: `proto.SplitQueryPart`, a sub-query with its
approximate size. -/
structure proto.SplitQueryPart where
  Query : Option proto.KeyRangeQuery := none
  Size : Int := 0
deriving DecidableEq, Repr

/-- Modelled from the spec: `proto.SplitQueryResult`, the ordered split parts. -/
structure proto.SplitQueryResult where
  Splits : Slice proto.SplitQueryPart := Slice.nil
deriving DecidableEq, Repr

/-- Modelled from the spec: `topo.ShardReference`, a shard name and its key range. -/
structure topo.ShardReference where
  Name : String
  KeyRange : KeyRange
deriving DecidableEq, Repr

/-- Modelled from the spec: `topo.KeyspacePartition`, the shards serving one role. -/
structure topo.KeyspacePartition where
  ShardReferences : Slice topo.ShardReference := Slice.nil
deriving DecidableEq, Repr

/-- Modelled from the spec: `key.KeyspaceIdType`, the sharding column type. -/
inductive KeyspaceIdType where
  | KIT_UNSET
  | KIT_UINT64
  | KIT_BYTES
deriving DecidableEq, Repr

/-- Modelled from the spec: `topo.SrvKeyspace`, the topology snapshot. -/
structure topo.SrvKeyspace where
  Partitions : GoMap TabletType (Option topo.KeyspacePartition) := GoMap.nil
  ShardingColumnName : String := ""
  ShardingColumnType : KeyspaceIdType := KeyspaceIdType.KIT_UNSET
  ServedFrom : GoMap TabletType String := GoMap.nil
  SplitShardCount : Int := 0
deriving DecidableEq, Repr

/-! ## Fixtures (`client.go`, lines 1979-2516) -/

/-- The identity every caller of the suite attaches (`testCallerID`). -/
def testCallerID : CallerID :=
  { Principal := "test_principal"
    Component := "test_component"
    Subcomponent := "test_subcomponent" }

/-- The context of every suite call: the background context with `testCallerID`. -/
def newContext : Context :=
  let ctx := Context.Background
  let ctx := callerid.NewContext ctx (some testCallerID)
  ctx

/-- The result of fixture "request1". -/
def result1 : mproto.QueryResult :=
  { Fields := Slice.of [{ Name := "field1", Type_ := 42 }, { Name := "field2", Type_ := 73 }]
    RowsAffected := 123
    InsertId := 72
    Rows := Slice.of
      [Slice.of [sqltypes.MakeString (bytesOf "row1 value1"),
                 sqltypes.MakeString (bytesOf "row1 value2")],
       Slice.of [sqltypes.MakeString (bytesOf "row2 value1"),
                 sqltypes.MakeString (bytesOf "row2 value2")]] }

/-- The first message of a stream of `result1`, as the suite expects it; its
`Rows` is the empty slice `[][]sqltypes.Value{}`, not `nil`. -/
def streamResult1 : mproto.QueryResult :=
  { Fields := Slice.of [{ Name := "field1", Type_ := 42 }, { Name := "field2", Type_ := 73 }]
    RowsAffected := 0
    InsertId := 0
    Rows := Slice.of [] }

/-- The session `Begin` hands out; its `ShardSessions` is the empty slice
`[]*proto.ShardSession{}`, not `nil`. -/
def session1 : Session :=
  { InTransaction := true
    ShardSessions := Slice.of [] }

/-- The session `Commit` and `Rollback` accept. -/
def session2 : Session :=
  { InTransaction := true
    ShardSessions :=
      Slice.of [some { Keyspace := "ks", Shard := "1", TabletType := TabletType.TYPE_MASTER,
                       TransactionId := 1 }] }

/-- One entry of `execMap`: the expected request of each of the seven query
variants and the canned reply. -/
structure ExecCase where
  execQuery : proto.Query
  shardQuery : proto.QueryShard
  keyspaceIdQuery : proto.KeyspaceIdQuery
  keyRangeQuery : proto.KeyRangeQuery
  entityIdsQuery : proto.EntityIdsQuery
  batchQueryShard : proto.BatchQueryShard
  keyspaceIdBatchQuery : proto.KeyspaceIdBatchQuery
  reply : proto.QueryResult
  err : Option String := none
deriving DecidableEq, Repr

/-- The entry `execMap["request1"]`. -/
def execCase_request1 : ExecCase :=
  { execQuery :=
      { Sql := "request1", BindVariables := GoMap.of [("bind1", Scalar.int64 0)],
        TabletType := TabletType.TYPE_RDONLY, Session := none }
    shardQuery :=
      { Sql := "request1", BindVariables := GoMap.of [("bind1", Scalar.int64 0)],
        Keyspace := "ks", Shards := Slice.of ["1", "2"],
        TabletType := TabletType.TYPE_RDONLY, Session := none }
    keyspaceIdQuery :=
      { Sql := "request1", BindVariables := GoMap.of [("bind1", Scalar.int64 0)],
        Keyspace := "ks", KeyspaceIds := Slice.of ["a"],
        TabletType := TabletType.TYPE_RDONLY, Session := none }
    keyRangeQuery :=
      { Sql := "request1", BindVariables := GoMap.of [("bind1", Scalar.int64 0)],
        Keyspace := "ks", KeyRanges := Slice.of [{ Start := "s", End := "e" }],
        TabletType := TabletType.TYPE_RDONLY, Session := none }
    entityIdsQuery :=
      { Sql := "request1", BindVariables := GoMap.of [("bind1", Scalar.int64 0)],
        Keyspace := "ks", EntityColumnName := "column",
        EntityKeyspaceIDs := Slice.of
          [{ ExternalID := Scalar.bytes (Slice.of [105, 100, 49]), KeyspaceID := "k" }],
        TabletType := TabletType.TYPE_RDONLY, Session := none }
    batchQueryShard :=
      { Queries := Slice.of
          [{ Sql := "request1", BindVariables := GoMap.of [("bind1", Scalar.int64 0)],
             Keyspace := "ks", Shards := Slice.of ["-80", "80-"] }],
        TabletType := TabletType.TYPE_RDONLY, AsTransaction := true, Session := none }
    keyspaceIdBatchQuery :=
      { Queries := Slice.of
          [{ Sql := "request1", BindVariables := GoMap.of [("bind1", Scalar.int64 0)],
             Keyspace := "ks", KeyspaceIds := Slice.of ["ki1"] }],
        TabletType := TabletType.TYPE_RDONLY, AsTransaction := true, Session := none }
    reply := { Result := some result1, Session := none, Error := "" } }

/-- The entry `execMap["errorRequst"]`. -/
def execCase_errorRequst : ExecCase :=
  { execQuery :=
      { Sql := "errorRequst", BindVariables := GoMap.of [("bind1", Scalar.int64 0)],
        TabletType := TabletType.TYPE_RDONLY, Session := none }
    shardQuery :=
      { Sql := "errorRequst", BindVariables := GoMap.of [("bind1", Scalar.int64 0)],
        TabletType := TabletType.TYPE_RDONLY, Keyspace := "", Shards := Slice.of ["s1", "s2"],
        Session := none }
    keyspaceIdQuery :=
      { Sql := "errorRequst", BindVariables := GoMap.of [("bind1", Scalar.int64 0)],
        Keyspace := "ks", KeyspaceIds := Slice.of ["a"],
        TabletType := TabletType.TYPE_RDONLY, Session := none }
    keyRangeQuery :=
      { Sql := "errorRequst", BindVariables := GoMap.of [("bind1", Scalar.int64 0)],
        Keyspace := "ks", KeyRanges := Slice.of [{ Start := "s", End := "e" }],
        TabletType := TabletType.TYPE_RDONLY, Session := none }
    entityIdsQuery :=
      { Sql := "errorRequst", BindVariables := GoMap.of [("bind1", Scalar.int64 0)],
        Keyspace := "ks", EntityColumnName := "column",
        EntityKeyspaceIDs := Slice.of
          [{ ExternalID := Scalar.bytes (Slice.of [105, 100, 49]), KeyspaceID := "k" }],
        TabletType := TabletType.TYPE_RDONLY, Session := none }
    batchQueryShard :=
      { Queries := Slice.of
          [{ Sql := "errorRequst", BindVariables := GoMap.of [("bind1", Scalar.int64 0)],
             Keyspace := "ks", Shards := Slice.of ["-80", "80-"] }],
        TabletType := TabletType.TYPE_RDONLY, AsTransaction := false, Session := none }
    keyspaceIdBatchQuery :=
      { Queries := Slice.of
          [{ Sql := "errorRequst", BindVariables := GoMap.of [("bind1", Scalar.int64 0)],
             Keyspace := "ks", KeyspaceIds := Slice.of ["ki1"] }],
        TabletType := TabletType.TYPE_RDONLY, AsTransaction := false, Session := none }
    reply := { Result := none, Session := none, Error := "app error" } }

/-- The entry `execMap["txRequest"]`. -/
def execCase_txRequest : ExecCase :=
  { execQuery :=
      { Sql := "txRequest", BindVariables := GoMap.of [("bind1", Scalar.int64 0)],
        TabletType := TabletType.TYPE_MASTER, Session := some session1 }
    shardQuery :=
      { Sql := "txRequest", BindVariables := GoMap.of [("bind1", Scalar.int64 0)],
        TabletType := TabletType.TYPE_MASTER, Keyspace := "", Shards := Slice.of ["s1", "s2"],
        Session := some session1 }
    keyspaceIdQuery :=
      { Sql := "txRequest", BindVariables := GoMap.of [("bind1", Scalar.int64 0)],
        Keyspace := "ks", KeyspaceIds := Slice.of ["a"],
        TabletType := TabletType.TYPE_RDONLY, Session := some session1 }
    keyRangeQuery :=
      { Sql := "txRequest", BindVariables := GoMap.of [("bind1", Scalar.int64 0)],
        Keyspace := "ks", KeyRanges := Slice.of [{ Start := "s", End := "e" }],
        TabletType := TabletType.TYPE_RDONLY, Session := some session1 }
    entityIdsQuery :=
      { Sql := "txRequest", BindVariables := GoMap.of [("bind1", Scalar.int64 0)],
        Keyspace := "ks", EntityColumnName := "column",
        EntityKeyspaceIDs := Slice.of
          [{ ExternalID := Scalar.bytes (Slice.of [105, 100, 49]), KeyspaceID := "k" }],
        TabletType := TabletType.TYPE_RDONLY, Session := some session1 }
    batchQueryShard :=
      { Queries := Slice.of
          [{ Sql := "txRequest", BindVariables := GoMap.of [("bind1", Scalar.int64 0)],
             Keyspace := "ks", Shards := Slice.of ["-80", "80-"] }],
        TabletType := TabletType.TYPE_RDONLY, AsTransaction := true,
        Session := some session1 }
    keyspaceIdBatchQuery :=
      { Queries := Slice.of
          [{ Sql := "txRequest", BindVariables := GoMap.of [("bind1", Scalar.int64 0)],
             Keyspace := "ks", KeyspaceIds := Slice.of ["ki1"] }],
        TabletType := TabletType.TYPE_RDONLY, AsTransaction := true,
        Session := some session1 }
    reply := { Result := none, Session := some session2, Error := "" } }

/-- The entry `execMap["txRequestNIT"]`. -/
def execCase_txRequestNIT : ExecCase :=
  { execQuery :=
      { Sql := "txRequestNIT", BindVariables := GoMap.of [("bind1", Scalar.int64 0)],
        TabletType := TabletType.TYPE_MASTER, Session := some session1,
        NotInTransaction := true }
    shardQuery :=
      { Sql := "txRequestNIT", BindVariables := GoMap.of [("bind1", Scalar.int64 0)],
        TabletType := TabletType.TYPE_MASTER, Keyspace := "", Shards := Slice.of ["s1", "s2"],
        Session := some session1, NotInTransaction := true }
    keyspaceIdQuery :=
      { Sql := "txRequestNIT", BindVariables := GoMap.of [("bind1", Scalar.int64 0)],
        Keyspace := "ks", KeyspaceIds := Slice.of ["a"],
        TabletType := TabletType.TYPE_RDONLY, Session := some session1,
        NotInTransaction := true }
    keyRangeQuery :=
      { Sql := "txRequestNIT", BindVariables := GoMap.of [("bind1", Scalar.int64 0)],
        Keyspace := "ks", KeyRanges := Slice.of [{ Start := "s", End := "e" }],
        TabletType := TabletType.TYPE_RDONLY, Session := some session1,
        NotInTransaction := true }
    entityIdsQuery :=
      { Sql := "txRequestNIT", BindVariables := GoMap.of [("bind1", Scalar.int64 0)],
        Keyspace := "ks", EntityColumnName := "column",
        EntityKeyspaceIDs := Slice.of
          [{ ExternalID := Scalar.bytes (Slice.of [105, 100, 49]), KeyspaceID := "k" }],
        TabletType := TabletType.TYPE_RDONLY, Session := some session1,
        NotInTransaction := true }
    batchQueryShard :=
      { Queries := Slice.of
          [{ Sql := "txRequestNIT", BindVariables := GoMap.of [("bind1", Scalar.int64 0)],
             Keyspace := "ks", Shards := Slice.of ["-80", "80-"] }],
        TabletType := TabletType.TYPE_RDONLY, AsTransaction := true,
        Session := some session1 }
    keyspaceIdBatchQuery :=
      { Queries := Slice.of
          [{ Sql := "txRequestNIT", BindVariables := GoMap.of [("bind1", Scalar.int64 0)],
             Keyspace := "ks", KeyspaceIds := Slice.of ["ki1"] }],
        TabletType := TabletType.TYPE_RDONLY, AsTransaction := true,
        Session := some session1 }
    reply := { Result := none, Session := some session1, Error := "" } }

/-- The fixture registry `execMap`: a lookup by SQL text, `none` when the map has
no such key (Go's `execCase, ok := execMap[sql]` with `ok` false). -/
def execMap (sql : String) : Option ExecCase :=
  if sql = "request1" then some execCase_request1
  else if sql = "errorRequst" then some execCase_errorRequst
  else if sql = "txRequest" then some execCase_txRequest
  else if sql = "txRequestNIT" then some execCase_txRequestNIT
  else none

/-- The request `SplitQuery` expects. -/
def splitQueryRequest : proto.SplitQueryRequest :=
  { Keyspace := "ks"
    Query :=
      { Sql := "in for SplitQuery", BindVariables := GoMap.of [("bind1", Scalar.int64 43)] }
    SplitColumn := "split_column"
    SplitCount := 13 }

/-- The result `SplitQuery` returns. -/
def splitQueryResult : proto.SplitQueryResult :=
  { Splits := Slice.of
      [{ Query := some
           { Sql := "out for SplitQuery"
             BindVariables := GoMap.of [("bind1", Scalar.int64 1114444)]
             Keyspace := "ksout"
             KeyRanges := Slice.of [{ Start := "s", End := "e" }] }
         Size := 12344 }] }

/-- The keyspace name `GetSrvKeyspace` expects. -/
def getSrvKeyspaceKeyspace : String := "test_keyspace"

/-- The snapshot `GetSrvKeyspace` returns. -/
def getSrvKeyspaceResult : topo.SrvKeyspace :=
  { Partitions :=
      GoMap.of [(TabletType.TYPE_REPLICA,
        some { ShardReferences :=
                 Slice.of [{ Name := "shard0", KeyRange := { Start := "s", End := "e" } }] })]
    ShardingColumnName := "sharding_column_name"
    ShardingColumnType := KeyspaceIdType.KIT_UINT64
    ServedFrom := GoMap.of [(TabletType.TYPE_MASTER, "other_keyspace")]
    SplitShardCount := 128 }

/-! ## The fake server (`client.go`, lines 33-488) -/

/-- A Go `error` by its `Error()` text; `none` is `nil`. -/
abbrev error := Option String

/-- The sentinel `errTestVtGateError`. -/
def errTestVtGateError : error := some "test vtgate error"

/-- A failure recorded on `*testing.T` by `Errorf`, by the format it was recorded
with; `name` is the handler name the format prints first. -/
inductive TestFailure where
  | noEffectiveCallerID (name : String)
  | invalidEffectiveCallerID (name : String) (got : CallerID)
  | wrongRequest (name : String)
  | wrongInput (name : String)
deriving DecidableEq, Repr

/-- The channel `errorWait`: `id` tells the channels made by successive
`make(chan struct{})` apart, `closed` records `close`. -/
structure Chan where
  id : Nat
  closed : Bool
deriving DecidableEq, Repr

/-- The server side of the fake (`fakeVTGateService`). -/
structure fakeVTGateService where
  t : List TestFailure
  panics : Bool
  hasError : Bool
  forceBeginSuccess : Bool
  hasCallerID : Bool
  errorWait : Chan
deriving DecidableEq, Repr

/-- How a call ended: it returned `err`, it panicked with a value whose text is
`x`, or it is parked on the receive `<-f.errorWait` of a channel not yet closed. -/
inductive Outcome where
  | ret (err : error)
  | panic (x : String)
  | blocked
deriving DecidableEq, Repr

/-- A call of a handler with a request and a reply: the receiver, the request
and the reply after the call, and the outcome. -/
structure Call (Q R : Type) where
  f : fakeVTGateService
  query : Q
  reply : R
  out : Outcome

/-- A call of a streaming handler: the receiver and the request after the call,
the messages handed to `sendReply` in order, and the outcome. -/
structure Stream (Q : Type) where
  f : fakeVTGateService
  query : Q
  sent : List proto.QueryResult
  out : Outcome

/-- The callback `sendReply`: from the messages it was handed before and the
message it is handed now to the error it returns. -/
abbrev SendReply := List proto.QueryResult → proto.QueryResult → error

/-- Record a failure: `f.t.Errorf(...)`. -/
def fakeVTGateService.Errorf (f : fakeVTGateService) (e : TestFailure) : fakeVTGateService :=
  { f with t := f.t ++ [e] }

/-- The channel made by `make(chan struct{})` when `c` was the last one made. -/
def Chan.make (c : Chan) : Chan := { id := c.id + 1, closed := false }

/-- The method `checkCallerID` (lines 53-65). -/
def fakeVTGateService.checkCallerID (f : fakeVTGateService) (ctx : Context) (name : String) :
    fakeVTGateService :=
  if !f.hasCallerID then f
  else
    match callerid.EffectiveCallerIDFromContext ctx with
    | none => f.Errorf (TestFailure.noEffectiveCallerID name)
    | some ef =>
      if ef ≠ testCallerID then f.Errorf (TestFailure.invalidEffectiveCallerID name ef)
      else f

/-- The handler `Execute` (lines 68-87). -/
def fakeVTGateService.Execute (f : fakeVTGateService) (ctx : Context) (query : proto.Query)
    (reply : proto.QueryResult) : Call proto.Query proto.QueryResult :=
  if f.hasError then ⟨f, query, reply, Outcome.ret errTestVtGateError⟩
  else if f.panics then ⟨f, query, reply, Outcome.panic "test forced panic"⟩
  else
    let f := f.checkCallerID ctx "Execute"
    let query := { query with CallerID := none }
    match execMap query.Sql with
    | none => ⟨f, query, reply, Outcome.ret (some ("no match for: " ++ query.Sql))⟩
    | some execCase =>
      if query ≠ execCase.execQuery then
        ⟨f.Errorf (TestFailure.wrongRequest "Execute"), query, reply, Outcome.ret none⟩
      else ⟨f, query, execCase.reply, Outcome.ret none⟩

/-- The handler `ExecuteShard` (lines 90-109). -/
def fakeVTGateService.ExecuteShard (f : fakeVTGateService) (ctx : Context)
    (query : proto.QueryShard) (reply : proto.QueryResult) :
    Call proto.QueryShard proto.QueryResult :=
  if f.hasError then ⟨f, query, reply, Outcome.ret errTestVtGateError⟩
  else if f.panics then ⟨f, query, reply, Outcome.panic "test forced panic"⟩
  else
    let f := f.checkCallerID ctx "ExecuteShard"
    let query := { query with CallerID := none }
    match execMap query.Sql with
    | none => ⟨f, query, reply, Outcome.ret (some ("no match for: " ++ query.Sql))⟩
    | some execCase =>
      if query ≠ execCase.shardQuery then
        ⟨f.Errorf (TestFailure.wrongRequest "ExecuteShard"), query, reply, Outcome.ret none⟩
      else ⟨f, query, execCase.reply, Outcome.ret none⟩

/-- The handler `ExecuteKeyspaceIds` (lines 112-131). -/
def fakeVTGateService.ExecuteKeyspaceIds (f : fakeVTGateService) (ctx : Context)
    (query : proto.KeyspaceIdQuery) (reply : proto.QueryResult) :
    Call proto.KeyspaceIdQuery proto.QueryResult :=
  if f.hasError then ⟨f, query, reply, Outcome.ret errTestVtGateError⟩
  else if f.panics then ⟨f, query, reply, Outcome.panic "test forced panic"⟩
  else
    let f := f.checkCallerID ctx "ExecuteKeyspaceIds"
    let query := { query with CallerID := none }
    match execMap query.Sql with
    | none => ⟨f, query, reply, Outcome.ret (some ("no match for: " ++ query.Sql))⟩
    | some execCase =>
      if query ≠ execCase.keyspaceIdQuery then
        ⟨f.Errorf (TestFailure.wrongRequest "ExecuteKeyspaceIds"), query, reply,
          Outcome.ret none⟩
      else ⟨f, query, execCase.reply, Outcome.ret none⟩

/-- The handler `ExecuteKeyRanges` (lines 134-153). -/
def fakeVTGateService.ExecuteKeyRanges (f : fakeVTGateService) (ctx : Context)
    (query : proto.KeyRangeQuery) (reply : proto.QueryResult) :
    Call proto.KeyRangeQuery proto.QueryResult :=
  if f.hasError then ⟨f, query, reply, Outcome.ret errTestVtGateError⟩
  else if f.panics then ⟨f, query, reply, Outcome.panic "test forced panic"⟩
  else
    let f := f.checkCallerID ctx "ExecuteKeyRanges"
    let query := { query with CallerID := none }
    match execMap query.Sql with
    | none => ⟨f, query, reply, Outcome.ret (some ("no match for: " ++ query.Sql))⟩
    | some execCase =>
      if query ≠ execCase.keyRangeQuery then
        ⟨f.Errorf (TestFailure.wrongRequest "ExecuteKeyRanges"), query, reply,
          Outcome.ret none⟩
      else ⟨f, query, execCase.reply, Outcome.ret none⟩

/-- The handler `ExecuteEntityIds` (lines 156-175). -/
def fakeVTGateService.ExecuteEntityIds (f : fakeVTGateService) (ctx : Context)
    (query : proto.EntityIdsQuery) (reply : proto.QueryResult) :
    Call proto.EntityIdsQuery proto.QueryResult :=
  if f.hasError then ⟨f, query, reply, Outcome.ret errTestVtGateError⟩
  else if f.panics then ⟨f, query, reply, Outcome.panic "test forced panic"⟩
  else
    let f := f.checkCallerID ctx "ExecuteEntityIds"
    let query := { query with CallerID := none }
    match execMap query.Sql with
    | none => ⟨f, query, reply, Outcome.ret (some ("no match for: " ++ query.Sql))⟩
    | some execCase =>
      if query ≠ execCase.entityIdsQuery then
        ⟨f.Errorf (TestFailure.wrongRequest "ExecuteEntityIds"), query, reply,
          Outcome.ret none⟩
      else ⟨f, query, execCase.reply, Outcome.ret none⟩

/-- The text of the run-time panic of an index expression out of range. -/
def indexOutOfRange : String := "runtime error: index out of range"

/-- The handler `ExecuteBatchShard` (lines 178-201); `Queries[0]` panics on an
empty or `nil` slice. -/
def fakeVTGateService.ExecuteBatchShard (f : fakeVTGateService) (ctx : Context)
    (batchQuery : proto.BatchQueryShard) (reply : proto.QueryResultList) :
    Call proto.BatchQueryShard proto.QueryResultList :=
  if f.hasError then ⟨f, batchQuery, reply, Outcome.ret errTestVtGateError⟩
  else if f.panics then ⟨f, batchQuery, reply, Outcome.panic "test forced panic"⟩
  else
    let f := f.checkCallerID ctx "ExecuteBatchShard"
    let batchQuery := { batchQuery with CallerID := none }
    match batchQuery.Queries.toList with
    | [] => ⟨f, batchQuery, reply, Outcome.panic indexOutOfRange⟩
    | query0 :: _ =>
      match execMap query0.Sql with
      | none => ⟨f, batchQuery, reply, Outcome.ret (some ("no match for: " ++ query0.Sql))⟩
      | some execCase =>
        if batchQuery ≠ execCase.batchQueryShard then
          ⟨f.Errorf (TestFailure.wrongRequest "ExecuteBatchShard"), batchQuery, reply,
            Outcome.ret none⟩
        else
          let reply := { reply with Error := execCase.reply.Error }
          let reply :=
            match execCase.reply.Result with
            | some result => if reply.Error = "" then { reply with List := Slice.of [result] } else reply
            | none => reply
          let reply := { reply with Session := execCase.reply.Session }
          ⟨f, batchQuery, reply, Outcome.ret none⟩

/-- The handler `ExecuteBatchKeyspaceIds` (lines 204-227); `Queries[0]` panics on
an empty or `nil` slice. -/
def fakeVTGateService.ExecuteBatchKeyspaceIds (f : fakeVTGateService) (ctx : Context)
    (batchQuery : proto.KeyspaceIdBatchQuery) (reply : proto.QueryResultList) :
    Call proto.KeyspaceIdBatchQuery proto.QueryResultList :=
  if f.hasError then ⟨f, batchQuery, reply, Outcome.ret errTestVtGateError⟩
  else if f.panics then ⟨f, batchQuery, reply, Outcome.panic "test forced panic"⟩
  else
    let f := f.checkCallerID ctx "ExecuteBatchKeyspaceIds"
    let batchQuery := { batchQuery with CallerID := none }
    match batchQuery.Queries.toList with
    | [] => ⟨f, batchQuery, reply, Outcome.panic indexOutOfRange⟩
    | query0 :: _ =>
      match execMap query0.Sql with
      | none => ⟨f, batchQuery, reply, Outcome.ret (some ("no match for: " ++ query0.Sql))⟩
      | some execCase =>
        if batchQuery ≠ execCase.keyspaceIdBatchQuery then
          ⟨f.Errorf (TestFailure.wrongRequest "ExecuteBatchKeyspaceIds"), batchQuery, reply,
            Outcome.ret none⟩
        else
          let reply := { reply with Error := execCase.reply.Error }
          let reply :=
            match execCase.reply.Result with
            | some result => if reply.Error = "" then { reply with List := Slice.of [result] } else reply
            | none => reply
          let reply := { reply with Session := execCase.reply.Session }
          ⟨f, batchQuery, reply, Outcome.ret none⟩

/-- The loop `for _, row := range execCase.reply.Result.Rows` of the streaming
handlers (lines 257-263): one message per row, stopping at the first error of
`sendReply`. `sent` holds the messages handed to `sendReply` so far; the result
is the messages handed to it at the end and the error to return, if any. -/
def sendRows (sendReply : SendReply) (sent : List proto.QueryResult) :
    List (Slice Value) → List proto.QueryResult × error
  | [] => (sent, none)
  | row :: rows =>
    let result : proto.QueryResult := { Result := some { Rows := Slice.of [row] } }
    match sendReply sent result with
    | some err => (sent ++ [result], some err)
    | none => sendRows sendReply (sent ++ [result]) rows

/-- The end of the streaming handlers (lines 265-268): the fixture's error string
as a transport error, `nil` when it is empty. -/
def replyError (reply : proto.QueryResult) : error :=
  if reply.Error ≠ "" then some reply.Error else none

/-- The handler `StreamExecute` (lines 230-269). The registry is read before the
identity check and before `CallerID` is cleared. The receive `<-f.errorWait`
returns at once on a closed channel; on an open one the call is parked
(`Outcome.blocked`) and `Stream.resume` runs the rest once the channel is
closed. The same holds for the three handlers below. -/
def fakeVTGateService.StreamExecute (f : fakeVTGateService) (ctx : Context)
    (query : proto.Query) (sendReply : SendReply) : Stream proto.Query :=
  if f.panics then ⟨f, query, [], Outcome.panic "test forced panic"⟩
  else
    match execMap query.Sql with
    | none => ⟨f, query, [], Outcome.ret (some ("no match for: " ++ query.Sql))⟩
    | some execCase =>
      let f := f.checkCallerID ctx "StreamExecute"
      let query := { query with CallerID := none }
      if query ≠ execCase.execQuery then
        ⟨f.Errorf (TestFailure.wrongRequest "StreamExecute"), query, [], Outcome.ret none⟩
      else
        match execCase.reply.Result with
        | some r =>
          let result : proto.QueryResult := { Result := some { Fields := r.Fields } }
          match sendReply [] result with
          | some err => ⟨f, query, [result], Outcome.ret (some err)⟩
          | none =>
            if f.hasError then
              if f.errorWait.closed then
                ⟨{ f with errorWait := f.errorWait.make }, query, [result],
                  Outcome.ret errTestVtGateError⟩
              else ⟨f, query, [result], Outcome.blocked⟩
            else
              match sendRows sendReply [result] r.Rows.toList with
              | (sent, some err) => ⟨f, query, sent, Outcome.ret (some err)⟩
              | (sent, none) => ⟨f, query, sent, Outcome.ret (replyError execCase.reply)⟩
        | none => ⟨f, query, [], Outcome.ret (replyError execCase.reply)⟩

/-- The handler `StreamExecuteShard` (lines 272-311); a request mismatch is
recorded under the name "Execute", as in the source. -/
def fakeVTGateService.StreamExecuteShard (f : fakeVTGateService) (ctx : Context)
    (query : proto.QueryShard) (sendReply : SendReply) : Stream proto.QueryShard :=
  if f.panics then ⟨f, query, [], Outcome.panic "test forced panic"⟩
  else
    let f := f.checkCallerID ctx "StreamExecuteShard"
    let query := { query with CallerID := none }
    match execMap query.Sql with
    | none => ⟨f, query, [], Outcome.ret (some ("no match for: " ++ query.Sql))⟩
    | some execCase =>
      if query ≠ execCase.shardQuery then
        ⟨f.Errorf (TestFailure.wrongRequest "Execute"), query, [], Outcome.ret none⟩
      else
        match execCase.reply.Result with
        | some r =>
          let result : proto.QueryResult := { Result := some { Fields := r.Fields } }
          match sendReply [] result with
          | some err => ⟨f, query, [result], Outcome.ret (some err)⟩
          | none =>
            if f.hasError then
              if f.errorWait.closed then
                ⟨{ f with errorWait := f.errorWait.make }, query, [result],
                  Outcome.ret errTestVtGateError⟩
              else ⟨f, query, [result], Outcome.blocked⟩
            else
              match sendRows sendReply [result] r.Rows.toList with
              | (sent, some err) => ⟨f, query, sent, Outcome.ret (some err)⟩
              | (sent, none) => ⟨f, query, sent, Outcome.ret (replyError execCase.reply)⟩
        | none => ⟨f, query, [], Outcome.ret (replyError execCase.reply)⟩

/-- The handler `StreamExecuteKeyRanges` (lines 314-353). -/
def fakeVTGateService.StreamExecuteKeyRanges (f : fakeVTGateService) (ctx : Context)
    (query : proto.KeyRangeQuery) (sendReply : SendReply) : Stream proto.KeyRangeQuery :=
  if f.panics then ⟨f, query, [], Outcome.panic "test forced panic"⟩
  else
    let f := f.checkCallerID ctx "StreamExecuteKeyRanges"
    let query := { query with CallerID := none }
    match execMap query.Sql with
    | none => ⟨f, query, [], Outcome.ret (some ("no match for: " ++ query.Sql))⟩
    | some execCase =>
      if query ≠ execCase.keyRangeQuery then
        ⟨f.Errorf (TestFailure.wrongRequest "StreamExecuteKeyRanges"), query, [],
          Outcome.ret none⟩
      else
        match execCase.reply.Result with
        | some r =>
          let result : proto.QueryResult := { Result := some { Fields := r.Fields } }
          match sendReply [] result with
          | some err => ⟨f, query, [result], Outcome.ret (some err)⟩
          | none =>
            if f.hasError then
              if f.errorWait.closed then
                ⟨{ f with errorWait := f.errorWait.make }, query, [result],
                  Outcome.ret errTestVtGateError⟩
              else ⟨f, query, [result], Outcome.blocked⟩
            else
              match sendRows sendReply [result] r.Rows.toList with
              | (sent, some err) => ⟨f, query, sent, Outcome.ret (some err)⟩
              | (sent, none) => ⟨f, query, sent, Outcome.ret (replyError execCase.reply)⟩
        | none => ⟨f, query, [], Outcome.ret (replyError execCase.reply)⟩

/-- The handler `StreamExecuteKeyspaceIds` (lines 356-395). -/
def fakeVTGateService.StreamExecuteKeyspaceIds (f : fakeVTGateService) (ctx : Context)
    (query : proto.KeyspaceIdQuery) (sendReply : SendReply) : Stream proto.KeyspaceIdQuery :=
  if f.panics then ⟨f, query, [], Outcome.panic "test forced panic"⟩
  else
    let f := f.checkCallerID ctx "StreamExecuteKeyspaceIds"
    let query := { query with CallerID := none }
    match execMap query.Sql with
    | none => ⟨f, query, [], Outcome.ret (some ("no match for: " ++ query.Sql))⟩
    | some execCase =>
      if query ≠ execCase.keyspaceIdQuery then
        ⟨f.Errorf (TestFailure.wrongRequest "StreamExecuteKeyspaceIds"), query, [],
          Outcome.ret none⟩
      else
        match execCase.reply.Result with
        | some r =>
          let result : proto.QueryResult := { Result := some { Fields := r.Fields } }
          match sendReply [] result with
          | some err => ⟨f, query, [result], Outcome.ret (some err)⟩
          | none =>
            if f.hasError then
              if f.errorWait.closed then
                ⟨{ f with errorWait := f.errorWait.make }, query, [result],
                  Outcome.ret errTestVtGateError⟩
              else ⟨f, query, [result], Outcome.blocked⟩
            else
              match sendRows sendReply [result] r.Rows.toList with
              | (sent, some err) => ⟨f, query, sent, Outcome.ret (some err)⟩
              | (sent, none) => ⟨f, query, sent, Outcome.ret (replyError execCase.reply)⟩
        | none => ⟨f, query, [], Outcome.ret (replyError execCase.reply)⟩

/-- The suite's release signal `close(fake.errorWait)` (lines 947, 973). -/
def fakeVTGateService.closeErrorWait (f : fakeVTGateService) : fakeVTGateService :=
  { f with errorWait := { f.errorWait with closed := true } }

/-- The rest of a streaming handler parked on `<-f.errorWait`, run once the
channel is closed (lines 254-255): a fresh channel replaces the gate and the
sentinel is returned. A call that is not parked, or whose gate is still open,
is left as it is. -/
def Stream.resume {Q : Type} (s : Stream Q) : Stream Q :=
  match s.out with
  | Outcome.blocked =>
    if s.f.errorWait.closed then
      { s with f := { s.f with errorWait := s.f.errorWait.make },
               out := Outcome.ret errTestVtGateError }
    else s
  | _ => s

/-- The suite signals the gate of a call: `close(fake.errorWait)` on the receiver
the call holds. -/
def Stream.signal {Q : Type} (s : Stream Q) : Stream Q :=
  { s with f := s.f.closeErrorWait }

/-- A call of `Begin`: the receiver and the out-session after the call, and the
outcome. -/
structure BeginCall where
  f : fakeVTGateService
  outSession : Session
  out : Outcome

/-- The handler `Begin` (lines 398-410). -/
def fakeVTGateService.Begin (f : fakeVTGateService) (ctx : Context) (outSession : Session) :
    BeginCall :=
  let f := f.checkCallerID ctx "Begin"
  if f.forceBeginSuccess then ⟨f, session1, Outcome.ret none⟩
  else if f.hasError then ⟨f, outSession, Outcome.ret errTestVtGateError⟩
  else if f.panics then ⟨f, outSession, Outcome.panic "test forced panic"⟩
  else ⟨f, session1, Outcome.ret none⟩

/-- A call of `Commit` or `Rollback`: the receiver after the call and the outcome
(the in-session is only read). -/
structure TxCall where
  f : fakeVTGateService
  out : Outcome

/-- The handler `Commit` (lines 413-425). -/
def fakeVTGateService.Commit (f : fakeVTGateService) (ctx : Context)
    (inSession : Option Session) : TxCall :=
  let f := f.checkCallerID ctx "Commit"
  if f.hasError then ⟨f, Outcome.ret errTestVtGateError⟩
  else if f.panics then ⟨f, Outcome.panic "test forced panic"⟩
  else if inSession ≠ some session2 then ⟨f, Outcome.ret (some "commit: session mismatch")⟩
  else ⟨f, Outcome.ret none⟩

/-- The handler `Rollback` (lines 428-440). -/
def fakeVTGateService.Rollback (f : fakeVTGateService) (ctx : Context)
    (inSession : Option Session) : TxCall :=
  if f.hasError then ⟨f, Outcome.ret errTestVtGateError⟩
  else if f.panics then ⟨f, Outcome.panic "test forced panic"⟩
  else
    let f := f.checkCallerID ctx "Rollback"
    if inSession ≠ some session2 then ⟨f, Outcome.ret (some "rollback: session mismatch")⟩
    else ⟨f, Outcome.ret none⟩

/-- The handler `SplitQuery` (lines 443-457). -/
def fakeVTGateService.SplitQuery (f : fakeVTGateService) (ctx : Context)
    (req : proto.SplitQueryRequest) (reply : proto.SplitQueryResult) :
    Call proto.SplitQueryRequest proto.SplitQueryResult :=
  if f.hasError then ⟨f, req, reply, Outcome.ret errTestVtGateError⟩
  else if f.panics then ⟨f, req, reply, Outcome.panic "test forced panic"⟩
  else
    let f := f.checkCallerID ctx "SplitQuery"
    let req := { req with CallerID := none }
    let f := if req ≠ splitQueryRequest then f.Errorf (TestFailure.wrongInput "SplitQuery") else f
    ⟨f, req, splitQueryResult, Outcome.ret none⟩

/-- A call of `GetSrvKeyspace`: the receiver after the call, the snapshot
returned (`nil` is `none`) and the outcome. -/
structure SrvKeyspaceCall where
  f : fakeVTGateService
  result : Option topo.SrvKeyspace
  out : Outcome

/-- The handler `GetSrvKeyspace` (lines 460-471); the context is not read. -/
def fakeVTGateService.GetSrvKeyspace (f : fakeVTGateService) (_ctx : Context)
    (keyspace : String) : SrvKeyspaceCall :=
  if f.hasError then ⟨f, none, Outcome.ret errTestVtGateError⟩
  else if f.panics then ⟨f, none, Outcome.panic "test forced panic"⟩
  else
    let f :=
      if keyspace ≠ getSrvKeyspaceKeyspace then f.Errorf (TestFailure.wrongInput "GetSrvKeyspace")
      else f
    ⟨f, some getSrvKeyspaceResult, Outcome.ret none⟩

/-- The constructor `CreateFakeServer` (lines 474-481), given the `*testing.T`. -/
def CreateFakeServer (t : List TestFailure) : fakeVTGateService :=
  { t := t
    panics := false
    hasError := false
    forceBeginSuccess := false
    hasCallerID := true
    errorWait := { id := 0, closed := false } }

/-- The Go builtin `recover()` in a function deferred around a call that ended
with `out`: the value of the pending panic, by its text, `nil` (`none`) when the
call did not panic. -/
def recover (out : Outcome) : Option String :=
  match out with
  | Outcome.panic x => some x
  | _ => none

/-- The method `HandlePanic` (lines 484-488). `recovered` is what `recover()`
returns, `stack` is the text `tb.Stack(4)` gives (package `tb` is outside this
file), `err` is the error behind the pointer; the result is the error behind
the pointer afterwards. `%v` prints a panic value by its text. -/
def fakeVTGateService.HandlePanic (_f : fakeVTGateService) (recovered : Option String)
    (stack : String) (err : error) : error :=
  match recovered with
  | some x => some ("uncaught panic: " ++ x ++ "\n" ++ stack)
  | none => err

/-- The server of the suite after `fs.hasError = hasError` and `fs.panics = panics`
(lines 525, 554, 557, 582), with no failure recorded yet. -/
def serverWith (hasError panics : Bool) : fakeVTGateService :=
  { CreateFakeServer [] with hasError := hasError, panics := panics }

/-! ## The suite's handling of a stream (`client.go`, lines 884-892) -/

/-- Modelled from the spec: the transport binding, which is outside this file,
delivers to the client the `Result` of every message the handler handed to
`sendReply`, in order; these are the packets the suite reads from a stream. -/
def packets (sent : List proto.QueryResult) : List mproto.QueryResult :=
  sent.filterMap (fun m => m.Result)

/-- One turn of the loop `for packet := range packets` of `testStreamExecute`
(lines 885-892). -/
def reassembleStep (qr packet : mproto.QueryResult) : mproto.QueryResult :=
  let qr := if packet.Fields.len ≠ 0 then { qr with Fields := packet.Fields } else qr
  let qr :=
    if packet.Rows.len ≠ 0 then { qr with Rows := qr.Rows.append packet.Rows.toList } else qr
  qr

/-- The result `qr` that `testStreamExecute` builds from the packets (lines
884-892), starting from the zero value. -/
def reassemble (ps : List mproto.QueryResult) : mproto.QueryResult :=
  ps.foldl reassembleStep {}

/-- The value `wantResult` that `testStreamExecute` compares `qr` with (lines
893-895). -/
def wantResult (r : mproto.QueryResult) : mproto.QueryResult :=
  { r with RowsAffected := 0, InsertId := 0 }

/-- The Go function `strings.Contains`: `sub` occurs in `s`. -/
def stringsContains (s sub : String) : Prop := List.IsInfix sub.data s.data

instance (s sub : String) : Decidable (stringsContains s sub) :=
  inferInstanceAs (Decidable (List.IsInfix sub.data s.data))

/-- The suite's assertion `expectPanic` (lines 585-591). The value is the message
of the `t.Fatalf` it calls, `none` when it calls none, that is when it accepts
the error; `%v` prints a `nil` error as "<nil>" and any other by its text. -/
def expectPanic (err : error) : Option String :=
  let expected1 := "test forced panic"
  let expected2 := "uncaught panic"
  match err with
  | none =>
    some ("Expected a panic error with '" ++ expected1 ++ "' or '" ++ expected2 ++
      "' but got: <nil>")
  | some text =>
    if ¬ stringsContains text expected1 ∨ ¬ stringsContains text expected2 then
      some ("Expected a panic error with '" ++ expected1 ++ "' or '" ++ expected2 ++
        "' but got: " ++ text)
    else none

/-! ## Fault modes -/

/-- Normal mode: `hasError` and `panics` are both false. -/
abbrev normalMode (f : fakeVTGateService) : Prop := f.hasError = false ∧ f.panics = false

/-- Declared-error mode: `hasError` is set. -/
abbrev declaredErrorMode (f : fakeVTGateService) : Prop := f.hasError = true

/-- Injected-fault mode: `panics` is set and `hasError` is clear. -/
abbrev injectedFaultMode (f : fakeVTGateService) : Prop := f.panics = true ∧ f.hasError = false

/-- A callback that accepts every message: `sendReply` always returns `nil`. -/
abbrev accepts (sendReply : SendReply) : Prop := ∀ sent m, sendReply sent m = none

/-- The callback that accepts every message. -/
def sendOk : SendReply := fun _ _ => none

/-! ## The messages of a stream -/

/-- The message carrying only the field descriptors of `r` (lines 245-246). -/
def fieldsMessage (r : mproto.QueryResult) : proto.QueryResult :=
  { Result := some { Fields := r.Fields } }

/-- The message carrying only the row `row` (lines 258-259). -/
def rowMessage (row : Slice Value) : proto.QueryResult :=
  { Result := some { Rows := Slice.of [row] } }

/-- The whole stream of a fixture result: nothing when there is no result, else
the fields message followed by one message per row, in order. -/
def streamMessages : Option mproto.QueryResult → List proto.QueryResult
  | none => []
  | some r => fieldsMessage r :: r.Rows.toList.map rowMessage

/-- A callback that fails with `err` on the `k`-th message it is handed and
accepts every other message. -/
def sendFailAt (k : Nat) (err : String) : SendReply :=
  fun sent _ => if sent.length + 1 = k then some err else none

/-! ## The streaming-error scenarios of the suite (`client.go`, lines 544-551) -/

/-- What one streaming-error scenario leaves: the server afterwards, the gate
the suite signalled as it was when signalled, and the outcome of the call. -/
structure ScenarioRun where
  f : fakeVTGateService
  gate : Chan
  out : Outcome
deriving DecidableEq, Repr

/-- One streaming-error scenario seen from the server (`testStreamExecuteError`,
lines 931-955, and the seven like it): the handler is called and hands over the
fields message, the suite reads it and signals the gate the server then holds
(`close(fake.errorWait)`), and the call, if parked, runs on. -/
def runStreamError {Q : Type} (call : fakeVTGateService → Stream Q) (f : fakeVTGateService) :
    ScenarioRun :=
  let s := call f
  ⟨s.signal.resume.f, s.f.errorWait, s.signal.resume.out⟩

/-- The eight streaming-error scenarios in the order `TestSuite` runs them; the
two of each pair (`StreamExecute` and `StreamExecute2`, ...) reach the same
handler with the "request1" request of the variant. -/
def streamErrorScenarios : List (fakeVTGateService → ScenarioRun) :=
  [runStreamError (fun f => f.StreamExecute newContext execCase_request1.execQuery sendOk),
   runStreamError (fun f => f.StreamExecute newContext execCase_request1.execQuery sendOk),
   runStreamError (fun f => f.StreamExecuteShard newContext execCase_request1.shardQuery sendOk),
   runStreamError (fun f => f.StreamExecuteShard newContext execCase_request1.shardQuery sendOk),
   runStreamError
     (fun f => f.StreamExecuteKeyRanges newContext execCase_request1.keyRangeQuery sendOk),
   runStreamError
     (fun f => f.StreamExecuteKeyRanges newContext execCase_request1.keyRangeQuery sendOk),
   runStreamError
     (fun f => f.StreamExecuteKeyspaceIds newContext execCase_request1.keyspaceIdQuery sendOk),
   runStreamError
     (fun f => f.StreamExecuteKeyspaceIds newContext execCase_request1.keyspaceIdQuery sendOk)]

/-- Run scenarios one after the other, each on the server the one before left. -/
def runScenarios : List (fakeVTGateService → ScenarioRun) → fakeVTGateService →
    List ScenarioRun
  | [], _ => []
  | scenario :: rest, f => scenario f :: runScenarios rest (scenario f).f

/-! ## Calls of the server, for statements about every handler -/

/-- A call of one of the sixteen handlers of the server, with its inputs. -/
inductive HandlerCall where
  | Execute (ctx : Context) (query : proto.Query) (reply : proto.QueryResult)
  | ExecuteShard (ctx : Context) (query : proto.QueryShard) (reply : proto.QueryResult)
  | ExecuteKeyspaceIds (ctx : Context) (query : proto.KeyspaceIdQuery)
      (reply : proto.QueryResult)
  | ExecuteKeyRanges (ctx : Context) (query : proto.KeyRangeQuery) (reply : proto.QueryResult)
  | ExecuteEntityIds (ctx : Context) (query : proto.EntityIdsQuery) (reply : proto.QueryResult)
  | ExecuteBatchShard (ctx : Context) (batchQuery : proto.BatchQueryShard)
      (reply : proto.QueryResultList)
  | ExecuteBatchKeyspaceIds (ctx : Context) (batchQuery : proto.KeyspaceIdBatchQuery)
      (reply : proto.QueryResultList)
  | StreamExecute (ctx : Context) (query : proto.Query) (sendReply : SendReply)
  | StreamExecuteShard (ctx : Context) (query : proto.QueryShard) (sendReply : SendReply)
  | StreamExecuteKeyRanges (ctx : Context) (query : proto.KeyRangeQuery)
      (sendReply : SendReply)
  | StreamExecuteKeyspaceIds (ctx : Context) (query : proto.KeyspaceIdQuery)
      (sendReply : SendReply)
  | Begin (ctx : Context) (outSession : Session)
  | Commit (ctx : Context) (inSession : Option Session)
  | Rollback (ctx : Context) (inSession : Option Session)
  | SplitQuery (ctx : Context) (req : proto.SplitQueryRequest) (reply : proto.SplitQueryResult)
  | GetSrvKeyspace (ctx : Context) (keyspace : String)

/-- The server after a call (for a streaming call that is parked, the server it
holds while parked). -/
def HandlerCall.after (call : HandlerCall) (f : fakeVTGateService) : fakeVTGateService :=
  match call with
  | HandlerCall.Execute ctx query reply => (f.Execute ctx query reply).f
  | HandlerCall.ExecuteShard ctx query reply => (f.ExecuteShard ctx query reply).f
  | HandlerCall.ExecuteKeyspaceIds ctx query reply => (f.ExecuteKeyspaceIds ctx query reply).f
  | HandlerCall.ExecuteKeyRanges ctx query reply => (f.ExecuteKeyRanges ctx query reply).f
  | HandlerCall.ExecuteEntityIds ctx query reply => (f.ExecuteEntityIds ctx query reply).f
  | HandlerCall.ExecuteBatchShard ctx batchQuery reply =>
    (f.ExecuteBatchShard ctx batchQuery reply).f
  | HandlerCall.ExecuteBatchKeyspaceIds ctx batchQuery reply =>
    (f.ExecuteBatchKeyspaceIds ctx batchQuery reply).f
  | HandlerCall.StreamExecute ctx query sendReply => (f.StreamExecute ctx query sendReply).f
  | HandlerCall.StreamExecuteShard ctx query sendReply =>
    (f.StreamExecuteShard ctx query sendReply).f
  | HandlerCall.StreamExecuteKeyRanges ctx query sendReply =>
    (f.StreamExecuteKeyRanges ctx query sendReply).f
  | HandlerCall.StreamExecuteKeyspaceIds ctx query sendReply =>
    (f.StreamExecuteKeyspaceIds ctx query sendReply).f
  | HandlerCall.Begin ctx outSession => (f.Begin ctx outSession).f
  | HandlerCall.Commit ctx inSession => (f.Commit ctx inSession).f
  | HandlerCall.Rollback ctx inSession => (f.Rollback ctx inSession).f
  | HandlerCall.SplitQuery ctx req reply => (f.SplitQuery ctx req reply).f
  | HandlerCall.GetSrvKeyspace ctx keyspace => (f.GetSrvKeyspace ctx keyspace).f

/-! ## The transaction handle of the client facade (package `vtgateconn`) -/

/-- Modelled from the spec: the transaction handle `vtgateconn.VTGateTx`, whose
package is outside this file: "a handle whose subsequent calls implicitly attach
the session and whose Commit/Rollback finalize it". It holds the session that is
attached, `none` when no active session is attached. -/
structure VTGateTx where
  session : Option Session
deriving DecidableEq, Repr

/-- A call through the client facade: the handle and the server after the call,
the reply and the error the caller gets. -/
structure ClientCall (R : Type) where
  tx : VTGateTx
  f : fakeVTGateService
  reply : R
  err : error

/-- Modelled from the spec: the error a client call returns for a handler call
that ended with `out` and an application error string `appError` in its reply;
the transport binding is outside this file. A fault is translated at the
transport boundary by `HandlePanic`, an error the handler returned is passed on,
and a non-empty application error string is passed through as the error. -/
def clientError (f : fakeVTGateService) (stack : String) (out : Outcome) (appError : String) :
    error :=
  let err : error :=
    match out with
    | Outcome.ret (some e) => some e
    | _ => if appError ≠ "" then some appError else none
  f.HandlePanic (recover out) stack err

/-- Modelled from the spec: `VTGateConn.Begin` of the client facade, which is
outside this file: it calls the server's `Begin` and "returns a handle": the
session the server gave is attached when the call succeeded. -/
def VTGateConn.Begin (f : fakeVTGateService) (stack : String) (ctx : Context) :
    ClientCall Unit :=
  let c := f.Begin ctx { InTransaction := false, ShardSessions := Slice.nil }
  match clientError c.f stack c.out "" with
  | some e => ⟨{ session := none }, c.f, (), some e⟩
  | none => ⟨{ session := some c.outSession }, c.f, (), none⟩

/-- Modelled from the spec: `VTGateConn.Begin2`, the v2 operation, which reaches
the same handler `Begin` of the server. -/
def VTGateConn.Begin2 (f : fakeVTGateService) (stack : String) (ctx : Context) :
    ClientCall Unit :=
  VTGateConn.Begin f stack ctx

/-- Modelled from the spec: `VTGateTx.Execute` of the client facade, which is
outside this file. With no active session attached it fails with
"execute: not in transaction"; otherwise the call attaches the session and
goes to the server, and the session of the reply is the one attached afterwards. -/
def VTGateTx.Execute (tx : VTGateTx) (f : fakeVTGateService) (stack : String) (ctx : Context)
    (query : String) (bindVars : BindVariables) (tabletType : TabletType)
    (notInTransaction : Bool) :
    ClientCall proto.QueryResult :=
  match tx.session with
  | none => ⟨tx, f, {}, some "execute: not in transaction"⟩
  | some session =>
    let c := f.Execute ctx
        { Sql := query, BindVariables := bindVars, TabletType := tabletType,
          Session := some session, NotInTransaction := notInTransaction,
          CallerID := callerid.EffectiveCallerIDFromContext ctx } {}
    ⟨{ session := c.reply.Session }, c.f, c.reply, clientError c.f stack c.out c.reply.Error⟩

/-- Modelled from the spec: `VTGateTx.ExecuteShard` of the client facade, which is
outside this file. With no active session attached it fails with
"executeShard: not in transaction"; otherwise the call attaches the session and
goes to the server, and the session of the reply is the one attached afterwards. -/
def VTGateTx.ExecuteShard (tx : VTGateTx) (f : fakeVTGateService) (stack : String) (ctx : Context)
    (query keyspace : String) (shards : Slice String) (bindVars : BindVariables)
    (tabletType : TabletType) (notInTransaction : Bool) :
    ClientCall proto.QueryResult :=
  match tx.session with
  | none => ⟨tx, f, {}, some "executeShard: not in transaction"⟩
  | some session =>
    let c := f.ExecuteShard ctx
        { Sql := query, BindVariables := bindVars, Keyspace := keyspace, Shards := shards,
          TabletType := tabletType, Session := some session,
          NotInTransaction := notInTransaction,
          CallerID := callerid.EffectiveCallerIDFromContext ctx } {}
    ⟨{ session := c.reply.Session }, c.f, c.reply, clientError c.f stack c.out c.reply.Error⟩

/-- Modelled from the spec: `VTGateTx.ExecuteKeyspaceIds` of the client facade, which is
outside this file. With no active session attached it fails with
"executeKeyspaceIds: not in transaction"; otherwise the call attaches the session and
goes to the server, and the session of the reply is the one attached afterwards. -/
def VTGateTx.ExecuteKeyspaceIds (tx : VTGateTx) (f : fakeVTGateService) (stack : String) (ctx : Context)
    (query keyspace : String) (keyspaceIds : Slice KeyspaceId) (bindVars : BindVariables)
    (tabletType : TabletType) (notInTransaction : Bool) :
    ClientCall proto.QueryResult :=
  match tx.session with
  | none => ⟨tx, f, {}, some "executeKeyspaceIds: not in transaction"⟩
  | some session =>
    let c := f.ExecuteKeyspaceIds ctx
        { Sql := query, BindVariables := bindVars, Keyspace := keyspace,
          KeyspaceIds := keyspaceIds, TabletType := tabletType, Session := some session,
          NotInTransaction := notInTransaction,
          CallerID := callerid.EffectiveCallerIDFromContext ctx } {}
    ⟨{ session := c.reply.Session }, c.f, c.reply, clientError c.f stack c.out c.reply.Error⟩

/-- Modelled from the spec: `VTGateTx.ExecuteKeyRanges` of the client facade, which is
outside this file. With no active session attached it fails with
"executeKeyRanges: not in transaction"; otherwise the call attaches the session and
goes to the server, and the session of the reply is the one attached afterwards. -/
def VTGateTx.ExecuteKeyRanges (tx : VTGateTx) (f : fakeVTGateService) (stack : String) (ctx : Context)
    (query keyspace : String) (keyRanges : Slice KeyRange) (bindVars : BindVariables)
    (tabletType : TabletType) (notInTransaction : Bool) :
    ClientCall proto.QueryResult :=
  match tx.session with
  | none => ⟨tx, f, {}, some "executeKeyRanges: not in transaction"⟩
  | some session =>
    let c := f.ExecuteKeyRanges ctx
        { Sql := query, BindVariables := bindVars, Keyspace := keyspace,
          KeyRanges := keyRanges, TabletType := tabletType, Session := some session,
          NotInTransaction := notInTransaction,
          CallerID := callerid.EffectiveCallerIDFromContext ctx } {}
    ⟨{ session := c.reply.Session }, c.f, c.reply, clientError c.f stack c.out c.reply.Error⟩

/-- Modelled from the spec: `VTGateTx.ExecuteEntityIds` of the client facade, which is
outside this file. With no active session attached it fails with
"executeEntityIds: not in transaction"; otherwise the call attaches the session and
goes to the server, and the session of the reply is the one attached afterwards. -/
def VTGateTx.ExecuteEntityIds (tx : VTGateTx) (f : fakeVTGateService) (stack : String) (ctx : Context)
    (query keyspace entityColumnName : String) (entityKeyspaceIDs : Slice proto.EntityId)
    (bindVars : BindVariables) (tabletType : TabletType) (notInTransaction : Bool) :
    ClientCall proto.QueryResult :=
  match tx.session with
  | none => ⟨tx, f, {}, some "executeEntityIds: not in transaction"⟩
  | some session =>
    let c := f.ExecuteEntityIds ctx
        { Sql := query, BindVariables := bindVars, Keyspace := keyspace,
          EntityColumnName := entityColumnName, EntityKeyspaceIDs := entityKeyspaceIDs,
          TabletType := tabletType, Session := some session,
          NotInTransaction := notInTransaction,
          CallerID := callerid.EffectiveCallerIDFromContext ctx } {}
    ⟨{ session := c.reply.Session }, c.f, c.reply, clientError c.f stack c.out c.reply.Error⟩

/-- Modelled from the spec: `VTGateTx.ExecuteBatchShard` of the client facade, which is
outside this file. With no active session attached it fails with
"executeBatchShard: not in transaction"; otherwise the call attaches the session and
goes to the server, and the session of the reply is the one attached afterwards. -/
def VTGateTx.ExecuteBatchShard (tx : VTGateTx) (f : fakeVTGateService) (stack : String) (ctx : Context)
    (queries : Slice proto.BoundShardQuery) (tabletType : TabletType) (asTransaction : Bool) :
    ClientCall proto.QueryResultList :=
  match tx.session with
  | none => ⟨tx, f, {}, some "executeBatchShard: not in transaction"⟩
  | some session =>
    let c := f.ExecuteBatchShard ctx
        { Queries := queries, TabletType := tabletType, AsTransaction := asTransaction,
          Session := some session, CallerID := callerid.EffectiveCallerIDFromContext ctx } {}
    ⟨{ session := c.reply.Session }, c.f, c.reply, clientError c.f stack c.out c.reply.Error⟩

/-- Modelled from the spec: `VTGateTx.ExecuteBatchKeyspaceIds` of the client facade, which is
outside this file. With no active session attached it fails with
"executeBatchKeyspaceIds: not in transaction"; otherwise the call attaches the session and
goes to the server, and the session of the reply is the one attached afterwards. -/
def VTGateTx.ExecuteBatchKeyspaceIds (tx : VTGateTx) (f : fakeVTGateService) (stack : String) (ctx : Context)
    (queries : Slice proto.BoundKeyspaceIdQuery) (tabletType : TabletType)
    (asTransaction : Bool) :
    ClientCall proto.QueryResultList :=
  match tx.session with
  | none => ⟨tx, f, {}, some "executeBatchKeyspaceIds: not in transaction"⟩
  | some session =>
    let c := f.ExecuteBatchKeyspaceIds ctx
        { Queries := queries, TabletType := tabletType, AsTransaction := asTransaction,
          Session := some session, CallerID := callerid.EffectiveCallerIDFromContext ctx } {}
    ⟨{ session := c.reply.Session }, c.f, c.reply, clientError c.f stack c.out c.reply.Error⟩

/-- Modelled from the spec: `VTGateTx.Commit` of the client facade, which is
outside this file. With no active session attached it fails with
"commit: not in transaction"; otherwise it presents the session to the server's
`Commit` and finalizes the handle: no session is attached afterwards. -/
def VTGateTx.Commit (tx : VTGateTx) (f : fakeVTGateService) (stack : String) (ctx : Context) :
    ClientCall Unit :=
  match tx.session with
  | none => ⟨tx, f, (), some "commit: not in transaction"⟩
  | some session =>
    let c := f.Commit ctx (some session)
    ⟨{ session := none }, c.f, (), clientError c.f stack c.out ""⟩

/-- Modelled from the spec: `VTGateTx.Rollback` of the client facade, which is
outside this file. With no active session attached it succeeds without a call;
otherwise it presents the session to the server's `Rollback` and finalizes the
handle: no session is attached afterwards. -/
def VTGateTx.Rollback (tx : VTGateTx) (f : fakeVTGateService) (stack : String)
    (ctx : Context) : ClientCall Unit :=
  match tx.session with
  | none => ⟨tx, f, (), none⟩
  | some session =>
    let c := f.Rollback ctx (some session)
    ⟨{ session := none }, c.f, (), clientError c.f stack c.out ""⟩

/-- Modelled from the spec: `VTGateTx.Commit2`, the v2 operation, which reaches
the same handler `Commit` of the server. -/
def VTGateTx.Commit2 (tx : VTGateTx) (f : fakeVTGateService) (stack : String)
    (ctx : Context) : ClientCall Unit :=
  tx.Commit f stack ctx

/-- Modelled from the spec: `VTGateTx.Rollback2`, the v2 operation, which reaches
the same handler `Rollback` of the server. -/
def VTGateTx.Rollback2 (tx : VTGateTx) (f : fakeVTGateService) (stack : String)
    (ctx : Context) : ClientCall Unit :=
  tx.Rollback f stack ctx

/-! ## Lemmas on the registry -/

theorem execMap_cases {k : String} {c : ExecCase} (h : execMap k = some c) :
    (k = "request1" ∧ c = execCase_request1) ∨ (k = "errorRequst" ∧ c = execCase_errorRequst) ∨
    (k = "txRequest" ∧ c = execCase_txRequest) ∨ (k = "txRequestNIT" ∧ c = execCase_txRequestNIT) := by
  unfold execMap at h
  split_ifs at h with h1 h2 h3 h4
  · exact Or.inl ⟨h1, (Option.some.inj h).symm⟩
  · exact Or.inr (Or.inl ⟨h2, (Option.some.inj h).symm⟩)
  · exact Or.inr (Or.inr (Or.inl ⟨h3, (Option.some.inj h).symm⟩))
  · exact Or.inr (Or.inr (Or.inr ⟨h4, (Option.some.inj h).symm⟩))

/-- Every fixture is registered under the SQL text of each of its request shapes. -/
theorem execMap_sql {k : String} {c : ExecCase} (h : execMap k = some c) :
    execMap c.execQuery.Sql = some c ∧ execMap c.shardQuery.Sql = some c ∧
    execMap c.keyspaceIdQuery.Sql = some c ∧ execMap c.keyRangeQuery.Sql = some c ∧
    execMap c.entityIdsQuery.Sql = some c := by
  rcases execMap_cases h with ⟨_, rfl⟩ | ⟨_, rfl⟩ | ⟨_, rfl⟩ | ⟨_, rfl⟩ <;> decide

/-! ## Lemmas on streams -/

theorem sendRows_accepts {sendReply : SendReply} (h : accepts sendReply)
    (rows : List (Slice Value)) (sent : List proto.QueryResult) :
    sendRows sendReply sent rows = (sent ++ rows.map rowMessage, none) := by
  induction rows generalizing sent with
  | nil => simp [sendRows]
  | cons row rows ih =>
    have hrow : sendReply sent { Result := some { Rows := Slice.of [row] } } = none := h _ _
    simp only [sendRows, hrow]
    rw [ih]
    simp [rowMessage]

/-- In normal mode a streaming handler given the matching request of a registered
fixture, with a callback that accepts every message, hands over the whole stream
of the fixture and returns the fixture's error string. -/
theorem stream_normal {f : fakeVTGateService} (ctx : Context) {k : String} {c : ExecCase}
    {sendReply : SendReply} (hmode : normalMode f) (hk : execMap k = some c)
    (hacc : accepts sendReply) :
    (∀ q : proto.Query, { q with CallerID := none } = c.execQuery →
      (f.StreamExecute ctx q sendReply).sent = streamMessages c.reply.Result ∧
      (f.StreamExecute ctx q sendReply).out = Outcome.ret (replyError c.reply)) ∧
    (∀ q : proto.QueryShard, { q with CallerID := none } = c.shardQuery →
      (f.StreamExecuteShard ctx q sendReply).sent = streamMessages c.reply.Result ∧
      (f.StreamExecuteShard ctx q sendReply).out = Outcome.ret (replyError c.reply)) ∧
    (∀ q : proto.KeyRangeQuery, { q with CallerID := none } = c.keyRangeQuery →
      (f.StreamExecuteKeyRanges ctx q sendReply).sent = streamMessages c.reply.Result ∧
      (f.StreamExecuteKeyRanges ctx q sendReply).out = Outcome.ret (replyError c.reply)) ∧
    (∀ q : proto.KeyspaceIdQuery, { q with CallerID := none } = c.keyspaceIdQuery →
      (f.StreamExecuteKeyspaceIds ctx q sendReply).sent = streamMessages c.reply.Result ∧
      (f.StreamExecuteKeyspaceIds ctx q sendReply).out = Outcome.ret (replyError c.reply)) := by
  obtain ⟨he, hp⟩ := hmode
  obtain ⟨h1, h2, h3, h4, _⟩ := execMap_sql hk
  have hce : ∀ name, (f.checkCallerID ctx name).hasError = false := by
    intro name
    simp only [fakeVTGateService.checkCallerID, fakeVTGateService.Errorf]
    split_ifs <;> (try split) <;> (try split_ifs) <;> simp [he]
  refine ⟨?_, ?_, ?_, ?_⟩
  · intro q hq
    have hm : execMap q.Sql = some c := by
      have hsql : q.Sql = c.execQuery.Sql := by rw [← hq]
      rw [hsql]; exact h1
    cases hr : c.reply.Result with
    | none => simp [fakeVTGateService.StreamExecute, hp, hm, hq, hr, streamMessages]
    | some r =>
      simp [fakeVTGateService.StreamExecute, hp, hm, hq, hr, streamMessages, hacc [] _, hce,
        sendRows_accepts hacc, fieldsMessage]
  · intro q hq
    have hm : execMap q.Sql = some c := by
      have hsql : q.Sql = c.shardQuery.Sql := by rw [← hq]
      rw [hsql]; exact h2
    cases hr : c.reply.Result with
    | none => simp [fakeVTGateService.StreamExecuteShard, hp, hm, hq, hr, streamMessages]
    | some r =>
      simp [fakeVTGateService.StreamExecuteShard, hp, hm, hq, hr, streamMessages, hacc [] _,
        hce, sendRows_accepts hacc, fieldsMessage]
  · intro q hq
    have hm : execMap q.Sql = some c := by
      have hsql : q.Sql = c.keyRangeQuery.Sql := by rw [← hq]
      rw [hsql]; exact h4
    cases hr : c.reply.Result with
    | none => simp [fakeVTGateService.StreamExecuteKeyRanges, hp, hm, hq, hr, streamMessages]
    | some r =>
      simp [fakeVTGateService.StreamExecuteKeyRanges, hp, hm, hq, hr, streamMessages,
        hacc [] _, hce, sendRows_accepts hacc, fieldsMessage]
  · intro q hq
    have hm : execMap q.Sql = some c := by
      have hsql : q.Sql = c.keyspaceIdQuery.Sql := by rw [← hq]
      rw [hsql]; exact h3
    cases hr : c.reply.Result with
    | none => simp [fakeVTGateService.StreamExecuteKeyspaceIds, hp, hm, hq, hr, streamMessages]
    | some r =>
      simp [fakeVTGateService.StreamExecuteKeyspaceIds, hp, hm, hq, hr, streamMessages,
        hacc [] _, hce, sendRows_accepts hacc, fieldsMessage]

theorem reassemble_rows (rows : List (Slice Value)) (qr : mproto.QueryResult) :
    (packets (rows.map rowMessage)).foldl reassembleStep qr =
      { qr with Rows := qr.Rows.append rows } := by
  induction rows generalizing qr with
  | nil => simp [packets, Slice.append]
  | cons row rows ih =>
    have hstep : packets (rowMessage row :: rows.map rowMessage) =
        { Rows := Slice.of [row] } :: packets (rows.map rowMessage) := by
      simp [packets, rowMessage]
    simp only [List.map_cons, hstep, List.foldl_cons]
    rw [ih]
    cases rows <;> simp [reassembleStep, Slice.append, Slice.len, Slice.toList]

/-- Reassembling the whole stream of a result gives the result with both
counters reset, when its fields and its rows are each `nil` or not empty (the
suite leaves out an empty slice, so that `qr` keeps its `nil`). -/
theorem reassemble_streamMessages (r : mproto.QueryResult)
    (hF : r.Fields = Slice.nil ∨ r.Fields.len ≠ 0) (hR : r.Rows = Slice.nil ∨ r.Rows.len ≠ 0) :
    reassemble (packets (streamMessages (some r))) = wantResult r := by
  have hstep : packets (streamMessages (some r)) =
      { Fields := r.Fields } :: packets (r.Rows.toList.map rowMessage) := by
    simp [packets, streamMessages, fieldsMessage]
  rw [reassemble, hstep, List.foldl_cons, reassemble_rows]
  obtain ⟨F, n, i, R⟩ := r
  cases F with
  | nil =>
    cases R with
    | nil => simp [reassembleStep, wantResult, Slice.append, Slice.len, Slice.toList]
    | of rows =>
      cases rows with
      | nil => simp [Slice.len, Slice.toList] at hR
      | cons x xs => simp [reassembleStep, wantResult, Slice.append, Slice.len, Slice.toList]
  | of fs =>
    cases fs with
    | nil => simp [Slice.len, Slice.toList] at hF
    | cons y ys =>
      cases R with
      | nil => simp [reassembleStep, wantResult, Slice.append, Slice.len, Slice.toList]
      | of rows =>
        cases rows with
        | nil => simp [Slice.len, Slice.toList] at hR
        | cons x xs => simp [reassembleStep, wantResult, Slice.append, Slice.len, Slice.toList]

/-- The only registered fixture with a result is "request1", with `result1`. -/
theorem registered_result {k : String} {c : ExecCase} {r : mproto.QueryResult}
    (hk : execMap k = some c) (hr : c.reply.Result = some r) : r = result1 := by
  rcases execMap_cases hk with ⟨_, rfl⟩ | ⟨_, rfl⟩ | ⟨_, rfl⟩ | ⟨_, rfl⟩
  · exact (Option.some.inj hr).symm
  · simp [execCase_errorRequst] at hr
  · simp [execCase_txRequest] at hr
  · simp [execCase_txRequestNIT] at hr

/-- In normal mode `Execute`, given a request that equals a registered fixture's
expected request once its `CallerID` is cleared, copies the fixture's reply. -/
theorem Execute_matching (f : fakeVTGateService) (ctx : Context) (q : proto.Query)
    (reply : proto.QueryResult) (c : ExecCase) (hmode : normalMode f)
    (hm : execMap q.Sql = some c) (hq : { q with CallerID := none } = c.execQuery) :
    f.Execute ctx q reply =
      ⟨f.checkCallerID ctx "Execute", { q with CallerID := none }, c.reply, Outcome.ret none⟩ := by
  obtain ⟨he, hp⟩ := hmode
  simp [fakeVTGateService.Execute, he, hp, hm, hq]

/-- The identity check only records failures: the flags and the gate of the
server are as before. -/
theorem checkCallerID_flags (f : fakeVTGateService) (ctx : Context) (name : String) :
    (f.checkCallerID ctx name).hasError = f.hasError ∧
    (f.checkCallerID ctx name).panics = f.panics ∧
    (f.checkCallerID ctx name).forceBeginSuccess = f.forceBeginSuccess ∧
    (f.checkCallerID ctx name).hasCallerID = f.hasCallerID ∧
    (f.checkCallerID ctx name).errorWait = f.errorWait := by
  simp only [fakeVTGateService.checkCallerID, fakeVTGateService.Errorf]
  split_ifs <;> (try split) <;> (try split_ifs) <;> simp

/-- In declared-error mode with `panics` clear, a streaming handler given the
matching request of a registered fixture with a result `r`, whose fields message
the callback accepts, hands over that one message; it then returns the sentinel
behind a fresh gate if the gate was closed, and is parked if the gate is open. -/
theorem stream_declared_error {f : fakeVTGateService} (ctx : Context) {k : String}
    {c : ExecCase} {r : mproto.QueryResult} {sendReply : SendReply}
    (herr : f.hasError = true) (hp : f.panics = false) (hk : execMap k = some c)
    (hr : c.reply.Result = some r) (hsend : sendReply [] (fieldsMessage r) = none) :
    (∀ q : proto.Query, { q with CallerID := none } = c.execQuery →
      f.StreamExecute ctx q sendReply =
        if f.errorWait.closed then
          ⟨{ f.checkCallerID ctx "StreamExecute" with errorWait := f.errorWait.make },
            { q with CallerID := none }, [fieldsMessage r], Outcome.ret errTestVtGateError⟩
        else
          ⟨f.checkCallerID ctx "StreamExecute", { q with CallerID := none },
            [fieldsMessage r], Outcome.blocked⟩) ∧
    (∀ q : proto.QueryShard, { q with CallerID := none } = c.shardQuery →
      f.StreamExecuteShard ctx q sendReply =
        if f.errorWait.closed then
          ⟨{ f.checkCallerID ctx "StreamExecuteShard" with errorWait := f.errorWait.make },
            { q with CallerID := none }, [fieldsMessage r], Outcome.ret errTestVtGateError⟩
        else
          ⟨f.checkCallerID ctx "StreamExecuteShard", { q with CallerID := none },
            [fieldsMessage r], Outcome.blocked⟩) ∧
    (∀ q : proto.KeyRangeQuery, { q with CallerID := none } = c.keyRangeQuery →
      f.StreamExecuteKeyRanges ctx q sendReply =
        if f.errorWait.closed then
          ⟨{ f.checkCallerID ctx "StreamExecuteKeyRanges" with errorWait := f.errorWait.make },
            { q with CallerID := none }, [fieldsMessage r], Outcome.ret errTestVtGateError⟩
        else
          ⟨f.checkCallerID ctx "StreamExecuteKeyRanges", { q with CallerID := none },
            [fieldsMessage r], Outcome.blocked⟩) ∧
    (∀ q : proto.KeyspaceIdQuery, { q with CallerID := none } = c.keyspaceIdQuery →
      f.StreamExecuteKeyspaceIds ctx q sendReply =
        if f.errorWait.closed then
          ⟨{ f.checkCallerID ctx "StreamExecuteKeyspaceIds" with
              errorWait := f.errorWait.make },
            { q with CallerID := none }, [fieldsMessage r], Outcome.ret errTestVtGateError⟩
        else
          ⟨f.checkCallerID ctx "StreamExecuteKeyspaceIds", { q with CallerID := none },
            [fieldsMessage r], Outcome.blocked⟩) := by
  obtain ⟨h1, h2, h3, h4, _⟩ := execMap_sql hk
  have hce : ∀ name, (f.checkCallerID ctx name).hasError = true := fun name => by
    rw [(checkCallerID_flags f ctx name).1, herr]
  have hcw : ∀ name, (f.checkCallerID ctx name).errorWait = f.errorWait := fun name =>
    (checkCallerID_flags f ctx name).2.2.2.2
  have hsend' : sendReply [] { Result := some { Fields := r.Fields } } = none := hsend
  refine ⟨?_, ?_, ?_, ?_⟩
  · intro q hq
    have hm : execMap q.Sql = some c := by
      have hsql : q.Sql = c.execQuery.Sql := by rw [← hq]
      rw [hsql]; exact h1
    simp [fakeVTGateService.StreamExecute, hp, hm, hq, hr, hsend', hce, hcw, fieldsMessage]
  · intro q hq
    have hm : execMap q.Sql = some c := by
      have hsql : q.Sql = c.shardQuery.Sql := by rw [← hq]
      rw [hsql]; exact h2
    simp [fakeVTGateService.StreamExecuteShard, hp, hm, hq, hr, hsend', hce, hcw, fieldsMessage]
  · intro q hq
    have hm : execMap q.Sql = some c := by
      have hsql : q.Sql = c.keyRangeQuery.Sql := by rw [← hq]
      rw [hsql]; exact h4
    simp [fakeVTGateService.StreamExecuteKeyRanges, hp, hm, hq, hr, hsend', hce, hcw,
      fieldsMessage]
  · intro q hq
    have hm : execMap q.Sql = some c := by
      have hsql : q.Sql = c.keyspaceIdQuery.Sql := by rw [← hq]
      rw [hsql]; exact h3
    simp [fakeVTGateService.StreamExecuteKeyspaceIds, hp, hm, hq, hr, hsend', hce, hcw,
      fieldsMessage]

/-- A parked call whose gate the suite signals resumes, returns the sentinel and
holds a fresh, open gate; the messages handed over are as before. -/
theorem resume_signal_blocked {Q : Type} (s : Stream Q) (h : s.out = Outcome.blocked) :
    s.signal.resume.out = Outcome.ret errTestVtGateError ∧
    s.signal.resume.sent = s.sent ∧ s.signal.resume.query = s.query ∧
    s.signal.resume.f.t = s.f.t ∧
    s.signal.resume.f.errorWait = { id := s.f.errorWait.id + 1, closed := false } := by
  simp [Stream.resume, Stream.signal, fakeVTGateService.closeErrorWait, h, Chan.make]

/-! ## Unregistered SQL text -/

/-- C1: in normal mode, for every SQL text `s` that is not a key of `execMap`,
each of the seven non-streaming query handlers (the batch handlers with `s` the
SQL of the first sub-query) returns the error "no match for: " followed by `s`
and leaves the reply as it was passed in, and each of the four streaming
handlers returns the same error having handed no message to `sendReply`. -/
theorem no_match_for_unregistered_sql (f : fakeVTGateService) (ctx : Context) (s : String)
    (hmode : normalMode f) (hs : execMap s = none) :
    (∀ (q : proto.Query) (reply : proto.QueryResult), q.Sql = s →
      (f.Execute ctx q reply).out = Outcome.ret (some ("no match for: " ++ s)) ∧
      (f.Execute ctx q reply).reply = reply) ∧
    (∀ (q : proto.QueryShard) (reply : proto.QueryResult), q.Sql = s →
      (f.ExecuteShard ctx q reply).out = Outcome.ret (some ("no match for: " ++ s)) ∧
      (f.ExecuteShard ctx q reply).reply = reply) ∧
    (∀ (q : proto.KeyspaceIdQuery) (reply : proto.QueryResult), q.Sql = s →
      (f.ExecuteKeyspaceIds ctx q reply).out = Outcome.ret (some ("no match for: " ++ s)) ∧
      (f.ExecuteKeyspaceIds ctx q reply).reply = reply) ∧
    (∀ (q : proto.KeyRangeQuery) (reply : proto.QueryResult), q.Sql = s →
      (f.ExecuteKeyRanges ctx q reply).out = Outcome.ret (some ("no match for: " ++ s)) ∧
      (f.ExecuteKeyRanges ctx q reply).reply = reply) ∧
    (∀ (q : proto.EntityIdsQuery) (reply : proto.QueryResult), q.Sql = s →
      (f.ExecuteEntityIds ctx q reply).out = Outcome.ret (some ("no match for: " ++ s)) ∧
      (f.ExecuteEntityIds ctx q reply).reply = reply) ∧
    (∀ (b : proto.BatchQueryShard) (reply : proto.QueryResultList)
        (q0 : proto.BoundShardQuery) (rest : List proto.BoundShardQuery),
      b.Queries.toList = q0 :: rest → q0.Sql = s →
      (f.ExecuteBatchShard ctx b reply).out = Outcome.ret (some ("no match for: " ++ s)) ∧
      (f.ExecuteBatchShard ctx b reply).reply = reply) ∧
    (∀ (b : proto.KeyspaceIdBatchQuery) (reply : proto.QueryResultList)
        (q0 : proto.BoundKeyspaceIdQuery) (rest : List proto.BoundKeyspaceIdQuery),
      b.Queries.toList = q0 :: rest → q0.Sql = s →
      (f.ExecuteBatchKeyspaceIds ctx b reply).out = Outcome.ret (some ("no match for: " ++ s)) ∧
      (f.ExecuteBatchKeyspaceIds ctx b reply).reply = reply) ∧
    (∀ (q : proto.Query) (sendReply : SendReply), q.Sql = s →
      (f.StreamExecute ctx q sendReply).out = Outcome.ret (some ("no match for: " ++ s)) ∧
      (f.StreamExecute ctx q sendReply).sent = []) ∧
    (∀ (q : proto.QueryShard) (sendReply : SendReply), q.Sql = s →
      (f.StreamExecuteShard ctx q sendReply).out = Outcome.ret (some ("no match for: " ++ s)) ∧
      (f.StreamExecuteShard ctx q sendReply).sent = []) ∧
    (∀ (q : proto.KeyRangeQuery) (sendReply : SendReply), q.Sql = s →
      (f.StreamExecuteKeyRanges ctx q sendReply).out =
        Outcome.ret (some ("no match for: " ++ s)) ∧
      (f.StreamExecuteKeyRanges ctx q sendReply).sent = []) ∧
    (∀ (q : proto.KeyspaceIdQuery) (sendReply : SendReply), q.Sql = s →
      (f.StreamExecuteKeyspaceIds ctx q sendReply).out =
        Outcome.ret (some ("no match for: " ++ s)) ∧
      (f.StreamExecuteKeyspaceIds ctx q sendReply).sent = []) := by
  obtain ⟨he, hp⟩ := hmode
  refine ⟨?_, ?_, ?_, ?_, ?_, ?_, ?_, ?_, ?_, ?_, ?_⟩
  · intro q reply hq
    simp [fakeVTGateService.Execute, he, hp, hq, hs]
  · intro q reply hq
    simp [fakeVTGateService.ExecuteShard, he, hp, hq, hs]
  · intro q reply hq
    simp [fakeVTGateService.ExecuteKeyspaceIds, he, hp, hq, hs]
  · intro q reply hq
    simp [fakeVTGateService.ExecuteKeyRanges, he, hp, hq, hs]
  · intro q reply hq
    simp [fakeVTGateService.ExecuteEntityIds, he, hp, hq, hs]
  · intro b reply q0 rest hb hq
    simp [fakeVTGateService.ExecuteBatchShard, he, hp, hb, hq, hs]
  · intro b reply q0 rest hb hq
    simp [fakeVTGateService.ExecuteBatchKeyspaceIds, he, hp, hb, hq, hs]
  · intro q sendReply hq
    simp [fakeVTGateService.StreamExecute, hp, hq, hs]
  · intro q sendReply hq
    simp [fakeVTGateService.StreamExecuteShard, hp, hq, hs]
  · intro q sendReply hq
    simp [fakeVTGateService.StreamExecuteKeyRanges, hp, hq, hs]
  · intro q sendReply hq
    simp [fakeVTGateService.StreamExecuteKeyspaceIds, hp, hq, hs]

/-- Witness of C1 at the suite's unregistered text "none": the hypotheses hold
and `Execute` and `StreamExecute` answer "no match for: none". -/
theorem no_match_for_unregistered_sql_witness :
    normalMode (CreateFakeServer []) ∧ execMap "none" = none ∧
    ((CreateFakeServer []).Execute newContext { Sql := "none" } {}).out =
      Outcome.ret (some "no match for: none") ∧
    ((CreateFakeServer []).StreamExecute newContext { Sql := "none" } sendOk).sent = [] :=
  ⟨by decide, by decide,
   ((no_match_for_unregistered_sql (CreateFakeServer []) newContext "none"
      (by decide) (by decide)).1 { Sql := "none" } {} rfl).1,
   ((no_match_for_unregistered_sql (CreateFakeServer []) newContext "none"
      (by decide) (by decide)).2.2.2.2.2.2.2.1 { Sql := "none" } sendOk rfl).2⟩

/-! ## Matching requests -/

/-- C2: in normal mode, for every registered key `k` with fixture `c` and every
request that equals the fixture's expected request of the variant once its
`CallerID` is cleared, each of the five single-query handlers returns no error
and sets the reply to the fixture's reply (result, session and error string). -/
theorem single_query_returns_fixture_reply (f : fakeVTGateService) (ctx : Context)
    (k : String) (c : ExecCase) (hmode : normalMode f) (hk : execMap k = some c) :
    (∀ (q : proto.Query) (reply : proto.QueryResult),
      { q with CallerID := none } = c.execQuery →
      (f.Execute ctx q reply).out = Outcome.ret none ∧
      (f.Execute ctx q reply).reply = c.reply) ∧
    (∀ (q : proto.QueryShard) (reply : proto.QueryResult),
      { q with CallerID := none } = c.shardQuery →
      (f.ExecuteShard ctx q reply).out = Outcome.ret none ∧
      (f.ExecuteShard ctx q reply).reply = c.reply) ∧
    (∀ (q : proto.KeyspaceIdQuery) (reply : proto.QueryResult),
      { q with CallerID := none } = c.keyspaceIdQuery →
      (f.ExecuteKeyspaceIds ctx q reply).out = Outcome.ret none ∧
      (f.ExecuteKeyspaceIds ctx q reply).reply = c.reply) ∧
    (∀ (q : proto.KeyRangeQuery) (reply : proto.QueryResult),
      { q with CallerID := none } = c.keyRangeQuery →
      (f.ExecuteKeyRanges ctx q reply).out = Outcome.ret none ∧
      (f.ExecuteKeyRanges ctx q reply).reply = c.reply) ∧
    (∀ (q : proto.EntityIdsQuery) (reply : proto.QueryResult),
      { q with CallerID := none } = c.entityIdsQuery →
      (f.ExecuteEntityIds ctx q reply).out = Outcome.ret none ∧
      (f.ExecuteEntityIds ctx q reply).reply = c.reply) := by
  obtain ⟨he, hp⟩ := hmode
  obtain ⟨h1, h2, h3, h4, h5⟩ := execMap_sql hk
  refine ⟨?_, ?_, ?_, ?_, ?_⟩
  · intro q reply hq
    have hm : execMap q.Sql = some c := by
      have hsql : q.Sql = c.execQuery.Sql := by rw [← hq]
      rw [hsql]; exact h1
    simp [fakeVTGateService.Execute, he, hp, hm, hq]
  · intro q reply hq
    have hm : execMap q.Sql = some c := by
      have hsql : q.Sql = c.shardQuery.Sql := by rw [← hq]
      rw [hsql]; exact h2
    simp [fakeVTGateService.ExecuteShard, he, hp, hm, hq]
  · intro q reply hq
    have hm : execMap q.Sql = some c := by
      have hsql : q.Sql = c.keyspaceIdQuery.Sql := by rw [← hq]
      rw [hsql]; exact h3
    simp [fakeVTGateService.ExecuteKeyspaceIds, he, hp, hm, hq]
  · intro q reply hq
    have hm : execMap q.Sql = some c := by
      have hsql : q.Sql = c.keyRangeQuery.Sql := by rw [← hq]
      rw [hsql]; exact h4
    simp [fakeVTGateService.ExecuteKeyRanges, he, hp, hm, hq]
  · intro q reply hq
    have hm : execMap q.Sql = some c := by
      have hsql : q.Sql = c.entityIdsQuery.Sql := by rw [← hq]
      rw [hsql]; exact h5
    simp [fakeVTGateService.ExecuteEntityIds, he, hp, hm, hq]

/-- Witness of C2 at fixture "errorRequst" and a request carrying a caller
identity: `ExecuteShard` returns no error and the reply with "app error". -/
theorem single_query_returns_fixture_reply_witness :
    normalMode (CreateFakeServer []) ∧ execMap "errorRequst" = some execCase_errorRequst ∧
    ((CreateFakeServer []).ExecuteShard newContext
      { execCase_errorRequst.shardQuery with CallerID := some testCallerID } {}).reply =
      { Result := none, Session := none, Error := "app error" } :=
  ⟨by decide, by decide,
   ((single_query_returns_fixture_reply (CreateFakeServer []) newContext "errorRequst"
      execCase_errorRequst (by decide) (by decide)).2.1
      { execCase_errorRequst.shardQuery with CallerID := some testCallerID } {}
      (by decide)).2⟩

/-! ## Streams in normal mode -/

/-- C3: in normal mode, for every registered fixture whose reply has a result
with fields `F` and rows `r1..rn`, each of the four streaming handlers given the
fixture's matching request (and a callback accepting every message) emits
exactly `n+1` messages: first the message carrying `F` and no rows, then one
message per row carrying that single row and no fields, in order; when the
fixture reply has no result it emits no message. -/
theorem stream_emits_fields_then_rows (f : fakeVTGateService) (ctx : Context) (k : String)
    (c : ExecCase) (sendReply : SendReply) (hmode : normalMode f) (hk : execMap k = some c)
    (hacc : accepts sendReply) :
    (∀ r : mproto.QueryResult, c.reply.Result = some r →
      (∀ q : proto.Query, { q with CallerID := none } = c.execQuery →
        (f.StreamExecute ctx q sendReply).sent = fieldsMessage r :: r.Rows.toList.map rowMessage ∧
        (f.StreamExecute ctx q sendReply).sent.length = r.Rows.len + 1) ∧
      (∀ q : proto.QueryShard, { q with CallerID := none } = c.shardQuery →
        (f.StreamExecuteShard ctx q sendReply).sent = fieldsMessage r :: r.Rows.toList.map rowMessage ∧
        (f.StreamExecuteShard ctx q sendReply).sent.length = r.Rows.len + 1) ∧
      (∀ q : proto.KeyRangeQuery, { q with CallerID := none } = c.keyRangeQuery →
        (f.StreamExecuteKeyRanges ctx q sendReply).sent =
          fieldsMessage r :: r.Rows.toList.map rowMessage ∧
        (f.StreamExecuteKeyRanges ctx q sendReply).sent.length = r.Rows.len + 1) ∧
      (∀ q : proto.KeyspaceIdQuery, { q with CallerID := none } = c.keyspaceIdQuery →
        (f.StreamExecuteKeyspaceIds ctx q sendReply).sent =
          fieldsMessage r :: r.Rows.toList.map rowMessage ∧
        (f.StreamExecuteKeyspaceIds ctx q sendReply).sent.length = r.Rows.len + 1)) ∧
    (c.reply.Result = none →
      (∀ q : proto.Query, { q with CallerID := none } = c.execQuery →
        (f.StreamExecute ctx q sendReply).sent = []) ∧
      (∀ q : proto.QueryShard, { q with CallerID := none } = c.shardQuery →
        (f.StreamExecuteShard ctx q sendReply).sent = []) ∧
      (∀ q : proto.KeyRangeQuery, { q with CallerID := none } = c.keyRangeQuery →
        (f.StreamExecuteKeyRanges ctx q sendReply).sent = []) ∧
      (∀ q : proto.KeyspaceIdQuery, { q with CallerID := none } = c.keyspaceIdQuery →
        (f.StreamExecuteKeyspaceIds ctx q sendReply).sent = [])) := by
  obtain ⟨h1, h2, h3, h4⟩ := stream_normal ctx hmode hk hacc
  refine ⟨fun r hr => ⟨?_, ?_, ?_, ?_⟩, fun hr => ⟨?_, ?_, ?_, ?_⟩⟩
  · intro q hq
    have h := (h1 q hq).1
    rw [hr] at h
    simp [h, streamMessages, Slice.len]
  · intro q hq
    have h := (h2 q hq).1
    rw [hr] at h
    simp [h, streamMessages, Slice.len]
  · intro q hq
    have h := (h3 q hq).1
    rw [hr] at h
    simp [h, streamMessages, Slice.len]
  · intro q hq
    have h := (h4 q hq).1
    rw [hr] at h
    simp [h, streamMessages, Slice.len]
  · intro q hq
    have h := (h1 q hq).1
    rw [hr] at h
    simpa [streamMessages] using h
  · intro q hq
    have h := (h2 q hq).1
    rw [hr] at h
    simpa [streamMessages] using h
  · intro q hq
    have h := (h3 q hq).1
    rw [hr] at h
    simpa [streamMessages] using h
  · intro q hq
    have h := (h4 q hq).1
    rw [hr] at h
    simpa [streamMessages] using h

/-- Witness of C3 at fixture "request1": `StreamExecuteShard` emits the fields
message and then the two row messages. -/
theorem stream_emits_fields_then_rows_witness :
    normalMode (CreateFakeServer []) ∧ execMap "request1" = some execCase_request1 ∧
    accepts sendOk ∧
    ((CreateFakeServer []).StreamExecuteShard newContext execCase_request1.shardQuery
      sendOk).sent =
      [{ Result := some { Fields := Slice.of [{ Name := "field1", Type_ := 42 },
                                              { Name := "field2", Type_ := 73 }] } },
       { Result := some { Rows := Slice.of [Slice.of [Value.String (bytesOf "row1 value1"),
                                                       Value.String (bytesOf "row1 value2")]] } },
       { Result := some { Rows := Slice.of [Slice.of [Value.String (bytesOf "row2 value1"),
                                                       Value.String (bytesOf "row2 value2")]] } }] :=
  ⟨by decide, by decide, fun _ _ => rfl,
   (((stream_emits_fields_then_rows (CreateFakeServer []) newContext "request1"
      execCase_request1 sendOk (by decide) (by decide) (fun _ _ => rfl)).1 result1 rfl).2.1
      execCase_request1.shardQuery (by decide)).1⟩

/-- C4: streaming round trip. For every registered fixture with a result `r`,
the packets of the messages each streaming handler emits for the matching
request, reassembled as the suite does, give `r` with `RowsAffected` and
`InsertId` set to 0 and fields and rows unchanged; for fixture "request1" this
is 2 fields and 2 rows obtained from 3 messages. -/
theorem stream_round_trip (f : fakeVTGateService) (ctx : Context) (k : String) (c : ExecCase)
    (r : mproto.QueryResult) (sendReply : SendReply) (hmode : normalMode f)
    (hk : execMap k = some c) (hr : c.reply.Result = some r) (hacc : accepts sendReply) :
    ((∀ q : proto.Query, { q with CallerID := none } = c.execQuery →
        reassemble (packets (f.StreamExecute ctx q sendReply).sent) =
          { r with RowsAffected := 0, InsertId := 0 }) ∧
      (∀ q : proto.QueryShard, { q with CallerID := none } = c.shardQuery →
        reassemble (packets (f.StreamExecuteShard ctx q sendReply).sent) =
          { r with RowsAffected := 0, InsertId := 0 }) ∧
      (∀ q : proto.KeyRangeQuery, { q with CallerID := none } = c.keyRangeQuery →
        reassemble (packets (f.StreamExecuteKeyRanges ctx q sendReply).sent) =
          { r with RowsAffected := 0, InsertId := 0 }) ∧
      (∀ q : proto.KeyspaceIdQuery, { q with CallerID := none } = c.keyspaceIdQuery →
        reassemble (packets (f.StreamExecuteKeyspaceIds ctx q sendReply).sent) =
          { r with RowsAffected := 0, InsertId := 0 })) ∧
    (f.StreamExecute ctx execCase_request1.execQuery sendReply).sent.length = 3 ∧
    (reassemble (packets
      (f.StreamExecute ctx execCase_request1.execQuery sendReply).sent)).Fields.len = 2 ∧
    (reassemble (packets
      (f.StreamExecute ctx execCase_request1.execQuery sendReply).sent)).Rows.len = 2 ∧
    reassemble (packets (f.StreamExecute ctx execCase_request1.execQuery sendReply).sent) =
      wantResult result1 := by
  obtain ⟨h1, h2, h3, h4⟩ := stream_normal ctx hmode hk hacc
  have hw := reassemble_streamMessages r (Or.inr (by rw [registered_result hk hr]; decide))
    (Or.inr (by rw [registered_result hk hr]; decide))
  rw [wantResult] at hw
  have hreq1 : (f.StreamExecute ctx execCase_request1.execQuery sendReply).sent =
      streamMessages (some result1) :=
    ((stream_normal ctx hmode (by decide : execMap "request1" = some execCase_request1)
      hacc).1 execCase_request1.execQuery (by decide)).1
  refine ⟨⟨?_, ?_, ?_, ?_⟩, ?_, ?_, ?_, ?_⟩
  · intro q hq
    rw [(h1 q hq).1, hr]; exact hw
  · intro q hq
    rw [(h2 q hq).1, hr]; exact hw
  · intro q hq
    rw [(h3 q hq).1, hr]; exact hw
  · intro q hq
    rw [(h4 q hq).1, hr]; exact hw
  · rw [hreq1]; decide
  · rw [hreq1]; decide
  · rw [hreq1]; decide
  · rw [hreq1]; exact reassemble_streamMessages result1 (Or.inr (by decide)) (Or.inr (by decide))

/-- Witness of C4 at fixture "request1" and `StreamExecuteKeyRanges`: the
reassembled result is `result1` with both counters 0. -/
theorem stream_round_trip_witness :
    normalMode (CreateFakeServer []) ∧ execMap "request1" = some execCase_request1 ∧
    execCase_request1.reply.Result = some result1 ∧ accepts sendOk ∧
    reassemble (packets ((CreateFakeServer []).StreamExecuteKeyRanges newContext
      execCase_request1.keyRangeQuery sendOk).sent) =
      { Fields := Slice.of [{ Name := "field1", Type_ := 42 }, { Name := "field2", Type_ := 73 }]
        RowsAffected := 0
        InsertId := 0
        Rows := Slice.of
          [Slice.of [Value.String (bytesOf "row1 value1"), Value.String (bytesOf "row1 value2")],
           Slice.of [Value.String (bytesOf "row2 value1"),
                     Value.String (bytesOf "row2 value2")]] } :=
  ⟨by decide, by decide, rfl, fun _ _ => rfl,
   (stream_round_trip (CreateFakeServer []) newContext "request1" execCase_request1 result1
      sendOk (by decide) (by decide) rfl (fun _ _ => rfl)).1.2.2.1
      execCase_request1.keyRangeQuery (by decide)⟩

/-! ## The plain query of fixture "request1" -/

/-- C5: in normal mode, `Execute` given the registered request for "request1"
(with any caller identity attached) returns no error and a reply whose result
has exactly the 2 fields ("field1", 42) and ("field2", 73), `RowsAffected` 123,
`InsertId` 72 and the 2 rows of 2 string cells each, with empty error string and
no session. -/
theorem execute_request1 (f : fakeVTGateService) (ctx : Context) (cid : Option CallerID)
    (reply : proto.QueryResult) (hmode : normalMode f) :
    (f.Execute ctx { execCase_request1.execQuery with CallerID := cid } reply).out =
      Outcome.ret none ∧
    (f.Execute ctx { execCase_request1.execQuery with CallerID := cid } reply).reply =
      { Result := some
          { Fields := Slice.of [{ Name := "field1", Type_ := 42 }, { Name := "field2", Type_ := 73 }]
            RowsAffected := 123
            InsertId := 72
            Rows := Slice.of
              [Slice.of [Value.String (bytesOf "row1 value1"),
                         Value.String (bytesOf "row1 value2")],
               Slice.of [Value.String (bytesOf "row2 value1"),
                         Value.String (bytesOf "row2 value2")]] }
        Session := none
        Error := "" } := by
  have key := Execute_matching f ctx { execCase_request1.execQuery with CallerID := cid } reply
    execCase_request1 hmode (by decide : execMap "request1" = some execCase_request1) rfl
  rw [key]
  exact ⟨rfl, rfl⟩

/-- Witness of C5 on the server made by `CreateFakeServer`, with the suite's
context and identity. -/
theorem execute_request1_witness :
    normalMode (CreateFakeServer []) ∧
    ((CreateFakeServer []).Execute newContext
      { execCase_request1.execQuery with CallerID := some testCallerID } {}).out =
      Outcome.ret none :=
  ⟨by decide,
   (execute_request1 (CreateFakeServer []) newContext (some testCallerID) {} (by decide)).1⟩

/-! ## The error string of a fixture as the end of a stream -/

/-- C6: in normal mode, for every registered fixture and each streaming handler
given the matching request (and a callback accepting every message): the handler
has emitted all field and row messages of the fixture result when it returns;
it returns an error whose text is the fixture's error string `e` when `e` is not
empty, and no error when `e` is empty. For fixture "errorRequst" it emits zero
messages and returns the error "app error". -/
theorem stream_returns_fixture_error (f : fakeVTGateService) (ctx : Context) (k : String)
    (c : ExecCase) (sendReply : SendReply) (hmode : normalMode f) (hk : execMap k = some c)
    (hacc : accepts sendReply) :
    (∀ q : proto.Query, { q with CallerID := none } = c.execQuery →
      (f.StreamExecute ctx q sendReply).sent = streamMessages c.reply.Result ∧
      (c.reply.Error ≠ "" →
        (f.StreamExecute ctx q sendReply).out = Outcome.ret (some c.reply.Error)) ∧
      (c.reply.Error = "" → (f.StreamExecute ctx q sendReply).out = Outcome.ret none)) ∧
    (∀ q : proto.QueryShard, { q with CallerID := none } = c.shardQuery →
      (f.StreamExecuteShard ctx q sendReply).sent = streamMessages c.reply.Result ∧
      (c.reply.Error ≠ "" →
        (f.StreamExecuteShard ctx q sendReply).out = Outcome.ret (some c.reply.Error)) ∧
      (c.reply.Error = "" → (f.StreamExecuteShard ctx q sendReply).out = Outcome.ret none)) ∧
    (∀ q : proto.KeyRangeQuery, { q with CallerID := none } = c.keyRangeQuery →
      (f.StreamExecuteKeyRanges ctx q sendReply).sent = streamMessages c.reply.Result ∧
      (c.reply.Error ≠ "" →
        (f.StreamExecuteKeyRanges ctx q sendReply).out = Outcome.ret (some c.reply.Error)) ∧
      (c.reply.Error = "" →
        (f.StreamExecuteKeyRanges ctx q sendReply).out = Outcome.ret none)) ∧
    (∀ q : proto.KeyspaceIdQuery, { q with CallerID := none } = c.keyspaceIdQuery →
      (f.StreamExecuteKeyspaceIds ctx q sendReply).sent = streamMessages c.reply.Result ∧
      (c.reply.Error ≠ "" →
        (f.StreamExecuteKeyspaceIds ctx q sendReply).out = Outcome.ret (some c.reply.Error)) ∧
      (c.reply.Error = "" →
        (f.StreamExecuteKeyspaceIds ctx q sendReply).out = Outcome.ret none)) ∧
    ((f.StreamExecute ctx execCase_errorRequst.execQuery sendReply).sent = [] ∧
      (f.StreamExecute ctx execCase_errorRequst.execQuery sendReply).out =
        Outcome.ret (some "app error")) ∧
    ((f.StreamExecuteShard ctx execCase_errorRequst.shardQuery sendReply).sent = [] ∧
      (f.StreamExecuteShard ctx execCase_errorRequst.shardQuery sendReply).out =
        Outcome.ret (some "app error")) ∧
    ((f.StreamExecuteKeyRanges ctx execCase_errorRequst.keyRangeQuery sendReply).sent = [] ∧
      (f.StreamExecuteKeyRanges ctx execCase_errorRequst.keyRangeQuery sendReply).out =
        Outcome.ret (some "app error")) ∧
    ((f.StreamExecuteKeyspaceIds ctx execCase_errorRequst.keyspaceIdQuery sendReply).sent = [] ∧
      (f.StreamExecuteKeyspaceIds ctx execCase_errorRequst.keyspaceIdQuery sendReply).out =
        Outcome.ret (some "app error")) := by
  obtain ⟨h1, h2, h3, h4⟩ := stream_normal ctx hmode hk hacc
  obtain ⟨e1, e2, e3, e4⟩ := stream_normal ctx hmode
    (by decide : execMap "errorRequst" = some execCase_errorRequst) hacc
  have hne : ∀ h : c.reply.Error ≠ "", replyError c.reply = some c.reply.Error := by
    intro h; simp [replyError, h]
  have hemp : ∀ h : c.reply.Error = "", replyError c.reply = none := by
    intro h; simp [replyError, h]
  refine ⟨?_, ?_, ?_, ?_, ?_, ?_, ?_, ?_⟩
  · intro q hq
    exact ⟨(h1 q hq).1, fun h => by rw [(h1 q hq).2, hne h], fun h => by rw [(h1 q hq).2, hemp h]⟩
  · intro q hq
    exact ⟨(h2 q hq).1, fun h => by rw [(h2 q hq).2, hne h], fun h => by rw [(h2 q hq).2, hemp h]⟩
  · intro q hq
    exact ⟨(h3 q hq).1, fun h => by rw [(h3 q hq).2, hne h], fun h => by rw [(h3 q hq).2, hemp h]⟩
  · intro q hq
    exact ⟨(h4 q hq).1, fun h => by rw [(h4 q hq).2, hne h], fun h => by rw [(h4 q hq).2, hemp h]⟩
  · exact ⟨(e1 _ rfl).1, (e1 _ rfl).2⟩
  · exact ⟨(e2 _ rfl).1, (e2 _ rfl).2⟩
  · exact ⟨(e3 _ rfl).1, (e3 _ rfl).2⟩
  · exact ⟨(e4 _ rfl).1, (e4 _ rfl).2⟩

/-- Witness of C6 at fixture "errorRequst" and `StreamExecuteKeyspaceIds`: no
message is emitted and the error is "app error". -/
theorem stream_returns_fixture_error_witness :
    normalMode (CreateFakeServer []) ∧ execMap "errorRequst" = some execCase_errorRequst ∧
    accepts sendOk ∧
    ((CreateFakeServer []).StreamExecuteKeyspaceIds newContext
      execCase_errorRequst.keyspaceIdQuery sendOk).out = Outcome.ret (some "app error") :=
  ⟨by decide, by decide, fun _ _ => rfl,
   ((stream_returns_fixture_error (CreateFakeServer []) newContext "errorRequst"
      execCase_errorRequst sendOk (by decide) (by decide) (fun _ _ => rfl)).2.2.2.1
      execCase_errorRequst.keyspaceIdQuery rfl).2.1 (by decide)⟩

/-! ## Declared-error mode -/

/-- C7: in declared-error mode (`hasError` set), whatever the `panics` flag and
for every input, each non-streaming operation (the seven query handlers, `Begin`
without the force-success override, `Commit`, `Rollback`, `SplitQuery` and
`GetSrvKeyspace`) returns exactly the sentinel "test vtgate error" and leaves
the reply or out-session it was given as it was; `GetSrvKeyspace` returns no
snapshot. -/
theorem declared_error_returns_sentinel (f : fakeVTGateService) (ctx : Context)
    (herr : declaredErrorMode f) :
    (∀ (q : proto.Query) (reply : proto.QueryResult),
      (f.Execute ctx q reply).out = Outcome.ret (some "test vtgate error") ∧
      (f.Execute ctx q reply).reply = reply) ∧
    (∀ (q : proto.QueryShard) (reply : proto.QueryResult),
      (f.ExecuteShard ctx q reply).out = Outcome.ret (some "test vtgate error") ∧
      (f.ExecuteShard ctx q reply).reply = reply) ∧
    (∀ (q : proto.KeyspaceIdQuery) (reply : proto.QueryResult),
      (f.ExecuteKeyspaceIds ctx q reply).out = Outcome.ret (some "test vtgate error") ∧
      (f.ExecuteKeyspaceIds ctx q reply).reply = reply) ∧
    (∀ (q : proto.KeyRangeQuery) (reply : proto.QueryResult),
      (f.ExecuteKeyRanges ctx q reply).out = Outcome.ret (some "test vtgate error") ∧
      (f.ExecuteKeyRanges ctx q reply).reply = reply) ∧
    (∀ (q : proto.EntityIdsQuery) (reply : proto.QueryResult),
      (f.ExecuteEntityIds ctx q reply).out = Outcome.ret (some "test vtgate error") ∧
      (f.ExecuteEntityIds ctx q reply).reply = reply) ∧
    (∀ (b : proto.BatchQueryShard) (reply : proto.QueryResultList),
      (f.ExecuteBatchShard ctx b reply).out = Outcome.ret (some "test vtgate error") ∧
      (f.ExecuteBatchShard ctx b reply).reply = reply) ∧
    (∀ (b : proto.KeyspaceIdBatchQuery) (reply : proto.QueryResultList),
      (f.ExecuteBatchKeyspaceIds ctx b reply).out = Outcome.ret (some "test vtgate error") ∧
      (f.ExecuteBatchKeyspaceIds ctx b reply).reply = reply) ∧
    (∀ outSession : Session, f.forceBeginSuccess = false →
      (f.Begin ctx outSession).out = Outcome.ret (some "test vtgate error") ∧
      (f.Begin ctx outSession).outSession = outSession) ∧
    (∀ inSession : Option Session,
      (f.Commit ctx inSession).out = Outcome.ret (some "test vtgate error")) ∧
    (∀ inSession : Option Session,
      (f.Rollback ctx inSession).out = Outcome.ret (some "test vtgate error")) ∧
    (∀ (req : proto.SplitQueryRequest) (reply : proto.SplitQueryResult),
      (f.SplitQuery ctx req reply).out = Outcome.ret (some "test vtgate error") ∧
      (f.SplitQuery ctx req reply).reply = reply) ∧
    (∀ keyspace : String,
      (f.GetSrvKeyspace ctx keyspace).out = Outcome.ret (some "test vtgate error") ∧
      (f.GetSrvKeyspace ctx keyspace).result = none) := by
  have he : f.hasError = true := herr
  refine ⟨?_, ?_, ?_, ?_, ?_, ?_, ?_, ?_, ?_, ?_, ?_, ?_⟩
  · intro q reply
    simp [fakeVTGateService.Execute, he, errTestVtGateError]
  · intro q reply
    simp [fakeVTGateService.ExecuteShard, he, errTestVtGateError]
  · intro q reply
    simp [fakeVTGateService.ExecuteKeyspaceIds, he, errTestVtGateError]
  · intro q reply
    simp [fakeVTGateService.ExecuteKeyRanges, he, errTestVtGateError]
  · intro q reply
    simp [fakeVTGateService.ExecuteEntityIds, he, errTestVtGateError]
  · intro b reply
    simp [fakeVTGateService.ExecuteBatchShard, he, errTestVtGateError]
  · intro b reply
    simp [fakeVTGateService.ExecuteBatchKeyspaceIds, he, errTestVtGateError]
  · intro outSession hforce
    obtain ⟨h1, _, h3, _, _⟩ := checkCallerID_flags f ctx "Begin"
    simp [fakeVTGateService.Begin, h1, h3, he, hforce, errTestVtGateError]
  · intro inSession
    obtain ⟨h1, _, _, _, _⟩ := checkCallerID_flags f ctx "Commit"
    simp [fakeVTGateService.Commit, h1, he, errTestVtGateError]
  · intro inSession
    simp [fakeVTGateService.Rollback, he, errTestVtGateError]
  · intro req reply
    simp [fakeVTGateService.SplitQuery, he, errTestVtGateError]
  · intro keyspace
    simp [fakeVTGateService.GetSrvKeyspace, he, errTestVtGateError]

/-- Witness of C7 on a server with both `hasError` and `panics` set: `Commit`
returns the sentinel. -/
theorem declared_error_returns_sentinel_witness :
    declaredErrorMode { CreateFakeServer [] with hasError := true, panics := true } ∧
    (fakeVTGateService.Commit { CreateFakeServer [] with hasError := true, panics := true }
      newContext (some session2)).out = Outcome.ret (some "test vtgate error") :=
  ⟨by decide,
   (declared_error_returns_sentinel
      { CreateFakeServer [] with hasError := true, panics := true } newContext
      (by decide)).2.2.2.2.2.2.2.2.1 (some session2)⟩

/-- C8, counterexample: in declared-error mode `StreamExecute` returns
"no match for: none" for the unregistered text "none" and "app error" for the
matching request of fixture "errorRequst" (neither text contains the sentinel),
and returns no error for the matching request of fixture "txRequest". -/
theorem declared_error_stream_counterexample :
    declaredErrorMode (serverWith true false) ∧
    ((serverWith true false).StreamExecute newContext { Sql := "none" } sendOk).out =
      Outcome.ret (some "no match for: none") ∧
    ¬ stringsContains "no match for: none" "test vtgate error" ∧
    ((serverWith true false).StreamExecute newContext execCase_errorRequst.execQuery
      sendOk).out = Outcome.ret (some "app error") ∧
    ¬ stringsContains "app error" "test vtgate error" ∧
    ((serverWith true false).StreamExecute newContext execCase_txRequest.execQuery
      sendOk).out = Outcome.ret none :=
  ⟨by decide, by decide, by decide, by decide, by decide, by decide⟩

/-- C8, amended: in declared-error mode with `panics` clear, each streaming
handler given the matching request of a registered fixture whose reply has a
result returns the sentinel "test vtgate error" once the fields message has been
accepted and the gate signalled (at once if the gate was already closed, else
on resuming after the signal); for an unregistered SQL text it returns
"no match for: " and the text, and for the matching request of a registered
fixture without a result it returns the fixture's error string, or no error
when that string is empty. -/
theorem declared_error_stream_sentinel (f : fakeVTGateService) (ctx : Context)
    (sendReply : SendReply) (herr : declaredErrorMode f) (hp : f.panics = false) :
    (∀ (k : String) (c : ExecCase) (r : mproto.QueryResult), execMap k = some c →
      c.reply.Result = some r → sendReply [] (fieldsMessage r) = none →
      (∀ q : proto.Query, { q with CallerID := none } = c.execQuery →
        (f.errorWait.closed = true →
          (f.StreamExecute ctx q sendReply).out = Outcome.ret (some "test vtgate error")) ∧
        (f.errorWait.closed = false →
          (f.StreamExecute ctx q sendReply).signal.resume.out =
            Outcome.ret (some "test vtgate error"))) ∧
      (∀ q : proto.QueryShard, { q with CallerID := none } = c.shardQuery →
        (f.errorWait.closed = true →
          (f.StreamExecuteShard ctx q sendReply).out =
            Outcome.ret (some "test vtgate error")) ∧
        (f.errorWait.closed = false →
          (f.StreamExecuteShard ctx q sendReply).signal.resume.out =
            Outcome.ret (some "test vtgate error"))) ∧
      (∀ q : proto.KeyRangeQuery, { q with CallerID := none } = c.keyRangeQuery →
        (f.errorWait.closed = true →
          (f.StreamExecuteKeyRanges ctx q sendReply).out =
            Outcome.ret (some "test vtgate error")) ∧
        (f.errorWait.closed = false →
          (f.StreamExecuteKeyRanges ctx q sendReply).signal.resume.out =
            Outcome.ret (some "test vtgate error"))) ∧
      (∀ q : proto.KeyspaceIdQuery, { q with CallerID := none } = c.keyspaceIdQuery →
        (f.errorWait.closed = true →
          (f.StreamExecuteKeyspaceIds ctx q sendReply).out =
            Outcome.ret (some "test vtgate error")) ∧
        (f.errorWait.closed = false →
          (f.StreamExecuteKeyspaceIds ctx q sendReply).signal.resume.out =
            Outcome.ret (some "test vtgate error")))) ∧
    (∀ s : String, execMap s = none →
      (∀ q : proto.Query, q.Sql = s →
        (f.StreamExecute ctx q sendReply).out = Outcome.ret (some ("no match for: " ++ s))) ∧
      (∀ q : proto.QueryShard, q.Sql = s →
        (f.StreamExecuteShard ctx q sendReply).out =
          Outcome.ret (some ("no match for: " ++ s))) ∧
      (∀ q : proto.KeyRangeQuery, q.Sql = s →
        (f.StreamExecuteKeyRanges ctx q sendReply).out =
          Outcome.ret (some ("no match for: " ++ s))) ∧
      (∀ q : proto.KeyspaceIdQuery, q.Sql = s →
        (f.StreamExecuteKeyspaceIds ctx q sendReply).out =
          Outcome.ret (some ("no match for: " ++ s)))) ∧
    (∀ (k : String) (c : ExecCase), execMap k = some c → c.reply.Result = none →
      (∀ q : proto.Query, { q with CallerID := none } = c.execQuery →
        (f.StreamExecute ctx q sendReply).out =
          Outcome.ret (if c.reply.Error ≠ "" then some c.reply.Error else none)) ∧
      (∀ q : proto.QueryShard, { q with CallerID := none } = c.shardQuery →
        (f.StreamExecuteShard ctx q sendReply).out =
          Outcome.ret (if c.reply.Error ≠ "" then some c.reply.Error else none)) ∧
      (∀ q : proto.KeyRangeQuery, { q with CallerID := none } = c.keyRangeQuery →
        (f.StreamExecuteKeyRanges ctx q sendReply).out =
          Outcome.ret (if c.reply.Error ≠ "" then some c.reply.Error else none)) ∧
      (∀ q : proto.KeyspaceIdQuery, { q with CallerID := none } = c.keyspaceIdQuery →
        (f.StreamExecuteKeyspaceIds ctx q sendReply).out =
          Outcome.ret (if c.reply.Error ≠ "" then some c.reply.Error else none))) := by
  have he : f.hasError = true := herr
  refine ⟨?_, ?_, ?_⟩
  · intro k c r hk hr hsend
    obtain ⟨h1, h2, h3, h4⟩ := stream_declared_error ctx he hp hk hr hsend
    refine ⟨?_, ?_, ?_, ?_⟩
    · intro q hq
      refine ⟨fun hc => ?_, fun hc => ?_⟩
      · rw [h1 q hq]; simp [hc, errTestVtGateError]
      · have hb : (f.StreamExecute ctx q sendReply).out = Outcome.blocked := by
          rw [h1 q hq]; simp [hc]
        exact (resume_signal_blocked _ hb).1
    · intro q hq
      refine ⟨fun hc => ?_, fun hc => ?_⟩
      · rw [h2 q hq]; simp [hc, errTestVtGateError]
      · have hb : (f.StreamExecuteShard ctx q sendReply).out = Outcome.blocked := by
          rw [h2 q hq]; simp [hc]
        exact (resume_signal_blocked _ hb).1
    · intro q hq
      refine ⟨fun hc => ?_, fun hc => ?_⟩
      · rw [h3 q hq]; simp [hc, errTestVtGateError]
      · have hb : (f.StreamExecuteKeyRanges ctx q sendReply).out = Outcome.blocked := by
          rw [h3 q hq]; simp [hc]
        exact (resume_signal_blocked _ hb).1
    · intro q hq
      refine ⟨fun hc => ?_, fun hc => ?_⟩
      · rw [h4 q hq]; simp [hc, errTestVtGateError]
      · have hb : (f.StreamExecuteKeyspaceIds ctx q sendReply).out = Outcome.blocked := by
          rw [h4 q hq]; simp [hc]
        exact (resume_signal_blocked _ hb).1
  · intro s hs
    refine ⟨?_, ?_, ?_, ?_⟩
    · intro q hq
      simp [fakeVTGateService.StreamExecute, hp, hq, hs]
    · intro q hq
      simp [fakeVTGateService.StreamExecuteShard, hp, hq, hs]
    · intro q hq
      simp [fakeVTGateService.StreamExecuteKeyRanges, hp, hq, hs]
    · intro q hq
      simp [fakeVTGateService.StreamExecuteKeyspaceIds, hp, hq, hs]
  · intro k c hk hr
    obtain ⟨h1, h2, h3, h4, _⟩ := execMap_sql hk
    refine ⟨?_, ?_, ?_, ?_⟩
    · intro q hq
      have hm : execMap q.Sql = some c := by
        have hsql : q.Sql = c.execQuery.Sql := by rw [← hq]
        rw [hsql]; exact h1
      simp [fakeVTGateService.StreamExecute, hp, hm, hq, hr, replyError]
    · intro q hq
      have hm : execMap q.Sql = some c := by
        have hsql : q.Sql = c.shardQuery.Sql := by rw [← hq]
        rw [hsql]; exact h2
      simp [fakeVTGateService.StreamExecuteShard, hp, hm, hq, hr, replyError]
    · intro q hq
      have hm : execMap q.Sql = some c := by
        have hsql : q.Sql = c.keyRangeQuery.Sql := by rw [← hq]
        rw [hsql]; exact h4
      simp [fakeVTGateService.StreamExecuteKeyRanges, hp, hm, hq, hr, replyError]
    · intro q hq
      have hm : execMap q.Sql = some c := by
        have hsql : q.Sql = c.keyspaceIdQuery.Sql := by rw [← hq]
        rw [hsql]; exact h3
      simp [fakeVTGateService.StreamExecuteKeyspaceIds, hp, hm, hq, hr, replyError]

/-- Witness of the amended C8 at fixture "request1": `StreamExecute` on the
suite's server in declared-error mode is parked behind the open gate and
returns the sentinel once the gate is signalled. -/
theorem declared_error_stream_sentinel_witness :
    declaredErrorMode (serverWith true false) ∧ (serverWith true false).panics = false ∧
    execMap "request1" = some execCase_request1 ∧
    (serverWith true false).errorWait.closed = false ∧
    ((serverWith true false).StreamExecute newContext execCase_request1.execQuery
      sendOk).signal.resume.out = Outcome.ret (some "test vtgate error") :=
  ⟨by decide, by decide, by decide, by decide,
   ((((declared_error_stream_sentinel (serverWith true false) newContext sendOk
      (by decide) (by decide)).1 "request1" execCase_request1 result1 (by decide) rfl rfl).1
      execCase_request1.execQuery (by decide)).2 (by decide))⟩

/-- C9, counterexample. On the suite's server in declared-error mode
(`hasError` set, `panics` clear) the single message `StreamExecute` emits for
the matching request of fixture "request1" is not `streamResult1`: its `Rows` is
`nil`, that of `streamResult1` is the empty slice, and `reflect.DeepEqual` tells
the two apart. And with `hasError` and `panics` both set (declared-error mode,
as `hasError` is set) each streaming handler given that request panics with
"test forced panic" before anything else: it emits no message and does not
return the sentinel, whether the gate has been signalled or not. -/
theorem declared_error_stream_one_message_counterexample :
    declaredErrorMode (serverWith true false) ∧
    ((serverWith true false).StreamExecute newContext execCase_request1.execQuery
      sendOk).sent = [{ Result := some { streamResult1 with Rows := Slice.nil } }] ∧
    ((serverWith true false).StreamExecute newContext execCase_request1.execQuery
      sendOk).sent ≠ [{ Result := some streamResult1 }] ∧
    declaredErrorMode (serverWith true true) ∧
    execCase_request1.reply.Result = some result1 ∧
    ((serverWith true true).StreamExecute newContext execCase_request1.execQuery
      sendOk).sent = [] ∧
    ((serverWith true true).StreamExecute newContext execCase_request1.execQuery
      sendOk).out = Outcome.panic "test forced panic" ∧
    ((serverWith true true).closeErrorWait.StreamExecute newContext
      execCase_request1.execQuery sendOk).sent = [] ∧
    ((serverWith true true).closeErrorWait.StreamExecute newContext
      execCase_request1.execQuery sendOk).out = Outcome.panic "test forced panic" ∧
    ((serverWith true true).StreamExecuteShard newContext execCase_request1.shardQuery
      sendOk).sent = [] ∧
    ((serverWith true true).StreamExecuteKeyRanges newContext execCase_request1.keyRangeQuery
      sendOk).sent = [] ∧
    ((serverWith true true).StreamExecuteKeyspaceIds newContext
      execCase_request1.keyspaceIdQuery sendOk).sent = [] :=
  ⟨by decide, by decide, by decide, by decide, by decide, by decide, by decide, by decide,
    by decide, by decide, by decide, by decide⟩

/-- C9, amended: in declared-error mode with `panics` clear, for every
registered fixture whose reply has a result `r`, each streaming handler given
the matching request (the callback accepting the fields message) emits exactly
one message, the fields message of `r`; while the gate is open the call is
parked, and once the gate has been signalled it returns the sentinel, having
emitted no row message. For fixture "request1" the result of that single
message has the fields of `streamResult1` (("field1", 42) and ("field2", 73)),
no rows, `RowsAffected` 0 and `InsertId` 0: it is `streamResult1` with the `nil`
slice of rows in place of the empty one. -/
theorem declared_error_stream_one_message (f : fakeVTGateService) (ctx : Context)
    (k : String) (c : ExecCase) (r : mproto.QueryResult) (sendReply : SendReply)
    (herr : declaredErrorMode f) (hp : f.panics = false) (hk : execMap k = some c)
    (hr : c.reply.Result = some r) (hsend : sendReply [] (fieldsMessage r) = none) :
    (∀ q : proto.Query, { q with CallerID := none } = c.execQuery →
      (f.StreamExecute ctx q sendReply).sent = [fieldsMessage r] ∧
      (f.errorWait.closed = true →
        (f.StreamExecute ctx q sendReply).out = Outcome.ret (some "test vtgate error")) ∧
      (f.errorWait.closed = false →
        (f.StreamExecute ctx q sendReply).out = Outcome.blocked ∧
        (f.StreamExecute ctx q sendReply).signal.resume.out =
          Outcome.ret (some "test vtgate error") ∧
        (f.StreamExecute ctx q sendReply).signal.resume.sent = [fieldsMessage r])) ∧
    (∀ q : proto.QueryShard, { q with CallerID := none } = c.shardQuery →
      (f.StreamExecuteShard ctx q sendReply).sent = [fieldsMessage r] ∧
      (f.errorWait.closed = true →
        (f.StreamExecuteShard ctx q sendReply).out = Outcome.ret (some "test vtgate error")) ∧
      (f.errorWait.closed = false →
        (f.StreamExecuteShard ctx q sendReply).out = Outcome.blocked ∧
        (f.StreamExecuteShard ctx q sendReply).signal.resume.out =
          Outcome.ret (some "test vtgate error") ∧
        (f.StreamExecuteShard ctx q sendReply).signal.resume.sent = [fieldsMessage r])) ∧
    (∀ q : proto.KeyRangeQuery, { q with CallerID := none } = c.keyRangeQuery →
      (f.StreamExecuteKeyRanges ctx q sendReply).sent = [fieldsMessage r] ∧
      (f.errorWait.closed = true →
        (f.StreamExecuteKeyRanges ctx q sendReply).out =
          Outcome.ret (some "test vtgate error")) ∧
      (f.errorWait.closed = false →
        (f.StreamExecuteKeyRanges ctx q sendReply).out = Outcome.blocked ∧
        (f.StreamExecuteKeyRanges ctx q sendReply).signal.resume.out =
          Outcome.ret (some "test vtgate error") ∧
        (f.StreamExecuteKeyRanges ctx q sendReply).signal.resume.sent = [fieldsMessage r])) ∧
    (∀ q : proto.KeyspaceIdQuery, { q with CallerID := none } = c.keyspaceIdQuery →
      (f.StreamExecuteKeyspaceIds ctx q sendReply).sent = [fieldsMessage r] ∧
      (f.errorWait.closed = true →
        (f.StreamExecuteKeyspaceIds ctx q sendReply).out =
          Outcome.ret (some "test vtgate error")) ∧
      (f.errorWait.closed = false →
        (f.StreamExecuteKeyspaceIds ctx q sendReply).out = Outcome.blocked ∧
        (f.StreamExecuteKeyspaceIds ctx q sendReply).signal.resume.out =
          Outcome.ret (some "test vtgate error") ∧
        (f.StreamExecuteKeyspaceIds ctx q sendReply).signal.resume.sent =
          [fieldsMessage r])) ∧
    fieldsMessage result1 =
      { Result := some
          { Fields := Slice.of [{ Name := "field1", Type_ := 42 }, { Name := "field2", Type_ := 73 }]
            RowsAffected := 0
            InsertId := 0
            Rows := Slice.nil } } ∧
    fieldsMessage result1 = { Result := some { streamResult1 with Rows := Slice.nil } } ∧
    streamResult1.Rows.len = 0 := by
  have he : f.hasError = true := herr
  obtain ⟨h1, h2, h3, h4⟩ := stream_declared_error ctx he hp hk hr hsend
  refine ⟨?_, ?_, ?_, ?_, rfl, rfl, rfl⟩
  · intro q hq
    have hs : (f.StreamExecute ctx q sendReply).sent = [fieldsMessage r] := by
      rw [h1 q hq]; split <;> rfl
    refine ⟨hs, fun hc => ?_, fun hc => ?_⟩
    · rw [h1 q hq]; simp [hc, errTestVtGateError]
    · have hb : (f.StreamExecute ctx q sendReply).out = Outcome.blocked := by
        rw [h1 q hq]; simp [hc]
      exact ⟨hb, (resume_signal_blocked _ hb).1, (resume_signal_blocked _ hb).2.1.trans hs⟩
  · intro q hq
    have hs : (f.StreamExecuteShard ctx q sendReply).sent = [fieldsMessage r] := by
      rw [h2 q hq]; split <;> rfl
    refine ⟨hs, fun hc => ?_, fun hc => ?_⟩
    · rw [h2 q hq]; simp [hc, errTestVtGateError]
    · have hb : (f.StreamExecuteShard ctx q sendReply).out = Outcome.blocked := by
        rw [h2 q hq]; simp [hc]
      exact ⟨hb, (resume_signal_blocked _ hb).1, (resume_signal_blocked _ hb).2.1.trans hs⟩
  · intro q hq
    have hs : (f.StreamExecuteKeyRanges ctx q sendReply).sent = [fieldsMessage r] := by
      rw [h3 q hq]; split <;> rfl
    refine ⟨hs, fun hc => ?_, fun hc => ?_⟩
    · rw [h3 q hq]; simp [hc, errTestVtGateError]
    · have hb : (f.StreamExecuteKeyRanges ctx q sendReply).out = Outcome.blocked := by
        rw [h3 q hq]; simp [hc]
      exact ⟨hb, (resume_signal_blocked _ hb).1, (resume_signal_blocked _ hb).2.1.trans hs⟩
  · intro q hq
    have hs : (f.StreamExecuteKeyspaceIds ctx q sendReply).sent = [fieldsMessage r] := by
      rw [h4 q hq]; split <;> rfl
    refine ⟨hs, fun hc => ?_, fun hc => ?_⟩
    · rw [h4 q hq]; simp [hc, errTestVtGateError]
    · have hb : (f.StreamExecuteKeyspaceIds ctx q sendReply).out = Outcome.blocked := by
        rw [h4 q hq]; simp [hc]
      exact ⟨hb, (resume_signal_blocked _ hb).1, (resume_signal_blocked _ hb).2.1.trans hs⟩

/-- Witness of the amended C9 at fixture "request1" and `StreamExecuteKeyRanges`
on the suite's server in declared-error mode: the one message emitted carries
`streamResult1` with `nil` rows. -/
theorem declared_error_stream_one_message_witness :
    declaredErrorMode (serverWith true false) ∧ (serverWith true false).panics = false ∧
    execMap "request1" = some execCase_request1 ∧
    execCase_request1.reply.Result = some result1 ∧
    sendOk [] (fieldsMessage result1) = none ∧
    ((serverWith true false).StreamExecuteKeyRanges newContext
      execCase_request1.keyRangeQuery sendOk).sent =
      [{ Result := some { streamResult1 with Rows := Slice.nil } }] :=
  ⟨by decide, by decide, by decide, rfl, rfl,
   ((declared_error_stream_one_message (serverWith true false) newContext "request1"
      execCase_request1 result1 sendOk (by decide) (by decide) (by decide) rfl rfl).2.2.1
      execCase_request1.keyRangeQuery (by decide)).1⟩

/-! ## The place of the fault-mode switch -/

/-- C10, counterexample: on the suite's server in declared-error mode, with
identity checking enabled and the background context (no caller identity),
`StreamExecute` given the "request1" request records a test failure and emits
the fields message, and `Begin` and `Commit` each record a test failure. -/
theorem switch_not_first_counterexample :
    declaredErrorMode (serverWith true false) ∧ (serverWith true false).hasCallerID = true ∧
    callerid.EffectiveCallerIDFromContext Context.Background = none ∧
    ((serverWith true false).StreamExecute Context.Background execCase_request1.execQuery
      sendOk).f.t = [TestFailure.noEffectiveCallerID "StreamExecute"] ∧
    ((serverWith true false).StreamExecute Context.Background execCase_request1.execQuery
      sendOk).sent = [fieldsMessage result1] ∧
    ((serverWith true false).Begin Context.Background session2).f.t =
      [TestFailure.noEffectiveCallerID "Begin"] ∧
    ((serverWith true false).Commit Context.Background (some session2)).f.t =
      [TestFailure.noEffectiveCallerID "Commit"] :=
  ⟨by decide, by decide, by decide, by decide, by decide, by decide, by decide⟩

/-- C10, amended: the fault-mode switch is checked first in ten handlers, the
seven non-streaming query handlers, `Rollback`, `SplitQuery` and
`GetSrvKeyspace`: in declared-error mode each returns the sentinel with the
server, the request and the reply exactly as they were, so it runs no identity
check (no test failure is recorded, whatever the context and `hasCallerID`),
does not clear the request's identity and copies no fixture. The four streaming
handlers, with `panics` clear, run the identity check and the lookup and emit
the fields message before they test `hasError`: with identity checking enabled
and a context without identity, given the matching request of a registered
fixture with a result they record the missing identity and emit one message. -/
theorem switch_first_in_ten_handlers (f : fakeVTGateService) (ctx : Context)
    (herr : declaredErrorMode f) :
    (∀ (q : proto.Query) (reply : proto.QueryResult),
      f.Execute ctx q reply = ⟨f, q, reply, Outcome.ret (some "test vtgate error")⟩) ∧
    (∀ (q : proto.QueryShard) (reply : proto.QueryResult),
      f.ExecuteShard ctx q reply = ⟨f, q, reply, Outcome.ret (some "test vtgate error")⟩) ∧
    (∀ (q : proto.KeyspaceIdQuery) (reply : proto.QueryResult),
      f.ExecuteKeyspaceIds ctx q reply =
        ⟨f, q, reply, Outcome.ret (some "test vtgate error")⟩) ∧
    (∀ (q : proto.KeyRangeQuery) (reply : proto.QueryResult),
      f.ExecuteKeyRanges ctx q reply = ⟨f, q, reply, Outcome.ret (some "test vtgate error")⟩) ∧
    (∀ (q : proto.EntityIdsQuery) (reply : proto.QueryResult),
      f.ExecuteEntityIds ctx q reply = ⟨f, q, reply, Outcome.ret (some "test vtgate error")⟩) ∧
    (∀ (b : proto.BatchQueryShard) (reply : proto.QueryResultList),
      f.ExecuteBatchShard ctx b reply =
        ⟨f, b, reply, Outcome.ret (some "test vtgate error")⟩) ∧
    (∀ (b : proto.KeyspaceIdBatchQuery) (reply : proto.QueryResultList),
      f.ExecuteBatchKeyspaceIds ctx b reply =
        ⟨f, b, reply, Outcome.ret (some "test vtgate error")⟩) ∧
    (∀ inSession : Option Session,
      f.Rollback ctx inSession = ⟨f, Outcome.ret (some "test vtgate error")⟩) ∧
    (∀ (req : proto.SplitQueryRequest) (reply : proto.SplitQueryResult),
      f.SplitQuery ctx req reply = ⟨f, req, reply, Outcome.ret (some "test vtgate error")⟩) ∧
    (∀ keyspace : String,
      f.GetSrvKeyspace ctx keyspace = ⟨f, none, Outcome.ret (some "test vtgate error")⟩) ∧
    (f.panics = false → f.hasCallerID = true →
      callerid.EffectiveCallerIDFromContext ctx = none →
      ∀ (k : String) (c : ExecCase) (r : mproto.QueryResult) (sendReply : SendReply),
        execMap k = some c → c.reply.Result = some r →
        sendReply [] (fieldsMessage r) = none →
        (∀ q : proto.Query, { q with CallerID := none } = c.execQuery →
          (f.StreamExecute ctx q sendReply).f.t =
            f.t ++ [TestFailure.noEffectiveCallerID "StreamExecute"] ∧
          (f.StreamExecute ctx q sendReply).sent = [fieldsMessage r]) ∧
        (∀ q : proto.QueryShard, { q with CallerID := none } = c.shardQuery →
          (f.StreamExecuteShard ctx q sendReply).f.t =
            f.t ++ [TestFailure.noEffectiveCallerID "StreamExecuteShard"] ∧
          (f.StreamExecuteShard ctx q sendReply).sent = [fieldsMessage r]) ∧
        (∀ q : proto.KeyRangeQuery, { q with CallerID := none } = c.keyRangeQuery →
          (f.StreamExecuteKeyRanges ctx q sendReply).f.t =
            f.t ++ [TestFailure.noEffectiveCallerID "StreamExecuteKeyRanges"] ∧
          (f.StreamExecuteKeyRanges ctx q sendReply).sent = [fieldsMessage r]) ∧
        (∀ q : proto.KeyspaceIdQuery, { q with CallerID := none } = c.keyspaceIdQuery →
          (f.StreamExecuteKeyspaceIds ctx q sendReply).f.t =
            f.t ++ [TestFailure.noEffectiveCallerID "StreamExecuteKeyspaceIds"] ∧
          (f.StreamExecuteKeyspaceIds ctx q sendReply).sent = [fieldsMessage r])) := by
  have he : f.hasError = true := herr
  refine ⟨?_, ?_, ?_, ?_, ?_, ?_, ?_, ?_, ?_, ?_, ?_⟩
  · intro q reply
    simp [fakeVTGateService.Execute, he, errTestVtGateError]
  · intro q reply
    simp [fakeVTGateService.ExecuteShard, he, errTestVtGateError]
  · intro q reply
    simp [fakeVTGateService.ExecuteKeyspaceIds, he, errTestVtGateError]
  · intro q reply
    simp [fakeVTGateService.ExecuteKeyRanges, he, errTestVtGateError]
  · intro q reply
    simp [fakeVTGateService.ExecuteEntityIds, he, errTestVtGateError]
  · intro b reply
    simp [fakeVTGateService.ExecuteBatchShard, he, errTestVtGateError]
  · intro b reply
    simp [fakeVTGateService.ExecuteBatchKeyspaceIds, he, errTestVtGateError]
  · intro inSession
    simp [fakeVTGateService.Rollback, he, errTestVtGateError]
  · intro req reply
    simp [fakeVTGateService.SplitQuery, he, errTestVtGateError]
  · intro keyspace
    simp [fakeVTGateService.GetSrvKeyspace, he, errTestVtGateError]
  · intro hp hid hctx k c r sendReply hk hr hsend
    obtain ⟨h1, h2, h3, h4⟩ := stream_declared_error ctx he hp hk hr hsend
    have ht : ∀ name, (f.checkCallerID ctx name).t =
        f.t ++ [TestFailure.noEffectiveCallerID name] := by
      intro name
      simp [fakeVTGateService.checkCallerID, hid, hctx, fakeVTGateService.Errorf]
    refine ⟨?_, ?_, ?_, ?_⟩
    · intro q hq
      rw [h1 q hq]
      split <;> exact ⟨ht _, rfl⟩
    · intro q hq
      rw [h2 q hq]
      split <;> exact ⟨ht _, rfl⟩
    · intro q hq
      rw [h3 q hq]
      split <;> exact ⟨ht _, rfl⟩
    · intro q hq
      rw [h4 q hq]
      split <;> exact ⟨ht _, rfl⟩

/-- Witness of the amended C10 on the suite's server in declared-error mode with
the background context: `Rollback` leaves the server as it was, with no failure
recorded. -/
theorem switch_first_in_ten_handlers_witness :
    declaredErrorMode (serverWith true false) ∧
    ((serverWith true false).Rollback Context.Background none).f.t = [] :=
  ⟨by decide,
   congrArg (fun x => x.f.t)
     ((switch_first_in_ten_handlers (serverWith true false) Context.Background
       (by decide)).2.2.2.2.2.2.2.1 none)⟩

/-! ## Injected-fault mode -/

/-- C11: in injected-fault mode (`panics` set, `hasError` clear) every handler of
the server, for every request, panics with a value whose text is
"test forced panic", the reply (or out-session) being as it was passed in;
`Begin` does so when the force-success override is off, and the four streaming
handlers do so having handed no message to `sendReply`. -/
theorem injected_fault_panics (f : fakeVTGateService) (ctx : Context)
    (hmode : injectedFaultMode f) :
    (∀ (q : proto.Query) (reply : proto.QueryResult),
      (f.Execute ctx q reply).out = Outcome.panic "test forced panic" ∧
      (f.Execute ctx q reply).reply = reply) ∧
    (∀ (q : proto.QueryShard) (reply : proto.QueryResult),
      (f.ExecuteShard ctx q reply).out = Outcome.panic "test forced panic" ∧
      (f.ExecuteShard ctx q reply).reply = reply) ∧
    (∀ (q : proto.KeyspaceIdQuery) (reply : proto.QueryResult),
      (f.ExecuteKeyspaceIds ctx q reply).out = Outcome.panic "test forced panic" ∧
      (f.ExecuteKeyspaceIds ctx q reply).reply = reply) ∧
    (∀ (q : proto.KeyRangeQuery) (reply : proto.QueryResult),
      (f.ExecuteKeyRanges ctx q reply).out = Outcome.panic "test forced panic" ∧
      (f.ExecuteKeyRanges ctx q reply).reply = reply) ∧
    (∀ (q : proto.EntityIdsQuery) (reply : proto.QueryResult),
      (f.ExecuteEntityIds ctx q reply).out = Outcome.panic "test forced panic" ∧
      (f.ExecuteEntityIds ctx q reply).reply = reply) ∧
    (∀ (b : proto.BatchQueryShard) (reply : proto.QueryResultList),
      (f.ExecuteBatchShard ctx b reply).out = Outcome.panic "test forced panic" ∧
      (f.ExecuteBatchShard ctx b reply).reply = reply) ∧
    (∀ (b : proto.KeyspaceIdBatchQuery) (reply : proto.QueryResultList),
      (f.ExecuteBatchKeyspaceIds ctx b reply).out = Outcome.panic "test forced panic" ∧
      (f.ExecuteBatchKeyspaceIds ctx b reply).reply = reply) ∧
    (∀ (q : proto.Query) (sendReply : SendReply),
      (f.StreamExecute ctx q sendReply).out = Outcome.panic "test forced panic" ∧
      (f.StreamExecute ctx q sendReply).sent = []) ∧
    (∀ (q : proto.QueryShard) (sendReply : SendReply),
      (f.StreamExecuteShard ctx q sendReply).out = Outcome.panic "test forced panic" ∧
      (f.StreamExecuteShard ctx q sendReply).sent = []) ∧
    (∀ (q : proto.KeyRangeQuery) (sendReply : SendReply),
      (f.StreamExecuteKeyRanges ctx q sendReply).out = Outcome.panic "test forced panic" ∧
      (f.StreamExecuteKeyRanges ctx q sendReply).sent = []) ∧
    (∀ (q : proto.KeyspaceIdQuery) (sendReply : SendReply),
      (f.StreamExecuteKeyspaceIds ctx q sendReply).out = Outcome.panic "test forced panic" ∧
      (f.StreamExecuteKeyspaceIds ctx q sendReply).sent = []) ∧
    (∀ outSession : Session, f.forceBeginSuccess = false →
      (f.Begin ctx outSession).out = Outcome.panic "test forced panic" ∧
      (f.Begin ctx outSession).outSession = outSession) ∧
    (∀ inSession : Option Session,
      (f.Commit ctx inSession).out = Outcome.panic "test forced panic") ∧
    (∀ inSession : Option Session,
      (f.Rollback ctx inSession).out = Outcome.panic "test forced panic") ∧
    (∀ (req : proto.SplitQueryRequest) (reply : proto.SplitQueryResult),
      (f.SplitQuery ctx req reply).out = Outcome.panic "test forced panic" ∧
      (f.SplitQuery ctx req reply).reply = reply) ∧
    (∀ keyspace : String,
      (f.GetSrvKeyspace ctx keyspace).out = Outcome.panic "test forced panic" ∧
      (f.GetSrvKeyspace ctx keyspace).result = none) := by
  obtain ⟨hp, he⟩ := hmode
  refine ⟨?_, ?_, ?_, ?_, ?_, ?_, ?_, ?_, ?_, ?_, ?_, ?_, ?_, ?_, ?_, ?_⟩
  · intro q reply
    simp [fakeVTGateService.Execute, he, hp]
  · intro q reply
    simp [fakeVTGateService.ExecuteShard, he, hp]
  · intro q reply
    simp [fakeVTGateService.ExecuteKeyspaceIds, he, hp]
  · intro q reply
    simp [fakeVTGateService.ExecuteKeyRanges, he, hp]
  · intro q reply
    simp [fakeVTGateService.ExecuteEntityIds, he, hp]
  · intro b reply
    simp [fakeVTGateService.ExecuteBatchShard, he, hp]
  · intro b reply
    simp [fakeVTGateService.ExecuteBatchKeyspaceIds, he, hp]
  · intro q sendReply
    simp [fakeVTGateService.StreamExecute, hp]
  · intro q sendReply
    simp [fakeVTGateService.StreamExecuteShard, hp]
  · intro q sendReply
    simp [fakeVTGateService.StreamExecuteKeyRanges, hp]
  · intro q sendReply
    simp [fakeVTGateService.StreamExecuteKeyspaceIds, hp]
  · intro outSession hforce
    obtain ⟨h1, h2, h3, _, _⟩ := checkCallerID_flags f ctx "Begin"
    simp [fakeVTGateService.Begin, h1, h2, h3, he, hp, hforce]
  · intro inSession
    obtain ⟨h1, h2, _, _, _⟩ := checkCallerID_flags f ctx "Commit"
    simp [fakeVTGateService.Commit, h1, h2, he, hp]
  · intro inSession
    simp [fakeVTGateService.Rollback, he, hp]
  · intro req reply
    simp [fakeVTGateService.SplitQuery, he, hp]
  · intro keyspace
    simp [fakeVTGateService.GetSrvKeyspace, he, hp]

/-- Witness of C11 on the suite's server with `panics` set: `StreamExecute` given
the "request1" request panics with "test forced panic" and emits nothing. -/
theorem injected_fault_panics_witness :
    injectedFaultMode (serverWith false true) ∧
    ((serverWith false true).StreamExecute newContext execCase_request1.execQuery
      sendOk).out = Outcome.panic "test forced panic" ∧
    ((serverWith false true).StreamExecute newContext execCase_request1.execQuery
      sendOk).sent = [] :=
  ⟨by decide,
   (injected_fault_panics (serverWith false true) newContext
      (by decide)).2.2.2.2.2.2.2.1 execCase_request1.execQuery sendOk⟩

/-- C12: `HandlePanic` turns a pending panic into an ordinary error. If a panic
with value `x` is pending, the error slot is overwritten with the error whose
text is "uncaught panic: ", the text of `x`, a newline and the stack fragment;
for the injected fault of a handler this text begins with
"uncaught panic: test forced panic". If no panic is pending (the call returned,
with or without an error), the error slot is left exactly as it was. -/
theorem HandlePanic_translates (f : fakeVTGateService) (stack : String) (err : error) :
    (∀ x : String,
      f.HandlePanic (recover (Outcome.panic x)) stack err =
        some ("uncaught panic: " ++ x ++ "\n" ++ stack)) ∧
    (∃ rest : String,
      f.HandlePanic (recover (Outcome.panic "test forced panic")) stack err =
        some ("uncaught panic: test forced panic" ++ rest)) ∧
    (∀ (g : fakeVTGateService) (ctx : Context) (q : proto.Query) (reply : proto.QueryResult),
      injectedFaultMode g →
      ∃ rest : String,
        f.HandlePanic (recover (g.Execute ctx q reply).out) stack err =
          some ("uncaught panic: test forced panic" ++ rest)) ∧
    (∀ e : error, f.HandlePanic (recover (Outcome.ret e)) stack err = err) ∧
    f.HandlePanic none stack err = err := by
  have hlit : "uncaught panic: " ++ "test forced panic" ++ "\n" ++ stack =
      "uncaught panic: test forced panic" ++ ("\n" ++ stack) := by
    rw [String.append_assoc]
    rfl
  have hinj : f.HandlePanic (recover (Outcome.panic "test forced panic")) stack err =
      some ("uncaught panic: test forced panic" ++ ("\n" ++ stack)) :=
    congrArg some hlit
  refine ⟨fun x => rfl, ⟨"\n" ++ stack, hinj⟩, ?_, fun e => rfl, rfl⟩
  intro g ctx q reply hg
  obtain ⟨hp, he⟩ := hg
  have hout : (g.Execute ctx q reply).out = Outcome.panic "test forced panic" := by
    simp [fakeVTGateService.Execute, he, hp]
  rw [hout]
  exact ⟨"\n" ++ stack, hinj⟩

/-- Witness of C12 on the suite's server with `panics` set: the error made from
the panic of `Execute`, with a stack fragment "stack" and an empty error slot. -/
theorem HandlePanic_translates_witness :
    injectedFaultMode (serverWith false true) ∧
    ∃ rest : String,
      (serverWith false true).HandlePanic
        (recover ((serverWith false true).Execute newContext execCase_request1.execQuery
          {}).out) "stack" none =
        some ("uncaught panic: test forced panic" ++ rest) :=
  ⟨by decide,
   (HandlePanic_translates (serverWith false true) "stack" none).2.2.1
      (serverWith false true) newContext execCase_request1.execQuery {} (by decide)⟩

/-! ## Transactions -/

/-- C13: in normal mode `Commit` returns no error if and only if the inbound
session equals `session2` (in transaction, exactly the one shard session
{"ks", "1", master, transaction id 1}) and otherwise returns
"commit: session mismatch"; `Rollback` does the same with
"rollback: session mismatch". The session `Begin` returns (in transaction, no
shard sessions) is rejected by both. -/
theorem commit_rollback_session_check (f : fakeVTGateService) (ctx : Context)
    (hmode : normalMode f) :
    session2 = { InTransaction := true,
                 ShardSessions := Slice.of [some { Keyspace := "ks", Shard := "1",
                                                   TabletType := TabletType.TYPE_MASTER,
                                                   TransactionId := 1 }] } ∧
    (∀ inSession : Option Session,
      ((f.Commit ctx inSession).out = Outcome.ret none ↔ inSession = some session2) ∧
      (inSession ≠ some session2 →
        (f.Commit ctx inSession).out = Outcome.ret (some "commit: session mismatch")) ∧
      ((f.Rollback ctx inSession).out = Outcome.ret none ↔ inSession = some session2) ∧
      (inSession ≠ some session2 →
        (f.Rollback ctx inSession).out = Outcome.ret (some "rollback: session mismatch"))) ∧
    (∀ outSession : Session,
      (f.Begin ctx outSession).outSession =
        { InTransaction := true, ShardSessions := Slice.of [] } ∧
      (f.Commit ctx (some (f.Begin ctx outSession).outSession)).out =
        Outcome.ret (some "commit: session mismatch") ∧
      (f.Rollback ctx (some (f.Begin ctx outSession).outSession)).out =
        Outcome.ret (some "rollback: session mismatch")) := by
  obtain ⟨he, hp⟩ := hmode
  obtain ⟨hc1, hc2, _, _, _⟩ := checkCallerID_flags f ctx "Commit"
  obtain ⟨hb1, hb2, _, _, _⟩ := checkCallerID_flags f ctx "Begin"
  have hcommit : ∀ inSession : Option Session, (f.Commit ctx inSession).out =
      if inSession ≠ some session2 then Outcome.ret (some "commit: session mismatch")
      else Outcome.ret none := by
    intro inSession
    simp only [fakeVTGateService.Commit, hc1, hc2, he, hp]
    split_ifs <;> simp_all
  have hrollback : ∀ inSession : Option Session, (f.Rollback ctx inSession).out =
      if inSession ≠ some session2 then Outcome.ret (some "rollback: session mismatch")
      else Outcome.ret none := by
    intro inSession
    simp only [fakeVTGateService.Rollback, he, hp]
    split_ifs <;> simp_all
  have hbegin : ∀ outSession : Session, (f.Begin ctx outSession).outSession = session1 := by
    intro outSession
    simp only [fakeVTGateService.Begin, hb1, hb2, he, hp]
    split_ifs <;> simp_all
  refine ⟨rfl, ?_, ?_⟩
  · intro inSession
    rw [hcommit, hrollback]
    by_cases h : inSession = some session2
    · simp [h]
    · simp [h]
  · intro outSession
    rw [hcommit, hrollback, hbegin]
    exact ⟨rfl, by decide, by decide⟩

/-- Witness of C13 on the server made by `CreateFakeServer`: `Commit` on the
session of `Begin` answers "commit: session mismatch". -/
theorem commit_rollback_session_check_witness :
    normalMode (CreateFakeServer []) ∧
    ((CreateFakeServer []).Commit newContext
      (some ((CreateFakeServer []).Begin newContext session2).outSession)).out =
      Outcome.ret (some "commit: session mismatch") :=
  ⟨by decide,
   ((commit_rollback_session_check (CreateFakeServer []) newContext
      (by decide)).2.2 session2).2.1⟩

/-- C15: with the force-success override set, `Begin` succeeds for every
combination of `hasError` and `panics`: it returns no error (so it neither fails
nor panics) and sets the out-session to the active session (in transaction, no
shard sessions); with the override off and both flags clear it returns the same
session. -/
theorem begin_force_success (f : fakeVTGateService) (ctx : Context) (outSession : Session) :
    (f.forceBeginSuccess = true →
      (f.Begin ctx outSession).out = Outcome.ret none ∧
      (f.Begin ctx outSession).outSession =
        { InTransaction := true, ShardSessions := Slice.of [] }) ∧
    (f.forceBeginSuccess = false → normalMode f →
      (f.Begin ctx outSession).out = Outcome.ret none ∧
      (f.Begin ctx outSession).outSession =
        { InTransaction := true, ShardSessions := Slice.of [] }) := by
  obtain ⟨h1, h2, h3, _, _⟩ := checkCallerID_flags f ctx "Begin"
  refine ⟨fun hforce => ?_, fun hforce hmode => ?_⟩
  · simp [fakeVTGateService.Begin, h3, hforce, session1]
  · obtain ⟨he, hp⟩ := hmode
    simp [fakeVTGateService.Begin, h1, h2, h3, hforce, he, hp, session1]

/-- Witness of C15 on a server with the override, `hasError` and `panics` all
set: `Begin` returns no error. -/
theorem begin_force_success_witness :
    ({ serverWith true true with forceBeginSuccess := true } : fakeVTGateService).forceBeginSuccess
      = true ∧
    (fakeVTGateService.Begin { serverWith true true with forceBeginSuccess := true }
      newContext session2).out = Outcome.ret none :=
  ⟨rfl,
   ((begin_force_success { serverWith true true with forceBeginSuccess := true } newContext
      session2).1 rfl).1⟩

/-! ## Lemmas on matching requests and on transactions -/

theorem checkCallerID_normalMode {f : fakeVTGateService} (ctx : Context) (name : String)
    (hmode : normalMode f) : normalMode (f.checkCallerID ctx name) := by
  obtain ⟨h1, h2, _, _, _⟩ := checkCallerID_flags f ctx name
  exact ⟨h1.trans hmode.1, h2.trans hmode.2⟩

theorem ExecuteShard_matching (f : fakeVTGateService) (ctx : Context) (q : proto.QueryShard)
    (reply : proto.QueryResult) (c : ExecCase) (hmode : normalMode f)
    (hm : execMap q.Sql = some c) (hq : { q with CallerID := none } = c.shardQuery) :
    f.ExecuteShard ctx q reply =
      ⟨f.checkCallerID ctx "ExecuteShard", { q with CallerID := none }, c.reply,
        Outcome.ret none⟩ := by
  obtain ⟨he, hp⟩ := hmode
  simp [fakeVTGateService.ExecuteShard, he, hp, hm, hq]

theorem ExecuteKeyspaceIds_matching (f : fakeVTGateService) (ctx : Context)
    (q : proto.KeyspaceIdQuery) (reply : proto.QueryResult) (c : ExecCase)
    (hmode : normalMode f) (hm : execMap q.Sql = some c)
    (hq : { q with CallerID := none } = c.keyspaceIdQuery) :
    f.ExecuteKeyspaceIds ctx q reply =
      ⟨f.checkCallerID ctx "ExecuteKeyspaceIds", { q with CallerID := none }, c.reply,
        Outcome.ret none⟩ := by
  obtain ⟨he, hp⟩ := hmode
  simp [fakeVTGateService.ExecuteKeyspaceIds, he, hp, hm, hq]

theorem ExecuteKeyRanges_matching (f : fakeVTGateService) (ctx : Context)
    (q : proto.KeyRangeQuery) (reply : proto.QueryResult) (c : ExecCase)
    (hmode : normalMode f) (hm : execMap q.Sql = some c)
    (hq : { q with CallerID := none } = c.keyRangeQuery) :
    f.ExecuteKeyRanges ctx q reply =
      ⟨f.checkCallerID ctx "ExecuteKeyRanges", { q with CallerID := none }, c.reply,
        Outcome.ret none⟩ := by
  obtain ⟨he, hp⟩ := hmode
  simp [fakeVTGateService.ExecuteKeyRanges, he, hp, hm, hq]

theorem ExecuteEntityIds_matching (f : fakeVTGateService) (ctx : Context)
    (q : proto.EntityIdsQuery) (reply : proto.QueryResult) (c : ExecCase)
    (hmode : normalMode f) (hm : execMap q.Sql = some c)
    (hq : { q with CallerID := none } = c.entityIdsQuery) :
    f.ExecuteEntityIds ctx q reply =
      ⟨f.checkCallerID ctx "ExecuteEntityIds", { q with CallerID := none }, c.reply,
        Outcome.ret none⟩ := by
  obtain ⟨he, hp⟩ := hmode
  simp [fakeVTGateService.ExecuteEntityIds, he, hp, hm, hq]

/-- In normal mode `ExecuteBatchShard`, given a batch that equals a registered
fixture's expected batch once its `CallerID` is cleared, passes the fixture's
error string and session through and sets the list to the fixture's result when
the error string is empty and the result is present. -/
theorem ExecuteBatchShard_matching (f : fakeVTGateService) (ctx : Context)
    (b : proto.BatchQueryShard) (reply : proto.QueryResultList) (c : ExecCase)
    (q0 : proto.BoundShardQuery) (rest : List proto.BoundShardQuery) (hmode : normalMode f)
    (hb : b.Queries.toList = q0 :: rest) (hm : execMap q0.Sql = some c)
    (hq : { b with CallerID := none } = c.batchQueryShard) :
    f.ExecuteBatchShard ctx b reply =
      ⟨f.checkCallerID ctx "ExecuteBatchShard", { b with CallerID := none },
        { List := match c.reply.Result with
                  | some result => if c.reply.Error = "" then Slice.of [result] else reply.List
                  | none => reply.List
          Session := c.reply.Session
          Error := c.reply.Error },
        Outcome.ret none⟩ := by
  obtain ⟨he, hp⟩ := hmode
  have hq' := hq
  cases hr : c.reply.Result with
  | none => simp [fakeVTGateService.ExecuteBatchShard, he, hp, hb, hm, hq', hr]
  | some result =>
    by_cases herr : c.reply.Error = ""
    · simp [fakeVTGateService.ExecuteBatchShard, he, hp, hb, hm, hq', hr, herr]
    · simp [fakeVTGateService.ExecuteBatchShard, he, hp, hb, hm, hq', hr, herr]

/-- The same for `ExecuteBatchKeyspaceIds`. -/
theorem ExecuteBatchKeyspaceIds_matching (f : fakeVTGateService) (ctx : Context)
    (b : proto.KeyspaceIdBatchQuery) (reply : proto.QueryResultList) (c : ExecCase)
    (q0 : proto.BoundKeyspaceIdQuery) (rest : List proto.BoundKeyspaceIdQuery)
    (hmode : normalMode f) (hb : b.Queries.toList = q0 :: rest) (hm : execMap q0.Sql = some c)
    (hq : { b with CallerID := none } = c.keyspaceIdBatchQuery) :
    f.ExecuteBatchKeyspaceIds ctx b reply =
      ⟨f.checkCallerID ctx "ExecuteBatchKeyspaceIds", { b with CallerID := none },
        { List := match c.reply.Result with
                  | some result => if c.reply.Error = "" then Slice.of [result] else reply.List
                  | none => reply.List
          Session := c.reply.Session
          Error := c.reply.Error },
        Outcome.ret none⟩ := by
  obtain ⟨he, hp⟩ := hmode
  have hq' := hq
  cases hr : c.reply.Result with
  | none => simp [fakeVTGateService.ExecuteBatchKeyspaceIds, he, hp, hb, hm, hq', hr]
  | some result =>
    by_cases herr : c.reply.Error = ""
    · simp [fakeVTGateService.ExecuteBatchKeyspaceIds, he, hp, hb, hm, hq', hr, herr]
    · simp [fakeVTGateService.ExecuteBatchKeyspaceIds, he, hp, hb, hm, hq', hr, herr]

/-- In normal mode `Begin` hands out `session1`. -/
theorem Begin_normal (f : fakeVTGateService) (ctx : Context) (outSession : Session)
    (hmode : normalMode f) :
    f.Begin ctx outSession = ⟨f.checkCallerID ctx "Begin", session1, Outcome.ret none⟩ := by
  obtain ⟨h1, h2, _, _, _⟩ := checkCallerID_flags f ctx "Begin"
  simp only [fakeVTGateService.Begin, h1, h2, hmode.1, hmode.2]
  split_ifs <;> first | rfl | contradiction

/-- In normal mode `Commit` and `Rollback` accept `session2`. -/
theorem Commit_Rollback_session2 (f : fakeVTGateService) (ctx : Context)
    (hmode : normalMode f) :
    (f.Commit ctx (some session2)).out = Outcome.ret none ∧
    (f.Rollback ctx (some session2)).out = Outcome.ret none := by
  obtain ⟨h1, h2, _, _, _⟩ := checkCallerID_flags f ctx "Commit"
  constructor
  · simp [fakeVTGateService.Commit, h1, h2, hmode.1, hmode.2]
  · simp [fakeVTGateService.Rollback, hmode.1, hmode.2]

/-- C14: transaction success path. In normal mode `Begin` returns no error, and
for each of the seven non-streaming query handlers, the call with the
"txRequest" fixture's request of that variant carrying the session `Begin`
returned (and any caller identity) returns no error and a reply whose session
both `Commit` and `Rollback` accept: they return no error on it. So
Begin, Execute in the transaction, Commit succeeds. -/
theorem transaction_success_path (f : fakeVTGateService) (ctx : Context)
    (outSession : Session) (cid : Option CallerID) (hmode : normalMode f) :
    (f.Begin ctx outSession).out = Outcome.ret none ∧
    (∀ reply : proto.QueryResult,
      ((f.Begin ctx outSession).f.Execute ctx
        { execCase_txRequest.execQuery with
          Session := some (f.Begin ctx outSession).outSession, CallerID := cid } reply).out = Outcome.ret none ∧
      (((f.Begin ctx outSession).f.Execute ctx
        { execCase_txRequest.execQuery with
          Session := some (f.Begin ctx outSession).outSession, CallerID := cid } reply).f.Commit ctx
        ((f.Begin ctx outSession).f.Execute ctx
        { execCase_txRequest.execQuery with
          Session := some (f.Begin ctx outSession).outSession, CallerID := cid } reply).reply.Session).out = Outcome.ret none ∧
      (((f.Begin ctx outSession).f.Execute ctx
        { execCase_txRequest.execQuery with
          Session := some (f.Begin ctx outSession).outSession, CallerID := cid } reply).f.Rollback ctx
        ((f.Begin ctx outSession).f.Execute ctx
        { execCase_txRequest.execQuery with
          Session := some (f.Begin ctx outSession).outSession, CallerID := cid } reply).reply.Session).out = Outcome.ret none) ∧
    (∀ reply : proto.QueryResult,
      ((f.Begin ctx outSession).f.ExecuteShard ctx
        { execCase_txRequest.shardQuery with
          Session := some (f.Begin ctx outSession).outSession, CallerID := cid } reply).out = Outcome.ret none ∧
      (((f.Begin ctx outSession).f.ExecuteShard ctx
        { execCase_txRequest.shardQuery with
          Session := some (f.Begin ctx outSession).outSession, CallerID := cid } reply).f.Commit ctx
        ((f.Begin ctx outSession).f.ExecuteShard ctx
        { execCase_txRequest.shardQuery with
          Session := some (f.Begin ctx outSession).outSession, CallerID := cid } reply).reply.Session).out = Outcome.ret none ∧
      (((f.Begin ctx outSession).f.ExecuteShard ctx
        { execCase_txRequest.shardQuery with
          Session := some (f.Begin ctx outSession).outSession, CallerID := cid } reply).f.Rollback ctx
        ((f.Begin ctx outSession).f.ExecuteShard ctx
        { execCase_txRequest.shardQuery with
          Session := some (f.Begin ctx outSession).outSession, CallerID := cid } reply).reply.Session).out = Outcome.ret none) ∧
    (∀ reply : proto.QueryResult,
      ((f.Begin ctx outSession).f.ExecuteKeyspaceIds ctx
        { execCase_txRequest.keyspaceIdQuery with
          Session := some (f.Begin ctx outSession).outSession, CallerID := cid } reply).out = Outcome.ret none ∧
      (((f.Begin ctx outSession).f.ExecuteKeyspaceIds ctx
        { execCase_txRequest.keyspaceIdQuery with
          Session := some (f.Begin ctx outSession).outSession, CallerID := cid } reply).f.Commit ctx
        ((f.Begin ctx outSession).f.ExecuteKeyspaceIds ctx
        { execCase_txRequest.keyspaceIdQuery with
          Session := some (f.Begin ctx outSession).outSession, CallerID := cid } reply).reply.Session).out = Outcome.ret none ∧
      (((f.Begin ctx outSession).f.ExecuteKeyspaceIds ctx
        { execCase_txRequest.keyspaceIdQuery with
          Session := some (f.Begin ctx outSession).outSession, CallerID := cid } reply).f.Rollback ctx
        ((f.Begin ctx outSession).f.ExecuteKeyspaceIds ctx
        { execCase_txRequest.keyspaceIdQuery with
          Session := some (f.Begin ctx outSession).outSession, CallerID := cid } reply).reply.Session).out = Outcome.ret none) ∧
    (∀ reply : proto.QueryResult,
      ((f.Begin ctx outSession).f.ExecuteKeyRanges ctx
        { execCase_txRequest.keyRangeQuery with
          Session := some (f.Begin ctx outSession).outSession, CallerID := cid } reply).out = Outcome.ret none ∧
      (((f.Begin ctx outSession).f.ExecuteKeyRanges ctx
        { execCase_txRequest.keyRangeQuery with
          Session := some (f.Begin ctx outSession).outSession, CallerID := cid } reply).f.Commit ctx
        ((f.Begin ctx outSession).f.ExecuteKeyRanges ctx
        { execCase_txRequest.keyRangeQuery with
          Session := some (f.Begin ctx outSession).outSession, CallerID := cid } reply).reply.Session).out = Outcome.ret none ∧
      (((f.Begin ctx outSession).f.ExecuteKeyRanges ctx
        { execCase_txRequest.keyRangeQuery with
          Session := some (f.Begin ctx outSession).outSession, CallerID := cid } reply).f.Rollback ctx
        ((f.Begin ctx outSession).f.ExecuteKeyRanges ctx
        { execCase_txRequest.keyRangeQuery with
          Session := some (f.Begin ctx outSession).outSession, CallerID := cid } reply).reply.Session).out = Outcome.ret none) ∧
    (∀ reply : proto.QueryResult,
      ((f.Begin ctx outSession).f.ExecuteEntityIds ctx
        { execCase_txRequest.entityIdsQuery with
          Session := some (f.Begin ctx outSession).outSession, CallerID := cid } reply).out = Outcome.ret none ∧
      (((f.Begin ctx outSession).f.ExecuteEntityIds ctx
        { execCase_txRequest.entityIdsQuery with
          Session := some (f.Begin ctx outSession).outSession, CallerID := cid } reply).f.Commit ctx
        ((f.Begin ctx outSession).f.ExecuteEntityIds ctx
        { execCase_txRequest.entityIdsQuery with
          Session := some (f.Begin ctx outSession).outSession, CallerID := cid } reply).reply.Session).out = Outcome.ret none ∧
      (((f.Begin ctx outSession).f.ExecuteEntityIds ctx
        { execCase_txRequest.entityIdsQuery with
          Session := some (f.Begin ctx outSession).outSession, CallerID := cid } reply).f.Rollback ctx
        ((f.Begin ctx outSession).f.ExecuteEntityIds ctx
        { execCase_txRequest.entityIdsQuery with
          Session := some (f.Begin ctx outSession).outSession, CallerID := cid } reply).reply.Session).out = Outcome.ret none) ∧
    (∀ reply : proto.QueryResultList,
      ((f.Begin ctx outSession).f.ExecuteBatchShard ctx
        { execCase_txRequest.batchQueryShard with
          Session := some (f.Begin ctx outSession).outSession, CallerID := cid } reply).out = Outcome.ret none ∧
      (((f.Begin ctx outSession).f.ExecuteBatchShard ctx
        { execCase_txRequest.batchQueryShard with
          Session := some (f.Begin ctx outSession).outSession, CallerID := cid } reply).f.Commit ctx
        ((f.Begin ctx outSession).f.ExecuteBatchShard ctx
        { execCase_txRequest.batchQueryShard with
          Session := some (f.Begin ctx outSession).outSession, CallerID := cid } reply).reply.Session).out = Outcome.ret none ∧
      (((f.Begin ctx outSession).f.ExecuteBatchShard ctx
        { execCase_txRequest.batchQueryShard with
          Session := some (f.Begin ctx outSession).outSession, CallerID := cid } reply).f.Rollback ctx
        ((f.Begin ctx outSession).f.ExecuteBatchShard ctx
        { execCase_txRequest.batchQueryShard with
          Session := some (f.Begin ctx outSession).outSession, CallerID := cid } reply).reply.Session).out = Outcome.ret none) ∧
    (∀ reply : proto.QueryResultList,
      ((f.Begin ctx outSession).f.ExecuteBatchKeyspaceIds ctx
        { execCase_txRequest.keyspaceIdBatchQuery with
          Session := some (f.Begin ctx outSession).outSession, CallerID := cid } reply).out = Outcome.ret none ∧
      (((f.Begin ctx outSession).f.ExecuteBatchKeyspaceIds ctx
        { execCase_txRequest.keyspaceIdBatchQuery with
          Session := some (f.Begin ctx outSession).outSession, CallerID := cid } reply).f.Commit ctx
        ((f.Begin ctx outSession).f.ExecuteBatchKeyspaceIds ctx
        { execCase_txRequest.keyspaceIdBatchQuery with
          Session := some (f.Begin ctx outSession).outSession, CallerID := cid } reply).reply.Session).out = Outcome.ret none ∧
      (((f.Begin ctx outSession).f.ExecuteBatchKeyspaceIds ctx
        { execCase_txRequest.keyspaceIdBatchQuery with
          Session := some (f.Begin ctx outSession).outSession, CallerID := cid } reply).f.Rollback ctx
        ((f.Begin ctx outSession).f.ExecuteBatchKeyspaceIds ctx
        { execCase_txRequest.keyspaceIdBatchQuery with
          Session := some (f.Begin ctx outSession).outSession, CallerID := cid } reply).reply.Session).out = Outcome.ret none) := by
  have hg : normalMode (f.checkCallerID ctx "Begin") := checkCallerID_normalMode ctx _ hmode
  rw [Begin_normal f ctx outSession hmode]
  refine ⟨rfl, ?_, ?_, ?_, ?_, ?_, ?_, ?_⟩
  · intro reply
    have key := Execute_matching (f.checkCallerID ctx "Begin") ctx
      { execCase_txRequest.execQuery with Session := some session1, CallerID := cid } reply
      execCase_txRequest hg (by decide : execMap "txRequest" = some execCase_txRequest) rfl
    rw [key]
    exact ⟨rfl, Commit_Rollback_session2 _ ctx (checkCallerID_normalMode ctx _ hg)⟩
  · intro reply
    have key := ExecuteShard_matching (f.checkCallerID ctx "Begin") ctx
      { execCase_txRequest.shardQuery with Session := some session1, CallerID := cid } reply
      execCase_txRequest hg (by decide : execMap "txRequest" = some execCase_txRequest) rfl
    rw [key]
    exact ⟨rfl, Commit_Rollback_session2 _ ctx (checkCallerID_normalMode ctx _ hg)⟩
  · intro reply
    have key := ExecuteKeyspaceIds_matching (f.checkCallerID ctx "Begin") ctx
      { execCase_txRequest.keyspaceIdQuery with Session := some session1, CallerID := cid } reply
      execCase_txRequest hg (by decide : execMap "txRequest" = some execCase_txRequest) rfl
    rw [key]
    exact ⟨rfl, Commit_Rollback_session2 _ ctx (checkCallerID_normalMode ctx _ hg)⟩
  · intro reply
    have key := ExecuteKeyRanges_matching (f.checkCallerID ctx "Begin") ctx
      { execCase_txRequest.keyRangeQuery with Session := some session1, CallerID := cid } reply
      execCase_txRequest hg (by decide : execMap "txRequest" = some execCase_txRequest) rfl
    rw [key]
    exact ⟨rfl, Commit_Rollback_session2 _ ctx (checkCallerID_normalMode ctx _ hg)⟩
  · intro reply
    have key := ExecuteEntityIds_matching (f.checkCallerID ctx "Begin") ctx
      { execCase_txRequest.entityIdsQuery with Session := some session1, CallerID := cid } reply
      execCase_txRequest hg (by decide : execMap "txRequest" = some execCase_txRequest) rfl
    rw [key]
    exact ⟨rfl, Commit_Rollback_session2 _ ctx (checkCallerID_normalMode ctx _ hg)⟩
  · intro reply
    have key := ExecuteBatchShard_matching (f.checkCallerID ctx "Begin") ctx
      { execCase_txRequest.batchQueryShard with Session := some session1, CallerID := cid } reply
      execCase_txRequest _ _ hg rfl
      (by decide : execMap "txRequest" = some execCase_txRequest) rfl
    rw [key]
    exact ⟨rfl, Commit_Rollback_session2 _ ctx (checkCallerID_normalMode ctx _ hg)⟩
  · intro reply
    have key := ExecuteBatchKeyspaceIds_matching (f.checkCallerID ctx "Begin") ctx
      { execCase_txRequest.keyspaceIdBatchQuery with Session := some session1, CallerID := cid } reply
      execCase_txRequest _ _ hg rfl
      (by decide : execMap "txRequest" = some execCase_txRequest) rfl
    rw [key]
    exact ⟨rfl, Commit_Rollback_session2 _ ctx (checkCallerID_normalMode ctx _ hg)⟩

/-- Witness of C14 on the server made by `CreateFakeServer`: after `Begin`,
`ExecuteKeyRanges` on the "txRequest" request, `Commit` returns no error. -/
theorem transaction_success_path_witness :
    normalMode (CreateFakeServer []) ∧
    ((((CreateFakeServer []).Begin newContext session2).f.ExecuteKeyRanges newContext
        { execCase_txRequest.keyRangeQuery with
          Session := some ((CreateFakeServer []).Begin newContext session2).outSession,
          CallerID := some testCallerID } {}).f.Commit newContext
      (((CreateFakeServer []).Begin newContext session2).f.ExecuteKeyRanges newContext
        { execCase_txRequest.keyRangeQuery with
          Session := some ((CreateFakeServer []).Begin newContext session2).outSession,
          CallerID := some testCallerID } {}).reply.Session).out = Outcome.ret none :=
  ⟨by decide,
   ((transaction_success_path (CreateFakeServer []) newContext session2 (some testCallerID)
      (by decide)).2.2.2.2.1 {}).2.1⟩

/-! ## SplitQuery and GetSrvKeyspace -/

/-- C16, counterexample: on the server made by `CreateFakeServer` (normal mode,
identity check enabled), with the background context, `SplitQuery` given exactly
the canonical request records a test failure, that of the identity check,
although the request does not differ from the canonical one. -/
theorem split_query_failure_counterexample :
    normalMode (CreateFakeServer []) ∧
    ({ splitQueryRequest with CallerID := none } : proto.SplitQueryRequest) =
      splitQueryRequest ∧
    ((CreateFakeServer []).SplitQuery Context.Background splitQueryRequest {}).f.t =
      [TestFailure.noEffectiveCallerID "SplitQuery"] ∧
    ((CreateFakeServer []).SplitQuery Context.Background splitQueryRequest {}).f.t ≠
      (CreateFakeServer []).t :=
  ⟨by decide, by decide, by decide, by decide⟩

/-- C16, amended: in normal mode `SplitQuery` returns, for every request, no
error and the canonical split result: exactly one part whose sub-query has sql
"out for SplitQuery", bind variable bind1 = 1114444, keyspace "ksout" and the
single key range from "s" to "e", with size 12344. After the identity check
(which may record a failure of its own) it records one more test failure if and
only if the request with its identity cleared differs from the canonical
request {keyspace "ks", sql "in for SplitQuery", bind1 = 43, split column
"split_column", split count 13}; so when the identity check records nothing,
`SplitQuery` records a test failure if and only if the request differs. -/
theorem split_query_canonical (f : fakeVTGateService) (ctx : Context)
    (req : proto.SplitQueryRequest) (reply : proto.SplitQueryResult) (hmode : normalMode f) :
    (f.SplitQuery ctx req reply).out = Outcome.ret none ∧
    (f.SplitQuery ctx req reply).reply =
      { Splits := Slice.of
          [{ Query := some
               { Sql := "out for SplitQuery"
                 BindVariables := GoMap.of [("bind1", Scalar.int64 1114444)]
                 Keyspace := "ksout"
                 KeyRanges := Slice.of [{ Start := "s", End := "e" }] }
             Size := 12344 }] } ∧
    splitQueryRequest =
      { Keyspace := "ks"
        Query :=
          { Sql := "in for SplitQuery", BindVariables := GoMap.of [("bind1", Scalar.int64 43)] }
        SplitColumn := "split_column"
        SplitCount := 13 } ∧
    ({ req with CallerID := none } ≠ splitQueryRequest →
      (f.SplitQuery ctx req reply).f.t =
        (f.checkCallerID ctx "SplitQuery").t ++ [TestFailure.wrongInput "SplitQuery"]) ∧
    ({ req with CallerID := none } = splitQueryRequest →
      (f.SplitQuery ctx req reply).f.t = (f.checkCallerID ctx "SplitQuery").t) ∧
    ((f.SplitQuery ctx req reply).f.t ≠ (f.checkCallerID ctx "SplitQuery").t ↔
      { req with CallerID := none } ≠ splitQueryRequest) ∧
    ((f.checkCallerID ctx "SplitQuery").t = f.t →
      ((f.SplitQuery ctx req reply).f.t ≠ f.t ↔
        { req with CallerID := none } ≠ splitQueryRequest)) := by
  obtain ⟨he, hp⟩ := hmode
  have hne : { req with CallerID := none } ≠ splitQueryRequest →
      (f.SplitQuery ctx req reply).f.t =
        (f.checkCallerID ctx "SplitQuery").t ++ [TestFailure.wrongInput "SplitQuery"] := by
    intro h
    simp [fakeVTGateService.SplitQuery, he, hp, h, fakeVTGateService.Errorf]
  have heq : { req with CallerID := none } = splitQueryRequest →
      (f.SplitQuery ctx req reply).f.t = (f.checkCallerID ctx "SplitQuery").t := by
    intro h
    simp [fakeVTGateService.SplitQuery, he, hp, h]
  have hiff : (f.SplitQuery ctx req reply).f.t ≠ (f.checkCallerID ctx "SplitQuery").t ↔
      { req with CallerID := none } ≠ splitQueryRequest := by
    by_cases h : { req with CallerID := none } = splitQueryRequest
    · simp [heq h, h]
    · simp [hne h, h]
  refine ⟨?_, ?_, rfl, hne, heq, hiff, ?_⟩
  · simp [fakeVTGateService.SplitQuery, he, hp]
  · simp [fakeVTGateService.SplitQuery, he, hp]
    rfl
  · intro hid
    rw [← hid]
    exact hiff

/-- Witness of the amended C16 on the server made by `CreateFakeServer`, with
the suite's context: a request that differs from the canonical one (split count
14) is answered with the canonical result. -/
theorem split_query_canonical_witness :
    normalMode (CreateFakeServer []) ∧
    ((CreateFakeServer []).SplitQuery newContext { splitQueryRequest with SplitCount := 14 }
      {}).reply = splitQueryResult ∧
    ((CreateFakeServer []).SplitQuery newContext { splitQueryRequest with SplitCount := 14 }
      {}).f.t ≠ (CreateFakeServer []).t :=
  ⟨by decide,
   (split_query_canonical (CreateFakeServer []) newContext
      { splitQueryRequest with SplitCount := 14 } {} (by decide)).2.1,
   ((split_query_canonical (CreateFakeServer []) newContext
      { splitQueryRequest with SplitCount := 14 } {} (by decide)).2.2.2.2.2.2 rfl).mpr
      (by decide)⟩

/-- C17: in normal mode `GetSrvKeyspace` returns, for every keyspace name, no
error and the canonical snapshot (one replica partition with shard "shard0"
over the key range from "s" to "e", sharding column "sharding_column_name",
served-from master to "other_keyspace", split shard count 128); it records a
test failure if and only if the requested name differs from "test_keyspace". -/
theorem get_srv_keyspace_canonical (f : fakeVTGateService) (ctx : Context)
    (keyspace : String) (hmode : normalMode f) :
    (f.GetSrvKeyspace ctx keyspace).out = Outcome.ret none ∧
    (f.GetSrvKeyspace ctx keyspace).result = some
      { Partitions := GoMap.of
          [(TabletType.TYPE_REPLICA,
            some { ShardReferences := Slice.of
                     [{ Name := "shard0", KeyRange := { Start := "s", End := "e" } }] })]
        ShardingColumnName := "sharding_column_name"
        ShardingColumnType := KeyspaceIdType.KIT_UINT64
        ServedFrom := GoMap.of [(TabletType.TYPE_MASTER, "other_keyspace")]
        SplitShardCount := 128 } ∧
    ((f.GetSrvKeyspace ctx keyspace).f.t ≠ f.t ↔ keyspace ≠ "test_keyspace") ∧
    (keyspace ≠ "test_keyspace" →
      (f.GetSrvKeyspace ctx keyspace).f.t = f.t ++ [TestFailure.wrongInput "GetSrvKeyspace"]) ∧
    (keyspace = "test_keyspace" → (f.GetSrvKeyspace ctx keyspace).f = f) := by
  obtain ⟨he, hp⟩ := hmode
  have hne : keyspace ≠ "test_keyspace" →
      (f.GetSrvKeyspace ctx keyspace).f.t =
        f.t ++ [TestFailure.wrongInput "GetSrvKeyspace"] := by
    intro h
    simp [fakeVTGateService.GetSrvKeyspace, he, hp, getSrvKeyspaceKeyspace, h,
      fakeVTGateService.Errorf]
  have heq : keyspace = "test_keyspace" → (f.GetSrvKeyspace ctx keyspace).f = f := by
    intro h
    simp [fakeVTGateService.GetSrvKeyspace, he, hp, getSrvKeyspaceKeyspace, h]
  refine ⟨?_, ?_, ?_, hne, heq⟩
  · simp [fakeVTGateService.GetSrvKeyspace, he, hp]
  · simp [fakeVTGateService.GetSrvKeyspace, he, hp]
    rfl
  · by_cases h : keyspace = "test_keyspace"
    · subst h
      have ht := congrArg fakeVTGateService.t (heq rfl)
      simp [ht]
    · simp [hne h, h]

/-- Witness of C17 on the server made by `CreateFakeServer`: the name "ks" is
answered with the canonical snapshot and a test failure is recorded. -/
theorem get_srv_keyspace_canonical_witness :
    normalMode (CreateFakeServer []) ∧
    ((CreateFakeServer []).GetSrvKeyspace newContext "ks").result =
      some getSrvKeyspaceResult ∧
    ((CreateFakeServer []).GetSrvKeyspace newContext "ks").f.t =
      [TestFailure.wrongInput "GetSrvKeyspace"] :=
  ⟨by decide,
   (get_srv_keyspace_canonical (CreateFakeServer []) newContext "ks" (by decide)).2.1,
   (get_srv_keyspace_canonical (CreateFakeServer []) newContext "ks" (by decide)).2.2.2.1
      (by decide)⟩

/-! ## The identity check -/

/-- C19: `checkCallerID` records a test failure if and only if the identity check
is enabled and the effective caller identity recovered from the context is
absent or is not equal to `testCallerID` (principal "test_principal", component
"test_component", subcomponent "test_subcomponent"); the context built by
`newContext` carries exactly that identity and passes the check. -/
theorem checkCallerID_records (f : fakeVTGateService) (ctx : Context) (name : String) :
    ((f.checkCallerID ctx name).t ≠ f.t ↔
      f.hasCallerID = true ∧
      (callerid.EffectiveCallerIDFromContext ctx = none ∨
        ∃ ef, callerid.EffectiveCallerIDFromContext ctx = some ef ∧ ef ≠ testCallerID)) ∧
    testCallerID =
      { Principal := "test_principal", Component := "test_component",
        Subcomponent := "test_subcomponent" } ∧
    callerid.EffectiveCallerIDFromContext newContext = some testCallerID ∧
    f.checkCallerID newContext name = f := by
  refine ⟨?_, rfl, rfl, ?_⟩
  · cases hid : f.hasCallerID with
    | false => simp [fakeVTGateService.checkCallerID, hid]
    | true =>
      cases hef : callerid.EffectiveCallerIDFromContext ctx with
      | none => simp [fakeVTGateService.checkCallerID, hid, hef, fakeVTGateService.Errorf]
      | some ef =>
        by_cases h : ef = testCallerID
        · simp [fakeVTGateService.checkCallerID, hid, hef, h]
        · simp [fakeVTGateService.checkCallerID, hid, hef, h, fakeVTGateService.Errorf]
  · cases hid : f.hasCallerID with
    | false => simp [fakeVTGateService.checkCallerID, hid]
    | true =>
      have hctx : callerid.EffectiveCallerIDFromContext newContext = some testCallerID := rfl
      simp [fakeVTGateService.checkCallerID, hid, hctx]

/-! ## The identity switch and the request's identity field -/

theorem checkCallerID_hasError (f : fakeVTGateService) (ctx : Context) (name : String) :
    (f.checkCallerID ctx name).hasError = f.hasError := (checkCallerID_flags f ctx name).1

theorem checkCallerID_panics (f : fakeVTGateService) (ctx : Context) (name : String) :
    (f.checkCallerID ctx name).panics = f.panics := (checkCallerID_flags f ctx name).2.1

theorem checkCallerID_forceBeginSuccess (f : fakeVTGateService) (ctx : Context)
    (name : String) : (f.checkCallerID ctx name).forceBeginSuccess = f.forceBeginSuccess :=
  (checkCallerID_flags f ctx name).2.2.1

theorem checkCallerID_errorWait (f : fakeVTGateService) (ctx : Context) (name : String) :
    (f.checkCallerID ctx name).errorWait = f.errorWait := (checkCallerID_flags f ctx name).2.2.2.2

/-- The response of every handler (outcome, reply, messages handed over) depends
on the server only through its fault flags, the override and the gate: two
servers that agree on these, whatever their recorded failures and their
`hasCallerID`, answer alike. -/
theorem response_of_fault_state (g h : fakeVTGateService) (ctx : Context)
    (hp : g.panics = h.panics) (he : g.hasError = h.hasError)
    (hf : g.forceBeginSuccess = h.forceBeginSuccess) (hw : g.errorWait = h.errorWait) :
    (∀ (q : proto.Query) (reply : proto.QueryResult),
      (g.Execute ctx q reply).out = (h.Execute ctx q reply).out ∧
      (g.Execute ctx q reply).reply = (h.Execute ctx q reply).reply) ∧
    (∀ (q : proto.QueryShard) (reply : proto.QueryResult),
      (g.ExecuteShard ctx q reply).out = (h.ExecuteShard ctx q reply).out ∧
      (g.ExecuteShard ctx q reply).reply = (h.ExecuteShard ctx q reply).reply) ∧
    (∀ (q : proto.KeyspaceIdQuery) (reply : proto.QueryResult),
      (g.ExecuteKeyspaceIds ctx q reply).out = (h.ExecuteKeyspaceIds ctx q reply).out ∧
      (g.ExecuteKeyspaceIds ctx q reply).reply = (h.ExecuteKeyspaceIds ctx q reply).reply) ∧
    (∀ (q : proto.KeyRangeQuery) (reply : proto.QueryResult),
      (g.ExecuteKeyRanges ctx q reply).out = (h.ExecuteKeyRanges ctx q reply).out ∧
      (g.ExecuteKeyRanges ctx q reply).reply = (h.ExecuteKeyRanges ctx q reply).reply) ∧
    (∀ (q : proto.EntityIdsQuery) (reply : proto.QueryResult),
      (g.ExecuteEntityIds ctx q reply).out = (h.ExecuteEntityIds ctx q reply).out ∧
      (g.ExecuteEntityIds ctx q reply).reply = (h.ExecuteEntityIds ctx q reply).reply) ∧
    (∀ (b : proto.BatchQueryShard) (reply : proto.QueryResultList),
      (g.ExecuteBatchShard ctx b reply).out = (h.ExecuteBatchShard ctx b reply).out ∧
      (g.ExecuteBatchShard ctx b reply).reply = (h.ExecuteBatchShard ctx b reply).reply) ∧
    (∀ (b : proto.KeyspaceIdBatchQuery) (reply : proto.QueryResultList),
      (g.ExecuteBatchKeyspaceIds ctx b reply).out = (h.ExecuteBatchKeyspaceIds ctx b reply).out ∧
      (g.ExecuteBatchKeyspaceIds ctx b reply).reply = (h.ExecuteBatchKeyspaceIds ctx b reply).reply) ∧
    (∀ (q : proto.Query) (sendReply : SendReply),
      (g.StreamExecute ctx q sendReply).out = (h.StreamExecute ctx q sendReply).out ∧
      (g.StreamExecute ctx q sendReply).sent = (h.StreamExecute ctx q sendReply).sent) ∧
    (∀ (q : proto.QueryShard) (sendReply : SendReply),
      (g.StreamExecuteShard ctx q sendReply).out = (h.StreamExecuteShard ctx q sendReply).out ∧
      (g.StreamExecuteShard ctx q sendReply).sent = (h.StreamExecuteShard ctx q sendReply).sent) ∧
    (∀ (q : proto.KeyRangeQuery) (sendReply : SendReply),
      (g.StreamExecuteKeyRanges ctx q sendReply).out = (h.StreamExecuteKeyRanges ctx q sendReply).out ∧
      (g.StreamExecuteKeyRanges ctx q sendReply).sent = (h.StreamExecuteKeyRanges ctx q sendReply).sent) ∧
    (∀ (q : proto.KeyspaceIdQuery) (sendReply : SendReply),
      (g.StreamExecuteKeyspaceIds ctx q sendReply).out = (h.StreamExecuteKeyspaceIds ctx q sendReply).out ∧
      (g.StreamExecuteKeyspaceIds ctx q sendReply).sent = (h.StreamExecuteKeyspaceIds ctx q sendReply).sent) ∧
    (∀ outSession : Session,
      (g.Begin ctx outSession).out = (h.Begin ctx outSession).out ∧
      (g.Begin ctx outSession).outSession = (h.Begin ctx outSession).outSession) ∧
    (∀ inSession : Option Session,
      (g.Commit ctx inSession).out = (h.Commit ctx inSession).out) ∧
    (∀ inSession : Option Session,
      (g.Rollback ctx inSession).out = (h.Rollback ctx inSession).out) ∧
    (∀ (req : proto.SplitQueryRequest) (reply : proto.SplitQueryResult),
      (g.SplitQuery ctx req reply).out = (h.SplitQuery ctx req reply).out ∧
      (g.SplitQuery ctx req reply).reply = (h.SplitQuery ctx req reply).reply) ∧
    (∀ keyspace : String,
      (g.GetSrvKeyspace ctx keyspace).out = (h.GetSrvKeyspace ctx keyspace).out ∧
      (g.GetSrvKeyspace ctx keyspace).result = (h.GetSrvKeyspace ctx keyspace).result) := by
  refine ⟨?_, ?_, ?_, ?_, ?_, ?_, ?_, ?_, ?_, ?_, ?_, ?_, ?_, ?_, ?_, ?_⟩
  · intro q reply
    cases heh : h.hasError <;> cases hph : h.panics <;>
      simp only [fakeVTGateService.Execute, he, hp, heh, hph] <;> try exact ⟨rfl, rfl⟩
    cases hm : execMap q.Sql with
    | none => simp [hm]
    | some c =>
      by_cases hq : ({ q with CallerID := none } : proto.Query) = c.execQuery <;> simp [hm, hq]
  · intro q reply
    cases heh : h.hasError <;> cases hph : h.panics <;>
      simp only [fakeVTGateService.ExecuteShard, he, hp, heh, hph] <;> try exact ⟨rfl, rfl⟩
    cases hm : execMap q.Sql with
    | none => simp [hm]
    | some c =>
      by_cases hq : ({ q with CallerID := none } : proto.QueryShard) = c.shardQuery <;> simp [hm, hq]
  · intro q reply
    cases heh : h.hasError <;> cases hph : h.panics <;>
      simp only [fakeVTGateService.ExecuteKeyspaceIds, he, hp, heh, hph] <;> try exact ⟨rfl, rfl⟩
    cases hm : execMap q.Sql with
    | none => simp [hm]
    | some c =>
      by_cases hq : ({ q with CallerID := none } : proto.KeyspaceIdQuery) = c.keyspaceIdQuery <;> simp [hm, hq]
  · intro q reply
    cases heh : h.hasError <;> cases hph : h.panics <;>
      simp only [fakeVTGateService.ExecuteKeyRanges, he, hp, heh, hph] <;> try exact ⟨rfl, rfl⟩
    cases hm : execMap q.Sql with
    | none => simp [hm]
    | some c =>
      by_cases hq : ({ q with CallerID := none } : proto.KeyRangeQuery) = c.keyRangeQuery <;> simp [hm, hq]
  · intro q reply
    cases heh : h.hasError <;> cases hph : h.panics <;>
      simp only [fakeVTGateService.ExecuteEntityIds, he, hp, heh, hph] <;> try exact ⟨rfl, rfl⟩
    cases hm : execMap q.Sql with
    | none => simp [hm]
    | some c =>
      by_cases hq : ({ q with CallerID := none } : proto.EntityIdsQuery) = c.entityIdsQuery <;> simp [hm, hq]
  · intro b reply
    cases heh : h.hasError <;> cases hph : h.panics <;>
      simp only [fakeVTGateService.ExecuteBatchShard, he, hp, heh, hph] <;> try exact ⟨rfl, rfl⟩
    cases hb : b.Queries.toList with
    | nil => simp [hb]
    | cons q0 rest =>
      cases hm : execMap q0.Sql with
      | none => simp [hb, hm]
      | some c =>
        by_cases hq : ({ b with CallerID := none } : proto.BatchQueryShard) = c.batchQueryShard
        · have hq' := hq
          simp [hb, hm, hq']
        · have hq' := hq
          simp [hb, hm, hq']
  · intro b reply
    cases heh : h.hasError <;> cases hph : h.panics <;>
      simp only [fakeVTGateService.ExecuteBatchKeyspaceIds, he, hp, heh, hph] <;> try exact ⟨rfl, rfl⟩
    cases hb : b.Queries.toList with
    | nil => simp [hb]
    | cons q0 rest =>
      cases hm : execMap q0.Sql with
      | none => simp [hb, hm]
      | some c =>
        by_cases hq : ({ b with CallerID := none } : proto.KeyspaceIdBatchQuery) = c.keyspaceIdBatchQuery
        · have hq' := hq
          simp [hb, hm, hq']
        · have hq' := hq
          simp [hb, hm, hq']
  · intro q sendReply
    cases hph : h.panics <;> simp only [fakeVTGateService.StreamExecute, hp, hph] <;>
      try exact ⟨rfl, rfl⟩
    cases hm : execMap q.Sql with
    | none => simp [hm]
    | some c =>
      by_cases hq : ({ q with CallerID := none } : proto.Query) = c.execQuery
      · cases hr : c.reply.Result with
        | none => simp [hm, hq, hr]
        | some r =>
          cases hs : sendReply [] { Result := some { Fields := r.Fields } } with
          | some err => simp [hm, hq, hr, hs]
          | none =>
            cases heh : h.hasError with
            | true =>
              cases hc : h.errorWait.closed <;>
                simp [hm, hq, hr, hs, checkCallerID_hasError, checkCallerID_errorWait, he, hw,
                  heh, hc]
            | false =>
              rcases hsr : sendRows sendReply [{ Result := some { Fields := r.Fields } }]
                r.Rows.toList with ⟨sent, _ | err⟩ <;>
                simp [hm, hq, hr, hs, checkCallerID_hasError, checkCallerID_errorWait, he, hw,
                  heh, hsr]
      · simp [hm, hq]
  · intro q sendReply
    cases hph : h.panics <;> simp only [fakeVTGateService.StreamExecuteShard, hp, hph] <;>
      try exact ⟨rfl, rfl⟩
    cases hm : execMap q.Sql with
    | none => simp [hm]
    | some c =>
      by_cases hq : ({ q with CallerID := none } : proto.QueryShard) = c.shardQuery
      · cases hr : c.reply.Result with
        | none => simp [hm, hq, hr]
        | some r =>
          cases hs : sendReply [] { Result := some { Fields := r.Fields } } with
          | some err => simp [hm, hq, hr, hs]
          | none =>
            cases heh : h.hasError with
            | true =>
              cases hc : h.errorWait.closed <;>
                simp [hm, hq, hr, hs, checkCallerID_hasError, checkCallerID_errorWait, he, hw,
                  heh, hc]
            | false =>
              rcases hsr : sendRows sendReply [{ Result := some { Fields := r.Fields } }]
                r.Rows.toList with ⟨sent, _ | err⟩ <;>
                simp [hm, hq, hr, hs, checkCallerID_hasError, checkCallerID_errorWait, he, hw,
                  heh, hsr]
      · simp [hm, hq]
  · intro q sendReply
    cases hph : h.panics <;> simp only [fakeVTGateService.StreamExecuteKeyRanges, hp, hph] <;>
      try exact ⟨rfl, rfl⟩
    cases hm : execMap q.Sql with
    | none => simp [hm]
    | some c =>
      by_cases hq : ({ q with CallerID := none } : proto.KeyRangeQuery) = c.keyRangeQuery
      · cases hr : c.reply.Result with
        | none => simp [hm, hq, hr]
        | some r =>
          cases hs : sendReply [] { Result := some { Fields := r.Fields } } with
          | some err => simp [hm, hq, hr, hs]
          | none =>
            cases heh : h.hasError with
            | true =>
              cases hc : h.errorWait.closed <;>
                simp [hm, hq, hr, hs, checkCallerID_hasError, checkCallerID_errorWait, he, hw,
                  heh, hc]
            | false =>
              rcases hsr : sendRows sendReply [{ Result := some { Fields := r.Fields } }]
                r.Rows.toList with ⟨sent, _ | err⟩ <;>
                simp [hm, hq, hr, hs, checkCallerID_hasError, checkCallerID_errorWait, he, hw,
                  heh, hsr]
      · simp [hm, hq]
  · intro q sendReply
    cases hph : h.panics <;> simp only [fakeVTGateService.StreamExecuteKeyspaceIds, hp, hph] <;>
      try exact ⟨rfl, rfl⟩
    cases hm : execMap q.Sql with
    | none => simp [hm]
    | some c =>
      by_cases hq : ({ q with CallerID := none } : proto.KeyspaceIdQuery) = c.keyspaceIdQuery
      · cases hr : c.reply.Result with
        | none => simp [hm, hq, hr]
        | some r =>
          cases hs : sendReply [] { Result := some { Fields := r.Fields } } with
          | some err => simp [hm, hq, hr, hs]
          | none =>
            cases heh : h.hasError with
            | true =>
              cases hc : h.errorWait.closed <;>
                simp [hm, hq, hr, hs, checkCallerID_hasError, checkCallerID_errorWait, he, hw,
                  heh, hc]
            | false =>
              rcases hsr : sendRows sendReply [{ Result := some { Fields := r.Fields } }]
                r.Rows.toList with ⟨sent, _ | err⟩ <;>
                simp [hm, hq, hr, hs, checkCallerID_hasError, checkCallerID_errorWait, he, hw,
                  heh, hsr]
      · simp [hm, hq]
  · intro outSession
    simp only [fakeVTGateService.Begin, checkCallerID_hasError, checkCallerID_panics,
      checkCallerID_forceBeginSuccess, hp, he, hf]
    constructor <;> split_ifs <;> rfl
  · intro inSession
    simp only [fakeVTGateService.Commit, checkCallerID_hasError, checkCallerID_panics, hp, he]
    split_ifs <;> rfl
  · intro inSession
    simp only [fakeVTGateService.Rollback, hp, he]
    split_ifs <;> rfl
  · intro req reply
    simp only [fakeVTGateService.SplitQuery, hp, he]
    constructor <;> split_ifs <;> rfl
  · intro keyspace
    simp only [fakeVTGateService.GetSrvKeyspace, hp, he]
    constructor <;> split_ifs <;> rfl

/-- C18: disabling the identity check does not affect the response. For every
handler, every setting of the fault flags (and of the override and the gate),
every request and every context, the outcome (error returned, or panic), the
reply and the messages handed to `sendReply` are the same on the server with
`hasCallerID` true and on the server with `hasCallerID` false. -/
theorem identity_switch_keeps_response (f : fakeVTGateService) (ctx : Context) :
    (∀ (q : proto.Query) (reply : proto.QueryResult),
      (fakeVTGateService.Execute { f with hasCallerID := true } ctx q reply).out = (fakeVTGateService.Execute
        { f with hasCallerID := false } ctx q reply).out ∧
      (fakeVTGateService.Execute { f with hasCallerID := true } ctx q reply).reply = (fakeVTGateService.Execute
        { f with hasCallerID := false } ctx q reply).reply) ∧
    (∀ (q : proto.QueryShard) (reply : proto.QueryResult),
      (fakeVTGateService.ExecuteShard { f with hasCallerID := true } ctx q reply).out = (fakeVTGateService.ExecuteShard
        { f with hasCallerID := false } ctx q reply).out ∧
      (fakeVTGateService.ExecuteShard { f with hasCallerID := true } ctx q reply).reply = (fakeVTGateService.ExecuteShard
        { f with hasCallerID := false } ctx q reply).reply) ∧
    (∀ (q : proto.KeyspaceIdQuery) (reply : proto.QueryResult),
      (fakeVTGateService.ExecuteKeyspaceIds { f with hasCallerID := true } ctx q reply).out = (fakeVTGateService.ExecuteKeyspaceIds
        { f with hasCallerID := false } ctx q reply).out ∧
      (fakeVTGateService.ExecuteKeyspaceIds { f with hasCallerID := true } ctx q reply).reply = (fakeVTGateService.ExecuteKeyspaceIds
        { f with hasCallerID := false } ctx q reply).reply) ∧
    (∀ (q : proto.KeyRangeQuery) (reply : proto.QueryResult),
      (fakeVTGateService.ExecuteKeyRanges { f with hasCallerID := true } ctx q reply).out = (fakeVTGateService.ExecuteKeyRanges
        { f with hasCallerID := false } ctx q reply).out ∧
      (fakeVTGateService.ExecuteKeyRanges { f with hasCallerID := true } ctx q reply).reply = (fakeVTGateService.ExecuteKeyRanges
        { f with hasCallerID := false } ctx q reply).reply) ∧
    (∀ (q : proto.EntityIdsQuery) (reply : proto.QueryResult),
      (fakeVTGateService.ExecuteEntityIds { f with hasCallerID := true } ctx q reply).out = (fakeVTGateService.ExecuteEntityIds
        { f with hasCallerID := false } ctx q reply).out ∧
      (fakeVTGateService.ExecuteEntityIds { f with hasCallerID := true } ctx q reply).reply = (fakeVTGateService.ExecuteEntityIds
        { f with hasCallerID := false } ctx q reply).reply) ∧
    (∀ (b : proto.BatchQueryShard) (reply : proto.QueryResultList),
      (fakeVTGateService.ExecuteBatchShard { f with hasCallerID := true } ctx b reply).out = (fakeVTGateService.ExecuteBatchShard
        { f with hasCallerID := false } ctx b reply).out ∧
      (fakeVTGateService.ExecuteBatchShard { f with hasCallerID := true } ctx b reply).reply = (fakeVTGateService.ExecuteBatchShard
        { f with hasCallerID := false } ctx b reply).reply) ∧
    (∀ (b : proto.KeyspaceIdBatchQuery) (reply : proto.QueryResultList),
      (fakeVTGateService.ExecuteBatchKeyspaceIds { f with hasCallerID := true } ctx b reply).out = (fakeVTGateService.ExecuteBatchKeyspaceIds
        { f with hasCallerID := false } ctx b reply).out ∧
      (fakeVTGateService.ExecuteBatchKeyspaceIds { f with hasCallerID := true } ctx b reply).reply = (fakeVTGateService.ExecuteBatchKeyspaceIds
        { f with hasCallerID := false } ctx b reply).reply) ∧
    (∀ (q : proto.Query) (sendReply : SendReply),
      (fakeVTGateService.StreamExecute { f with hasCallerID := true } ctx q sendReply).out = (fakeVTGateService.StreamExecute
        { f with hasCallerID := false } ctx q sendReply).out ∧
      (fakeVTGateService.StreamExecute { f with hasCallerID := true } ctx q sendReply).sent = (fakeVTGateService.StreamExecute
        { f with hasCallerID := false } ctx q sendReply).sent) ∧
    (∀ (q : proto.QueryShard) (sendReply : SendReply),
      (fakeVTGateService.StreamExecuteShard { f with hasCallerID := true } ctx q sendReply).out = (fakeVTGateService.StreamExecuteShard
        { f with hasCallerID := false } ctx q sendReply).out ∧
      (fakeVTGateService.StreamExecuteShard { f with hasCallerID := true } ctx q sendReply).sent = (fakeVTGateService.StreamExecuteShard
        { f with hasCallerID := false } ctx q sendReply).sent) ∧
    (∀ (q : proto.KeyRangeQuery) (sendReply : SendReply),
      (fakeVTGateService.StreamExecuteKeyRanges { f with hasCallerID := true } ctx q sendReply).out = (fakeVTGateService.StreamExecuteKeyRanges
        { f with hasCallerID := false } ctx q sendReply).out ∧
      (fakeVTGateService.StreamExecuteKeyRanges { f with hasCallerID := true } ctx q sendReply).sent = (fakeVTGateService.StreamExecuteKeyRanges
        { f with hasCallerID := false } ctx q sendReply).sent) ∧
    (∀ (q : proto.KeyspaceIdQuery) (sendReply : SendReply),
      (fakeVTGateService.StreamExecuteKeyspaceIds { f with hasCallerID := true } ctx q sendReply).out = (fakeVTGateService.StreamExecuteKeyspaceIds
        { f with hasCallerID := false } ctx q sendReply).out ∧
      (fakeVTGateService.StreamExecuteKeyspaceIds { f with hasCallerID := true } ctx q sendReply).sent = (fakeVTGateService.StreamExecuteKeyspaceIds
        { f with hasCallerID := false } ctx q sendReply).sent) ∧
    (∀ outSession : Session,
      (fakeVTGateService.Begin { f with hasCallerID := true } ctx outSession).out = (fakeVTGateService.Begin
        { f with hasCallerID := false } ctx outSession).out ∧
      (fakeVTGateService.Begin { f with hasCallerID := true } ctx outSession).outSession = (fakeVTGateService.Begin
        { f with hasCallerID := false } ctx outSession).outSession) ∧
    (∀ inSession : Option Session,
      (fakeVTGateService.Commit { f with hasCallerID := true } ctx inSession).out = (fakeVTGateService.Commit
        { f with hasCallerID := false } ctx inSession).out) ∧
    (∀ inSession : Option Session,
      (fakeVTGateService.Rollback { f with hasCallerID := true } ctx inSession).out = (fakeVTGateService.Rollback
        { f with hasCallerID := false } ctx inSession).out) ∧
    (∀ (req : proto.SplitQueryRequest) (reply : proto.SplitQueryResult),
      (fakeVTGateService.SplitQuery { f with hasCallerID := true } ctx req reply).out = (fakeVTGateService.SplitQuery
        { f with hasCallerID := false } ctx req reply).out ∧
      (fakeVTGateService.SplitQuery { f with hasCallerID := true } ctx req reply).reply = (fakeVTGateService.SplitQuery
        { f with hasCallerID := false } ctx req reply).reply) ∧
    (∀ keyspace : String,
      (fakeVTGateService.GetSrvKeyspace { f with hasCallerID := true } ctx keyspace).out = (fakeVTGateService.GetSrvKeyspace
        { f with hasCallerID := false } ctx keyspace).out ∧
      (fakeVTGateService.GetSrvKeyspace { f with hasCallerID := true } ctx keyspace).result = (fakeVTGateService.GetSrvKeyspace
        { f with hasCallerID := false } ctx keyspace).result) := by
  have key := response_of_fault_state { f with hasCallerID := true }
    { f with hasCallerID := false } ctx rfl rfl rfl rfl
  exact key

/-- In normal mode the handlers compare, answer and record on the request with
its `CallerID` cleared: two requests that differ only in `CallerID` give the same
call (outcome, reply or messages, failures recorded), and the request is left
with `CallerID` cleared. `StreamExecute` clears `CallerID` only after it has
found the fixture, so it leaves an unregistered request as it was. -/
theorem request_identity_ignored (f : fakeVTGateService) (ctx : Context)
    (hmode : normalMode f) :
    ((∀ (q1 q2 : proto.Query) (r : proto.QueryResult),
        ({ q1 with CallerID := none } : proto.Query) = { q2 with CallerID := none } →
        f.Execute ctx q1 r = f.Execute ctx q2 r) ∧
      (∀ (q : proto.Query) (r : proto.QueryResult), (f.Execute ctx q r).query.CallerID = none)) ∧
    ((∀ (q1 q2 : proto.QueryShard) (r : proto.QueryResult),
        ({ q1 with CallerID := none } : proto.QueryShard) = { q2 with CallerID := none } →
        f.ExecuteShard ctx q1 r = f.ExecuteShard ctx q2 r) ∧
      (∀ (q : proto.QueryShard) (r : proto.QueryResult), (f.ExecuteShard ctx q r).query.CallerID = none)) ∧
    ((∀ (q1 q2 : proto.KeyspaceIdQuery) (r : proto.QueryResult),
        ({ q1 with CallerID := none } : proto.KeyspaceIdQuery) = { q2 with CallerID := none } →
        f.ExecuteKeyspaceIds ctx q1 r = f.ExecuteKeyspaceIds ctx q2 r) ∧
      (∀ (q : proto.KeyspaceIdQuery) (r : proto.QueryResult), (f.ExecuteKeyspaceIds ctx q r).query.CallerID = none)) ∧
    ((∀ (q1 q2 : proto.KeyRangeQuery) (r : proto.QueryResult),
        ({ q1 with CallerID := none } : proto.KeyRangeQuery) = { q2 with CallerID := none } →
        f.ExecuteKeyRanges ctx q1 r = f.ExecuteKeyRanges ctx q2 r) ∧
      (∀ (q : proto.KeyRangeQuery) (r : proto.QueryResult), (f.ExecuteKeyRanges ctx q r).query.CallerID = none)) ∧
    ((∀ (q1 q2 : proto.EntityIdsQuery) (r : proto.QueryResult),
        ({ q1 with CallerID := none } : proto.EntityIdsQuery) = { q2 with CallerID := none } →
        f.ExecuteEntityIds ctx q1 r = f.ExecuteEntityIds ctx q2 r) ∧
      (∀ (q : proto.EntityIdsQuery) (r : proto.QueryResult), (f.ExecuteEntityIds ctx q r).query.CallerID = none)) ∧
    ((∀ (q1 q2 : proto.BatchQueryShard) (r : proto.QueryResultList),
        ({ q1 with CallerID := none } : proto.BatchQueryShard) = { q2 with CallerID := none } →
        f.ExecuteBatchShard ctx q1 r = f.ExecuteBatchShard ctx q2 r) ∧
      (∀ (q : proto.BatchQueryShard) (r : proto.QueryResultList), (f.ExecuteBatchShard ctx q r).query.CallerID = none)) ∧
    ((∀ (q1 q2 : proto.KeyspaceIdBatchQuery) (r : proto.QueryResultList),
        ({ q1 with CallerID := none } : proto.KeyspaceIdBatchQuery) = { q2 with CallerID := none } →
        f.ExecuteBatchKeyspaceIds ctx q1 r = f.ExecuteBatchKeyspaceIds ctx q2 r) ∧
      (∀ (q : proto.KeyspaceIdBatchQuery) (r : proto.QueryResultList), (f.ExecuteBatchKeyspaceIds ctx q r).query.CallerID = none)) ∧
    ((∀ (q1 q2 : proto.QueryShard) (r : SendReply),
        ({ q1 with CallerID := none } : proto.QueryShard) = { q2 with CallerID := none } →
        f.StreamExecuteShard ctx q1 r = f.StreamExecuteShard ctx q2 r) ∧
      (∀ (q : proto.QueryShard) (r : SendReply), (f.StreamExecuteShard ctx q r).query.CallerID = none)) ∧
    ((∀ (q1 q2 : proto.KeyRangeQuery) (r : SendReply),
        ({ q1 with CallerID := none } : proto.KeyRangeQuery) = { q2 with CallerID := none } →
        f.StreamExecuteKeyRanges ctx q1 r = f.StreamExecuteKeyRanges ctx q2 r) ∧
      (∀ (q : proto.KeyRangeQuery) (r : SendReply), (f.StreamExecuteKeyRanges ctx q r).query.CallerID = none)) ∧
    ((∀ (q1 q2 : proto.KeyspaceIdQuery) (r : SendReply),
        ({ q1 with CallerID := none } : proto.KeyspaceIdQuery) = { q2 with CallerID := none } →
        f.StreamExecuteKeyspaceIds ctx q1 r = f.StreamExecuteKeyspaceIds ctx q2 r) ∧
      (∀ (q : proto.KeyspaceIdQuery) (r : SendReply), (f.StreamExecuteKeyspaceIds ctx q r).query.CallerID = none)) ∧
    ((∀ (q1 q2 : proto.SplitQueryRequest) (r : proto.SplitQueryResult),
        ({ q1 with CallerID := none } : proto.SplitQueryRequest) = { q2 with CallerID := none } →
        f.SplitQuery ctx q1 r = f.SplitQuery ctx q2 r) ∧
      (∀ (q : proto.SplitQueryRequest) (r : proto.SplitQueryResult), (f.SplitQuery ctx q r).query.CallerID = none)) ∧
    ((∀ (q1 q2 : proto.Query) (r : SendReply),
        ({ q1 with CallerID := none } : proto.Query) = { q2 with CallerID := none } →
        (f.StreamExecute ctx q1 r).out = (f.StreamExecute ctx q2 r).out ∧
        (f.StreamExecute ctx q1 r).sent = (f.StreamExecute ctx q2 r).sent ∧
        (f.StreamExecute ctx q1 r).f = (f.StreamExecute ctx q2 r).f) ∧
      (∀ (q : proto.Query) (r : SendReply) (c : ExecCase), execMap q.Sql = some c →
        (f.StreamExecute ctx q r).query.CallerID = none) ∧
      (∀ (q : proto.Query) (r : SendReply), execMap q.Sql = none →
        (f.StreamExecute ctx q r).query = q)) := by
  obtain ⟨he, hp⟩ := hmode
  refine ⟨?_, ?_, ?_, ?_, ?_, ?_, ?_, ?_, ?_, ?_, ?_, ?_⟩
  · have hclear : ∀ (q : proto.Query) (r : proto.QueryResult),
        f.Execute ctx q r = f.Execute ctx { q with CallerID := none } r := by
      intro q r
      simp only [fakeVTGateService.Execute, he, hp]
      rfl
    refine ⟨fun q1 q2 r h => ?_, fun q r => ?_⟩
    · rw [hclear q1, hclear q2, h]
    · simp only [fakeVTGateService.Execute, he, hp]
      (repeat' split) <;> first | rfl | contradiction
  · have hclear : ∀ (q : proto.QueryShard) (r : proto.QueryResult),
        f.ExecuteShard ctx q r = f.ExecuteShard ctx { q with CallerID := none } r := by
      intro q r
      simp only [fakeVTGateService.ExecuteShard, he, hp]
      rfl
    refine ⟨fun q1 q2 r h => ?_, fun q r => ?_⟩
    · rw [hclear q1, hclear q2, h]
    · simp only [fakeVTGateService.ExecuteShard, he, hp]
      (repeat' split) <;> first | rfl | contradiction
  · have hclear : ∀ (q : proto.KeyspaceIdQuery) (r : proto.QueryResult),
        f.ExecuteKeyspaceIds ctx q r = f.ExecuteKeyspaceIds ctx { q with CallerID := none } r := by
      intro q r
      simp only [fakeVTGateService.ExecuteKeyspaceIds, he, hp]
      rfl
    refine ⟨fun q1 q2 r h => ?_, fun q r => ?_⟩
    · rw [hclear q1, hclear q2, h]
    · simp only [fakeVTGateService.ExecuteKeyspaceIds, he, hp]
      (repeat' split) <;> first | rfl | contradiction
  · have hclear : ∀ (q : proto.KeyRangeQuery) (r : proto.QueryResult),
        f.ExecuteKeyRanges ctx q r = f.ExecuteKeyRanges ctx { q with CallerID := none } r := by
      intro q r
      simp only [fakeVTGateService.ExecuteKeyRanges, he, hp]
      rfl
    refine ⟨fun q1 q2 r h => ?_, fun q r => ?_⟩
    · rw [hclear q1, hclear q2, h]
    · simp only [fakeVTGateService.ExecuteKeyRanges, he, hp]
      (repeat' split) <;> first | rfl | contradiction
  · have hclear : ∀ (q : proto.EntityIdsQuery) (r : proto.QueryResult),
        f.ExecuteEntityIds ctx q r = f.ExecuteEntityIds ctx { q with CallerID := none } r := by
      intro q r
      simp only [fakeVTGateService.ExecuteEntityIds, he, hp]
      rfl
    refine ⟨fun q1 q2 r h => ?_, fun q r => ?_⟩
    · rw [hclear q1, hclear q2, h]
    · simp only [fakeVTGateService.ExecuteEntityIds, he, hp]
      (repeat' split) <;> first | rfl | contradiction
  · have hclear : ∀ (q : proto.BatchQueryShard) (r : proto.QueryResultList),
        f.ExecuteBatchShard ctx q r = f.ExecuteBatchShard ctx { q with CallerID := none } r := by
      intro q r
      simp only [fakeVTGateService.ExecuteBatchShard, he, hp]
      rfl
    refine ⟨fun q1 q2 r h => ?_, fun q r => ?_⟩
    · rw [hclear q1, hclear q2, h]
    · simp only [fakeVTGateService.ExecuteBatchShard, he, hp]
      (repeat' split) <;> first | rfl | contradiction
  · have hclear : ∀ (q : proto.KeyspaceIdBatchQuery) (r : proto.QueryResultList),
        f.ExecuteBatchKeyspaceIds ctx q r = f.ExecuteBatchKeyspaceIds ctx { q with CallerID := none } r := by
      intro q r
      simp only [fakeVTGateService.ExecuteBatchKeyspaceIds, he, hp]
      rfl
    refine ⟨fun q1 q2 r h => ?_, fun q r => ?_⟩
    · rw [hclear q1, hclear q2, h]
    · simp only [fakeVTGateService.ExecuteBatchKeyspaceIds, he, hp]
      (repeat' split) <;> first | rfl | contradiction
  · have hclear : ∀ (q : proto.QueryShard) (r : SendReply),
        f.StreamExecuteShard ctx q r = f.StreamExecuteShard ctx { q with CallerID := none } r := by
      intro q r
      simp only [fakeVTGateService.StreamExecuteShard, he, hp]
      rfl
    refine ⟨fun q1 q2 r h => ?_, fun q r => ?_⟩
    · rw [hclear q1, hclear q2, h]
    · simp only [fakeVTGateService.StreamExecuteShard, he, hp]
      (repeat' split) <;> first | rfl | contradiction
  · have hclear : ∀ (q : proto.KeyRangeQuery) (r : SendReply),
        f.StreamExecuteKeyRanges ctx q r = f.StreamExecuteKeyRanges ctx { q with CallerID := none } r := by
      intro q r
      simp only [fakeVTGateService.StreamExecuteKeyRanges, he, hp]
      rfl
    refine ⟨fun q1 q2 r h => ?_, fun q r => ?_⟩
    · rw [hclear q1, hclear q2, h]
    · simp only [fakeVTGateService.StreamExecuteKeyRanges, he, hp]
      (repeat' split) <;> first | rfl | contradiction
  · have hclear : ∀ (q : proto.KeyspaceIdQuery) (r : SendReply),
        f.StreamExecuteKeyspaceIds ctx q r = f.StreamExecuteKeyspaceIds ctx { q with CallerID := none } r := by
      intro q r
      simp only [fakeVTGateService.StreamExecuteKeyspaceIds, he, hp]
      rfl
    refine ⟨fun q1 q2 r h => ?_, fun q r => ?_⟩
    · rw [hclear q1, hclear q2, h]
    · simp only [fakeVTGateService.StreamExecuteKeyspaceIds, he, hp]
      (repeat' split) <;> first | rfl | contradiction
  · have hclear : ∀ (q : proto.SplitQueryRequest) (r : proto.SplitQueryResult),
        f.SplitQuery ctx q r = f.SplitQuery ctx { q with CallerID := none } r := by
      intro q r
      simp only [fakeVTGateService.SplitQuery, he, hp]
      rfl
    refine ⟨fun q1 q2 r h => ?_, fun q r => ?_⟩
    · rw [hclear q1, hclear q2, h]
    · simp only [fakeVTGateService.SplitQuery, he, hp]
      (repeat' split) <;> first | rfl | contradiction
  · have hclear : ∀ (q : proto.Query) (r : SendReply),
        (f.StreamExecute ctx q r).out = (f.StreamExecute ctx { q with CallerID := none } r).out ∧
        (f.StreamExecute ctx q r).sent =
          (f.StreamExecute ctx { q with CallerID := none } r).sent ∧
        (f.StreamExecute ctx q r).f = (f.StreamExecute ctx { q with CallerID := none } r).f := by
      intro q r
      cases hm : execMap q.Sql with
      | none => simp [fakeVTGateService.StreamExecute, hp, hm]
      | some c =>
        have hwhole : f.StreamExecute ctx q r =
            f.StreamExecute ctx { q with CallerID := none } r := by
          simp only [fakeVTGateService.StreamExecute, hp, hm]
          rfl
        rw [← hwhole]
        exact ⟨rfl, rfl, rfl⟩
    refine ⟨fun q1 q2 r h => ?_, fun q r c hm => ?_, fun q r hm => ?_⟩
    · obtain ⟨a1, a2, a3⟩ := hclear q1 r
      obtain ⟨b1, b2, b3⟩ := hclear q2 r
      rw [a1, a2, a3, b1, b2, b3, h]
      exact ⟨rfl, rfl, rfl⟩
    · simp only [fakeVTGateService.StreamExecute, hp, hm]
      (repeat' split) <;> first | rfl | contradiction
    · simp [fakeVTGateService.StreamExecute, hp, hm]

/-- C20, the code at the failing input: in normal mode `StreamExecute` given the
unregistered request "none" carrying `testCallerID` returns
"no match for: none" and leaves the request's `CallerID` set, where
`StreamExecuteShard` (and every other handler with a request body) given such a
request leaves `CallerID` cleared. -/
theorem stream_execute_keeps_identity_on_no_match :
    normalMode (CreateFakeServer []) ∧
    ((CreateFakeServer []).StreamExecute newContext
      { Sql := "none", CallerID := some testCallerID } sendOk).out =
      Outcome.ret (some "no match for: none") ∧
    ((CreateFakeServer []).StreamExecute newContext
      { Sql := "none", CallerID := some testCallerID } sendOk).query.CallerID =
      some testCallerID ∧
    ((CreateFakeServer []).StreamExecuteShard newContext
      { Sql := "none", CallerID := some testCallerID } sendOk).out =
      Outcome.ret (some "no match for: none") ∧
    ((CreateFakeServer []).StreamExecuteShard newContext
      { Sql := "none", CallerID := some testCallerID } sendOk).query.CallerID = none ∧
    ((CreateFakeServer []).Execute newContext
      { Sql := "none", CallerID := some testCallerID } {}).query.CallerID = none :=
  ⟨by decide, by decide, by decide, by decide, by decide, by decide⟩

/-! ## Batch replies -/

/-- C21: in normal mode, for a batch request that equals (once its `CallerID` is
cleared) the expected batch of the fixture found under its first sub-query's
SQL, `ExecuteBatchShard` and `ExecuteBatchKeyspaceIds` return no error and set
the reply's error string and session to the fixture's; the reply list is set to
the one-element list holding the fixture's result when the fixture's error
string is empty and its result is present, and is otherwise as it was passed
in. -/
theorem batch_reply_passes_through (f : fakeVTGateService) (ctx : Context) (c : ExecCase)
    (reply : proto.QueryResultList) (hmode : normalMode f) :
    (∀ (b : proto.BatchQueryShard) (q0 : proto.BoundShardQuery)
        (rest : List proto.BoundShardQuery),
      b.Queries.toList = q0 :: rest → execMap q0.Sql = some c →
      { b with CallerID := none } = c.batchQueryShard →
      (f.ExecuteBatchShard ctx b reply).out = Outcome.ret none ∧
      (f.ExecuteBatchShard ctx b reply).reply.Error = c.reply.Error ∧
      (f.ExecuteBatchShard ctx b reply).reply.Session = c.reply.Session ∧
      (∀ result, c.reply.Error = "" → c.reply.Result = some result →
        (f.ExecuteBatchShard ctx b reply).reply.List = Slice.of [result]) ∧
      (c.reply.Error ≠ "" ∨ c.reply.Result = none →
        (f.ExecuteBatchShard ctx b reply).reply.List = reply.List)) ∧
    (∀ (b : proto.KeyspaceIdBatchQuery) (q0 : proto.BoundKeyspaceIdQuery)
        (rest : List proto.BoundKeyspaceIdQuery),
      b.Queries.toList = q0 :: rest → execMap q0.Sql = some c →
      { b with CallerID := none } = c.keyspaceIdBatchQuery →
      (f.ExecuteBatchKeyspaceIds ctx b reply).out = Outcome.ret none ∧
      (f.ExecuteBatchKeyspaceIds ctx b reply).reply.Error = c.reply.Error ∧
      (f.ExecuteBatchKeyspaceIds ctx b reply).reply.Session = c.reply.Session ∧
      (∀ result, c.reply.Error = "" → c.reply.Result = some result →
        (f.ExecuteBatchKeyspaceIds ctx b reply).reply.List = Slice.of [result]) ∧
      (c.reply.Error ≠ "" ∨ c.reply.Result = none →
        (f.ExecuteBatchKeyspaceIds ctx b reply).reply.List = reply.List)) := by
  constructor
  · intro b q0 rest hb hm hq
    rw [ExecuteBatchShard_matching f ctx b reply c q0 rest hmode hb hm hq]
    refine ⟨rfl, rfl, rfl, ?_, ?_⟩
    · intro result herr hres
      simp [hres, herr]
    · rintro (herr | hres)
      · cases hres : c.reply.Result <;> simp [herr]
      · simp [hres]
  · intro b q0 rest hb hm hq
    rw [ExecuteBatchKeyspaceIds_matching f ctx b reply c q0 rest hmode hb hm hq]
    refine ⟨rfl, rfl, rfl, ?_, ?_⟩
    · intro result herr hres
      simp [hres, herr]
    · rintro (herr | hres)
      · cases hres : c.reply.Result <;> simp [herr]
      · simp [hres]

/-- Witness of C21 at fixture "request1": `ExecuteBatchShard` sets the list to
`[result1]`. -/
theorem batch_reply_passes_through_witness :
    normalMode (CreateFakeServer []) ∧
    execMap "request1" = some execCase_request1 ∧
    ((CreateFakeServer []).ExecuteBatchShard newContext execCase_request1.batchQueryShard
      {}).reply.List = Slice.of [result1] :=
  ⟨by decide, by decide,
   ((batch_reply_passes_through (CreateFakeServer []) newContext execCase_request1 {}
      (by decide)).1 execCase_request1.batchQueryShard _ _ rfl (by decide) rfl).2.2.2.1
      result1 rfl rfl⟩

/-! ## The registry -/

/-- C22: fixtures are keyed by SQL text. The registry has exactly the four keys
"request1", "errorRequst", "txRequest" and "txRequestNIT"; for every key `k` the
SQL text of each of the fixture's five single-query requests equals `k`, and
each of its two batch requests has a single sub-query, whose SQL text is `k`;
hence the SQL text of each expected request (the first sub-query's for a batch)
is looked up to that same fixture. -/
theorem fixtures_keyed_by_sql :
    (∀ k : String, (execMap k).isSome = true ↔
      k = "request1" ∨ k = "errorRequst" ∨ k = "txRequest" ∨ k = "txRequestNIT") ∧
    (∀ (k : String) (c : ExecCase), execMap k = some c →
      c.execQuery.Sql = k ∧ c.shardQuery.Sql = k ∧ c.keyspaceIdQuery.Sql = k ∧
      c.keyRangeQuery.Sql = k ∧ c.entityIdsQuery.Sql = k ∧
      (∃ q, c.batchQueryShard.Queries = Slice.of [q] ∧ q.Sql = k) ∧
      (∃ q, c.keyspaceIdBatchQuery.Queries = Slice.of [q] ∧ q.Sql = k)) ∧
    (∀ (k : String) (c : ExecCase), execMap k = some c →
      execMap c.execQuery.Sql = some c ∧ execMap c.shardQuery.Sql = some c ∧
      execMap c.keyspaceIdQuery.Sql = some c ∧ execMap c.keyRangeQuery.Sql = some c ∧
      execMap c.entityIdsQuery.Sql = some c ∧
      (∀ q rest, c.batchQueryShard.Queries.toList = q :: rest → execMap q.Sql = some c) ∧
      (∀ q rest, c.keyspaceIdBatchQuery.Queries.toList = q :: rest → execMap q.Sql = some c)) := by
  refine ⟨?_, ?_, ?_⟩
  · intro k
    constructor
    · intro h
      cases hc : execMap k with
      | none => rw [hc] at h; cases h
      | some c =>
        rcases execMap_cases hc with ⟨h1, _⟩ | ⟨h1, _⟩ | ⟨h1, _⟩ | ⟨h1, _⟩
        · exact Or.inl h1
        · exact Or.inr (Or.inl h1)
        · exact Or.inr (Or.inr (Or.inl h1))
        · exact Or.inr (Or.inr (Or.inr h1))
    · rintro (rfl | rfl | rfl | rfl) <;> decide
  · intro k c hc
    rcases execMap_cases hc with ⟨rfl, rfl⟩ | ⟨rfl, rfl⟩ | ⟨rfl, rfl⟩ | ⟨rfl, rfl⟩
    · exact ⟨rfl, rfl, rfl, rfl, rfl, ⟨_, rfl, rfl⟩, ⟨_, rfl, rfl⟩⟩
    · exact ⟨rfl, rfl, rfl, rfl, rfl, ⟨_, rfl, rfl⟩, ⟨_, rfl, rfl⟩⟩
    · exact ⟨rfl, rfl, rfl, rfl, rfl, ⟨_, rfl, rfl⟩, ⟨_, rfl, rfl⟩⟩
    · exact ⟨rfl, rfl, rfl, rfl, rfl, ⟨_, rfl, rfl⟩, ⟨_, rfl, rfl⟩⟩
  · intro k c hc
    obtain ⟨h1, h2, h3, h4, h5⟩ := execMap_sql hc
    refine ⟨h1, h2, h3, h4, h5, ?_, ?_⟩
    · intro q rest hq
      rcases execMap_cases hc with ⟨_, rfl⟩ | ⟨_, rfl⟩ | ⟨_, rfl⟩ | ⟨_, rfl⟩ <;>
        (injection hq with hq1 _; subst hq1; decide)
    · intro q rest hq
      rcases execMap_cases hc with ⟨_, rfl⟩ | ⟨_, rfl⟩ | ⟨_, rfl⟩ | ⟨_, rfl⟩ <;>
        (injection hq with hq1 _; subst hq1; decide)

/-- Witness of C22 at the key "txRequestNIT": the key-range request of the
fixture has that SQL text. -/
theorem fixtures_keyed_by_sql_witness :
    execMap "txRequestNIT" = some execCase_txRequestNIT ∧
    execCase_txRequestNIT.keyRangeQuery.Sql = "txRequestNIT" :=
  ⟨by decide,
   (fixtures_keyed_by_sql.2.1 "txRequestNIT" execCase_txRequestNIT
      (by decide)).2.2.2.1⟩

/-! ## The unguarded first sub-query -/

/-- C28: the batch handlers read `Queries[0]` without a guard. In normal mode a
batch request whose query list is empty (`nil` or of length 0) makes
`ExecuteBatchShard` and
`ExecuteBatchKeyspaceIds` panic with the index-out-of-range run-time error
instead of returning an error, and for every request with a non-empty query
list the handler returns (with or without an error) and does not panic. -/
theorem batch_first_query_unguarded (f : fakeVTGateService) (ctx : Context)
    (reply : proto.QueryResultList) (hmode : normalMode f) :
    (∀ b : proto.BatchQueryShard, b.Queries.toList = [] →
      (f.ExecuteBatchShard ctx b reply).out = Outcome.panic "runtime error: index out of range") ∧
    (∀ b : proto.BatchQueryShard, b.Queries.toList ≠ [] →
      ∃ err, (f.ExecuteBatchShard ctx b reply).out = Outcome.ret err) ∧
    (∀ b : proto.KeyspaceIdBatchQuery, b.Queries.toList = [] →
      (f.ExecuteBatchKeyspaceIds ctx b reply).out =
        Outcome.panic "runtime error: index out of range") ∧
    (∀ b : proto.KeyspaceIdBatchQuery, b.Queries.toList ≠ [] →
      ∃ err, (f.ExecuteBatchKeyspaceIds ctx b reply).out = Outcome.ret err) := by
  obtain ⟨he, hp⟩ := hmode
  refine ⟨?_, ?_, ?_, ?_⟩
  · intro b hb
    simp [fakeVTGateService.ExecuteBatchShard, he, hp, hb, indexOutOfRange]
  · intro b hb
    cases hq : b.Queries.toList with
    | nil => exact absurd hq hb
    | cons q0 rest =>
      cases hm : execMap q0.Sql with
      | none =>
        exact ⟨some ("no match for: " ++ q0.Sql),
          by simp [fakeVTGateService.ExecuteBatchShard, he, hp, hq, hm]⟩
      | some c =>
        by_cases hc : ({ b with CallerID := none } : proto.BatchQueryShard) = c.batchQueryShard
        · have hc' := hc
          exact ⟨none, by simp [fakeVTGateService.ExecuteBatchShard, he, hp, hq, hm, hc']⟩
        · have hc' := hc
          exact ⟨none, by simp [fakeVTGateService.ExecuteBatchShard, he, hp, hq, hm, hc']⟩
  · intro b hb
    simp [fakeVTGateService.ExecuteBatchKeyspaceIds, he, hp, hb, indexOutOfRange]
  · intro b hb
    cases hq : b.Queries.toList with
    | nil => exact absurd hq hb
    | cons q0 rest =>
      cases hm : execMap q0.Sql with
      | none =>
        exact ⟨some ("no match for: " ++ q0.Sql),
          by simp [fakeVTGateService.ExecuteBatchKeyspaceIds, he, hp, hq, hm]⟩
      | some c =>
        by_cases hc : ({ b with CallerID := none } : proto.KeyspaceIdBatchQuery) =
            c.keyspaceIdBatchQuery
        · have hc' := hc
          exact ⟨none,
            by simp [fakeVTGateService.ExecuteBatchKeyspaceIds, he, hp, hq, hm, hc']⟩
        · have hc' := hc
          exact ⟨none,
            by simp [fakeVTGateService.ExecuteBatchKeyspaceIds, he, hp, hq, hm, hc']⟩

/-- Witness of C28 on the server made by `CreateFakeServer`: the empty batch
makes `ExecuteBatchKeyspaceIds` panic. -/
theorem batch_first_query_unguarded_witness :
    normalMode (CreateFakeServer []) ∧
    ((CreateFakeServer []).ExecuteBatchKeyspaceIds newContext {} {}).out =
      Outcome.panic "runtime error: index out of range" :=
  ⟨by decide,
   (batch_first_query_unguarded (CreateFakeServer []) newContext {} (by decide)).2.2.1 {} rfl⟩

/-! ## Request mismatch -/

/-- The identity check never removes a recorded failure. -/
theorem checkCallerID_t_length (f : fakeVTGateService) (ctx : Context) (name : String) :
    f.t.length ≤ (f.checkCallerID ctx name).t.length := by
  simp only [fakeVTGateService.checkCallerID, fakeVTGateService.Errorf]
  split_ifs <;> (try split) <;> (try split_ifs) <;> simp

/-- C29: request mismatch is silent towards the caller. In normal mode, when the
SQL text (of the first sub-query for a batch) is registered but the request
with its `CallerID` cleared is not equal to the fixture's expected request of
the variant, each of the seven non-streaming query handlers records a test
failure (after the identity check, the request-mismatch failure), returns no
error and leaves the reply as it was passed in, and each of the four streaming
handlers records a test failure, returns no error and hands no message to
`sendReply`. `StreamExecuteShard` records its failure under the name
"Execute". -/
theorem request_mismatch_is_silent (f : fakeVTGateService) (ctx : Context)
    (hmode : normalMode f) :
    (∀ (q : proto.Query) (reply : proto.QueryResult) (c : ExecCase),
      execMap q.Sql = some c → { q with CallerID := none } ≠ c.execQuery →
      (f.Execute ctx q reply).f.t =
        (f.checkCallerID ctx "Execute").t ++ [TestFailure.wrongRequest "Execute"] ∧
      f.t.length < (f.Execute ctx q reply).f.t.length ∧
      (f.Execute ctx q reply).out = Outcome.ret none ∧
      (f.Execute ctx q reply).reply = reply) ∧
    (∀ (q : proto.QueryShard) (reply : proto.QueryResult) (c : ExecCase),
      execMap q.Sql = some c → { q with CallerID := none } ≠ c.shardQuery →
      (f.ExecuteShard ctx q reply).f.t =
        (f.checkCallerID ctx "ExecuteShard").t ++ [TestFailure.wrongRequest "ExecuteShard"] ∧
      f.t.length < (f.ExecuteShard ctx q reply).f.t.length ∧
      (f.ExecuteShard ctx q reply).out = Outcome.ret none ∧
      (f.ExecuteShard ctx q reply).reply = reply) ∧
    (∀ (q : proto.KeyspaceIdQuery) (reply : proto.QueryResult) (c : ExecCase),
      execMap q.Sql = some c → { q with CallerID := none } ≠ c.keyspaceIdQuery →
      (f.ExecuteKeyspaceIds ctx q reply).f.t =
        (f.checkCallerID ctx "ExecuteKeyspaceIds").t ++ [TestFailure.wrongRequest "ExecuteKeyspaceIds"] ∧
      f.t.length < (f.ExecuteKeyspaceIds ctx q reply).f.t.length ∧
      (f.ExecuteKeyspaceIds ctx q reply).out = Outcome.ret none ∧
      (f.ExecuteKeyspaceIds ctx q reply).reply = reply) ∧
    (∀ (q : proto.KeyRangeQuery) (reply : proto.QueryResult) (c : ExecCase),
      execMap q.Sql = some c → { q with CallerID := none } ≠ c.keyRangeQuery →
      (f.ExecuteKeyRanges ctx q reply).f.t =
        (f.checkCallerID ctx "ExecuteKeyRanges").t ++ [TestFailure.wrongRequest "ExecuteKeyRanges"] ∧
      f.t.length < (f.ExecuteKeyRanges ctx q reply).f.t.length ∧
      (f.ExecuteKeyRanges ctx q reply).out = Outcome.ret none ∧
      (f.ExecuteKeyRanges ctx q reply).reply = reply) ∧
    (∀ (q : proto.EntityIdsQuery) (reply : proto.QueryResult) (c : ExecCase),
      execMap q.Sql = some c → { q with CallerID := none } ≠ c.entityIdsQuery →
      (f.ExecuteEntityIds ctx q reply).f.t =
        (f.checkCallerID ctx "ExecuteEntityIds").t ++ [TestFailure.wrongRequest "ExecuteEntityIds"] ∧
      f.t.length < (f.ExecuteEntityIds ctx q reply).f.t.length ∧
      (f.ExecuteEntityIds ctx q reply).out = Outcome.ret none ∧
      (f.ExecuteEntityIds ctx q reply).reply = reply) ∧
    (∀ (b : proto.BatchQueryShard) (reply : proto.QueryResultList) (c : ExecCase)
        (q0 : proto.BoundShardQuery) (rest : List proto.BoundShardQuery),
      b.Queries.toList = q0 :: rest → execMap q0.Sql = some c →
      { b with CallerID := none } ≠ c.batchQueryShard →
      (f.ExecuteBatchShard ctx b reply).f.t =
        (f.checkCallerID ctx "ExecuteBatchShard").t ++ [TestFailure.wrongRequest "ExecuteBatchShard"] ∧
      f.t.length < (f.ExecuteBatchShard ctx b reply).f.t.length ∧
      (f.ExecuteBatchShard ctx b reply).out = Outcome.ret none ∧
      (f.ExecuteBatchShard ctx b reply).reply = reply) ∧
    (∀ (b : proto.KeyspaceIdBatchQuery) (reply : proto.QueryResultList) (c : ExecCase)
        (q0 : proto.BoundKeyspaceIdQuery) (rest : List proto.BoundKeyspaceIdQuery),
      b.Queries.toList = q0 :: rest → execMap q0.Sql = some c →
      { b with CallerID := none } ≠ c.keyspaceIdBatchQuery →
      (f.ExecuteBatchKeyspaceIds ctx b reply).f.t =
        (f.checkCallerID ctx "ExecuteBatchKeyspaceIds").t ++ [TestFailure.wrongRequest "ExecuteBatchKeyspaceIds"] ∧
      f.t.length < (f.ExecuteBatchKeyspaceIds ctx b reply).f.t.length ∧
      (f.ExecuteBatchKeyspaceIds ctx b reply).out = Outcome.ret none ∧
      (f.ExecuteBatchKeyspaceIds ctx b reply).reply = reply) ∧
    (∀ (q : proto.Query) (sendReply : SendReply) (c : ExecCase),
      execMap q.Sql = some c → { q with CallerID := none } ≠ c.execQuery →
      (f.StreamExecute ctx q sendReply).f.t =
        (f.checkCallerID ctx "StreamExecute").t ++ [TestFailure.wrongRequest "StreamExecute"] ∧
      f.t.length < (f.StreamExecute ctx q sendReply).f.t.length ∧
      (f.StreamExecute ctx q sendReply).out = Outcome.ret none ∧
      (f.StreamExecute ctx q sendReply).sent = []) ∧
    (∀ (q : proto.QueryShard) (sendReply : SendReply) (c : ExecCase),
      execMap q.Sql = some c → { q with CallerID := none } ≠ c.shardQuery →
      (f.StreamExecuteShard ctx q sendReply).f.t =
        (f.checkCallerID ctx "StreamExecuteShard").t ++ [TestFailure.wrongRequest "Execute"] ∧
      f.t.length < (f.StreamExecuteShard ctx q sendReply).f.t.length ∧
      (f.StreamExecuteShard ctx q sendReply).out = Outcome.ret none ∧
      (f.StreamExecuteShard ctx q sendReply).sent = []) ∧
    (∀ (q : proto.KeyRangeQuery) (sendReply : SendReply) (c : ExecCase),
      execMap q.Sql = some c → { q with CallerID := none } ≠ c.keyRangeQuery →
      (f.StreamExecuteKeyRanges ctx q sendReply).f.t =
        (f.checkCallerID ctx "StreamExecuteKeyRanges").t ++ [TestFailure.wrongRequest "StreamExecuteKeyRanges"] ∧
      f.t.length < (f.StreamExecuteKeyRanges ctx q sendReply).f.t.length ∧
      (f.StreamExecuteKeyRanges ctx q sendReply).out = Outcome.ret none ∧
      (f.StreamExecuteKeyRanges ctx q sendReply).sent = []) ∧
    (∀ (q : proto.KeyspaceIdQuery) (sendReply : SendReply) (c : ExecCase),
      execMap q.Sql = some c → { q with CallerID := none } ≠ c.keyspaceIdQuery →
      (f.StreamExecuteKeyspaceIds ctx q sendReply).f.t =
        (f.checkCallerID ctx "StreamExecuteKeyspaceIds").t ++ [TestFailure.wrongRequest "StreamExecuteKeyspaceIds"] ∧
      f.t.length < (f.StreamExecuteKeyspaceIds ctx q sendReply).f.t.length ∧
      (f.StreamExecuteKeyspaceIds ctx q sendReply).out = Outcome.ret none ∧
      (f.StreamExecuteKeyspaceIds ctx q sendReply).sent = []) := by
  obtain ⟨he, hp⟩ := hmode
  have hlen : ∀ (name : String) (e : TestFailure),
      f.t.length < ((f.checkCallerID ctx name).Errorf e).t.length := by
    intro name e
    have h := checkCallerID_t_length f ctx name
    simp only [fakeVTGateService.Errorf, List.length_append, List.length_singleton]
    omega
  refine ⟨?_, ?_, ?_, ?_, ?_, ?_, ?_, ?_, ?_, ?_, ?_⟩
  · intro q reply c hm hq
    have key : f.Execute ctx q reply =
        ⟨(f.checkCallerID ctx "Execute").Errorf (TestFailure.wrongRequest "Execute"),
          { q with CallerID := none }, reply, Outcome.ret none⟩ := by
      simp [fakeVTGateService.Execute, he, hp, hm, hq]
    rw [key]
    exact ⟨rfl, hlen _ _, rfl, rfl⟩
  · intro q reply c hm hq
    have key : f.ExecuteShard ctx q reply =
        ⟨(f.checkCallerID ctx "ExecuteShard").Errorf (TestFailure.wrongRequest "ExecuteShard"),
          { q with CallerID := none }, reply, Outcome.ret none⟩ := by
      simp [fakeVTGateService.ExecuteShard, he, hp, hm, hq]
    rw [key]
    exact ⟨rfl, hlen _ _, rfl, rfl⟩
  · intro q reply c hm hq
    have key : f.ExecuteKeyspaceIds ctx q reply =
        ⟨(f.checkCallerID ctx "ExecuteKeyspaceIds").Errorf (TestFailure.wrongRequest "ExecuteKeyspaceIds"),
          { q with CallerID := none }, reply, Outcome.ret none⟩ := by
      simp [fakeVTGateService.ExecuteKeyspaceIds, he, hp, hm, hq]
    rw [key]
    exact ⟨rfl, hlen _ _, rfl, rfl⟩
  · intro q reply c hm hq
    have key : f.ExecuteKeyRanges ctx q reply =
        ⟨(f.checkCallerID ctx "ExecuteKeyRanges").Errorf (TestFailure.wrongRequest "ExecuteKeyRanges"),
          { q with CallerID := none }, reply, Outcome.ret none⟩ := by
      simp [fakeVTGateService.ExecuteKeyRanges, he, hp, hm, hq]
    rw [key]
    exact ⟨rfl, hlen _ _, rfl, rfl⟩
  · intro q reply c hm hq
    have key : f.ExecuteEntityIds ctx q reply =
        ⟨(f.checkCallerID ctx "ExecuteEntityIds").Errorf (TestFailure.wrongRequest "ExecuteEntityIds"),
          { q with CallerID := none }, reply, Outcome.ret none⟩ := by
      simp [fakeVTGateService.ExecuteEntityIds, he, hp, hm, hq]
    rw [key]
    exact ⟨rfl, hlen _ _, rfl, rfl⟩
  · intro b reply c q0 rest hb hm hq
    have hq' := hq
    have key : f.ExecuteBatchShard ctx b reply =
        ⟨(f.checkCallerID ctx "ExecuteBatchShard").Errorf (TestFailure.wrongRequest "ExecuteBatchShard"),
          { b with CallerID := none }, reply, Outcome.ret none⟩ := by
      simp [fakeVTGateService.ExecuteBatchShard, he, hp, hb, hm, hq']
    rw [key]
    exact ⟨rfl, hlen _ _, rfl, rfl⟩
  · intro b reply c q0 rest hb hm hq
    have hq' := hq
    have key : f.ExecuteBatchKeyspaceIds ctx b reply =
        ⟨(f.checkCallerID ctx "ExecuteBatchKeyspaceIds").Errorf (TestFailure.wrongRequest "ExecuteBatchKeyspaceIds"),
          { b with CallerID := none }, reply, Outcome.ret none⟩ := by
      simp [fakeVTGateService.ExecuteBatchKeyspaceIds, he, hp, hb, hm, hq']
    rw [key]
    exact ⟨rfl, hlen _ _, rfl, rfl⟩
  · intro q sendReply c hm hq
    have key : f.StreamExecute ctx q sendReply =
        ⟨(f.checkCallerID ctx "StreamExecute").Errorf (TestFailure.wrongRequest "StreamExecute"),
          { q with CallerID := none }, [], Outcome.ret none⟩ := by
      simp [fakeVTGateService.StreamExecute, hp, hm, hq]
    rw [key]
    exact ⟨rfl, hlen _ _, rfl, rfl⟩
  · intro q sendReply c hm hq
    have key : f.StreamExecuteShard ctx q sendReply =
        ⟨(f.checkCallerID ctx "StreamExecuteShard").Errorf (TestFailure.wrongRequest "Execute"),
          { q with CallerID := none }, [], Outcome.ret none⟩ := by
      simp [fakeVTGateService.StreamExecuteShard, hp, hm, hq]
    rw [key]
    exact ⟨rfl, hlen _ _, rfl, rfl⟩
  · intro q sendReply c hm hq
    have key : f.StreamExecuteKeyRanges ctx q sendReply =
        ⟨(f.checkCallerID ctx "StreamExecuteKeyRanges").Errorf (TestFailure.wrongRequest "StreamExecuteKeyRanges"),
          { q with CallerID := none }, [], Outcome.ret none⟩ := by
      simp [fakeVTGateService.StreamExecuteKeyRanges, hp, hm, hq]
    rw [key]
    exact ⟨rfl, hlen _ _, rfl, rfl⟩
  · intro q sendReply c hm hq
    have key : f.StreamExecuteKeyspaceIds ctx q sendReply =
        ⟨(f.checkCallerID ctx "StreamExecuteKeyspaceIds").Errorf (TestFailure.wrongRequest "StreamExecuteKeyspaceIds"),
          { q with CallerID := none }, [], Outcome.ret none⟩ := by
      simp [fakeVTGateService.StreamExecuteKeyspaceIds, hp, hm, hq]
    rw [key]
    exact ⟨rfl, hlen _ _, rfl, rfl⟩

/-- Witness of C29 on the server made by `CreateFakeServer`, with the suite's
context: `Execute` given the "txRequest" request with a session whose
`ShardSessions` is `nil`, where the fixture's session has the empty slice,
finds the request different, records the request-mismatch failure, returns no
error and leaves the reply untouched. -/
theorem request_mismatch_is_silent_witness :
    normalMode (CreateFakeServer []) ∧
    execMap "txRequest" = some execCase_txRequest ∧
    ({ Sql := "txRequest", BindVariables := GoMap.of [("bind1", Scalar.int64 0)],
       TabletType := TabletType.TYPE_MASTER,
       Session := some { InTransaction := true, ShardSessions := Slice.nil } } : proto.Query) ≠
      execCase_txRequest.execQuery ∧
    ((CreateFakeServer []).Execute newContext
      { Sql := "txRequest", BindVariables := GoMap.of [("bind1", Scalar.int64 0)],
        TabletType := TabletType.TYPE_MASTER,
        Session := some { InTransaction := true, ShardSessions := Slice.nil } } {}).f.t =
      [TestFailure.wrongRequest "Execute"] ∧
    ((CreateFakeServer []).Execute newContext
      { Sql := "txRequest", BindVariables := GoMap.of [("bind1", Scalar.int64 0)],
        TabletType := TabletType.TYPE_MASTER,
        Session := some { InTransaction := true, ShardSessions := Slice.nil } } {}).out =
      Outcome.ret none ∧
    ((CreateFakeServer []).Execute newContext
      { Sql := "txRequest", BindVariables := GoMap.of [("bind1", Scalar.int64 0)],
        TabletType := TabletType.TYPE_MASTER,
        Session := some { InTransaction := true, ShardSessions := Slice.nil } } {}).reply = {} :=
  ⟨by decide, by decide, by decide,
   ((request_mismatch_is_silent (CreateFakeServer []) newContext (by decide)).1
      _ {} execCase_txRequest (by decide) (by decide)).1,
   ((request_mismatch_is_silent (CreateFakeServer []) newContext (by decide)).1
      _ {} execCase_txRequest (by decide) (by decide)).2.2.1,
   ((request_mismatch_is_silent (CreateFakeServer []) newContext (by decide)).1
      _ {} execCase_txRequest (by decide) (by decide)).2.2.2⟩

/-! ## The suite's fault assertion -/

/-- The text `HandlePanic` makes from a panic with text `x` contains
"uncaught panic" and contains `x`. -/
theorem uncaught_panic_contains (x stack : String) :
    stringsContains ("uncaught panic: " ++ x ++ "\n" ++ stack) x ∧
    stringsContains ("uncaught panic: " ++ x ++ "\n" ++ stack) "uncaught panic" := by
  constructor
  · refine ⟨"uncaught panic: ".data, ("\n" ++ stack).data, ?_⟩
    simp [String.data_append]
  · refine ⟨[], (": " ++ x ++ "\n" ++ stack).data, ?_⟩
    have h : "uncaught panic: " = "uncaught panic" ++ ": " := by decide
    rw [h]
    simp [String.data_append]

/-- C24: `expectPanic` accepts an error (calls no `t.Fatalf`) if and only if the
error is present and its text contains both "test forced panic" and
"uncaught panic"; it fails on a `nil` error and when either marker is missing.
The error `HandlePanic` produces from the injected fault of the server (here of
`Execute` in injected-fault mode), whatever the stack fragment, is accepted. -/
theorem expectPanic_accepts (err : error) :
    (expectPanic err = none ↔
      ∃ text, err = some text ∧ stringsContains text "test forced panic" ∧
        stringsContains text "uncaught panic") ∧
    expectPanic none ≠ none ∧
    (∀ text, ¬ stringsContains text "test forced panic" → expectPanic (some text) ≠ none) ∧
    (∀ text, ¬ stringsContains text "uncaught panic" → expectPanic (some text) ≠ none) ∧
    (∀ (f : fakeVTGateService) (stack : String) (slot : error),
      expectPanic (f.HandlePanic (recover (Outcome.panic "test forced panic")) stack slot) =
        none) ∧
    (∀ (f : fakeVTGateService) (ctx : Context) (q : proto.Query) (reply : proto.QueryResult)
        (stack : String) (slot : error), injectedFaultMode f →
      expectPanic (f.HandlePanic (recover (f.Execute ctx q reply).out) stack slot) = none) := by
  have hacc : ∀ (f : fakeVTGateService) (stack : String) (slot : error),
      expectPanic (f.HandlePanic (recover (Outcome.panic "test forced panic")) stack slot) =
        none := by
    intro f stack slot
    obtain ⟨h1, h2⟩ := uncaught_panic_contains "test forced panic" stack
    simp only [fakeVTGateService.HandlePanic, recover, expectPanic]
    rw [if_neg]
    exact fun h => h.elim (fun h' => h' h1) (fun h' => h' h2)
  refine ⟨?_, ?_, ?_, ?_, hacc, ?_⟩
  · cases err with
    | none => simp [expectPanic]
    | some text =>
      simp only [expectPanic]
      constructor
      · intro h
        split_ifs at h with hc
        exact ⟨text, rfl, by tauto, by tauto⟩
      · rintro ⟨text', ht, h1, h2⟩
        cases ht
        rw [if_neg]
        exact fun h => h.elim (fun h' => h' h1) (fun h' => h' h2)
  · simp [expectPanic]
  · intro text h
    simp [expectPanic, h]
  · intro text h
    simp [expectPanic, h]
  · intro f ctx q reply stack slot hmode
    obtain ⟨hp, he⟩ := hmode
    have hout : (f.Execute ctx q reply).out = Outcome.panic "test forced panic" := by
      simp [fakeVTGateService.Execute, he, hp]
    rw [hout]
    exact hacc f stack slot

/-- Witness of C24 on the suite's server with `panics` set: the error made from
the panic of `Execute`, with the stack fragment "stack", is accepted, and the
sentinel of declared-error mode is not. -/
theorem expectPanic_accepts_witness :
    injectedFaultMode (serverWith false true) ∧
    expectPanic ((serverWith false true).HandlePanic
      (recover ((serverWith false true).Execute newContext execCase_request1.execQuery
        {}).out) "stack" none) = none ∧
    expectPanic (some "test vtgate error") ≠ none :=
  ⟨by decide,
   (expectPanic_accepts none).2.2.2.2.2 (serverWith false true) newContext
      execCase_request1.execQuery {} "stack" none (by decide),
   (expectPanic_accepts none).2.2.1 "test vtgate error" (by decide)⟩

/-! ## Send failures -/

theorem singleton_eq_append_cons {α : Type} {a m : α} {pre post : List α}
    (h : [a] = pre ++ m :: post) : pre = [] ∧ m = a ∧ post = [] := by
  cases pre with
  | nil =>
    simp at h
    exact ⟨rfl, h.1.symm, h.2⟩
  | cons x xs => simp at h

/-- The row loop only adds to the messages handed over. -/
theorem sendRows_extends (sendReply : SendReply) (rows : List (Slice Value))
    (sent : List proto.QueryResult) :
    ∃ ext, (sendRows sendReply sent rows).1 = sent ++ ext := by
  induction rows generalizing sent with
  | nil => exact ⟨[], by simp [sendRows]⟩
  | cons row rows ih =>
    simp only [sendRows]
    cases hs : sendReply sent { Result := some { Rows := Slice.of [row] } } with
    | some e => exact ⟨[{ Result := some { Rows := Slice.of [row] } }], rfl⟩
    | none =>
      obtain ⟨ext, hext⟩ := ih (sent ++ [{ Result := some { Rows := Slice.of [row] } }])
      exact ⟨{ Result := some { Rows := Slice.of [row] } } :: ext, by simp [hext]⟩

/-- If `sendReply` returned an error on a message the row loop handed to it, that
message is the last one handed over and the loop ends with that error. -/
theorem sendRows_failure (sendReply : SendReply) (rows : List (Slice Value))
    (sent pre post : List proto.QueryResult) (m : proto.QueryResult) (err : String)
    (hsent : (sendRows sendReply sent rows).1 = pre ++ m :: post)
    (hlen : sent.length ≤ pre.length) (herr : sendReply pre m = some err) :
    post = [] ∧ (sendRows sendReply sent rows).2 = some err := by
  induction rows generalizing sent with
  | nil =>
    simp only [sendRows] at hsent
    have := congrArg List.length hsent
    simp at this
    omega
  | cons row rows ih =>
    simp only [sendRows] at hsent ⊢
    cases hs : sendReply sent { Result := some { Rows := Slice.of [row] } } with
    | some e =>
      simp only [hs] at hsent ⊢
      have hl := congrArg List.length hsent
      simp at hl
      have hpl : pre.length = sent.length := by omega
      have hpost : post = [] := List.eq_nil_of_length_eq_zero (by omega)
      subst hpost
      obtain ⟨h1, h2⟩ := List.append_inj hsent hpl.symm
      subst h1
      simp at h2
      subst h2
      rw [hs] at herr
      exact ⟨rfl, herr⟩
    | none =>
      simp only [hs] at hsent ⊢
      by_cases hpl : pre.length = sent.length
      · obtain ⟨ext, hext⟩ := sendRows_extends sendReply rows
          (sent ++ [{ Result := some { Rows := Slice.of [row] } }])
        rw [hext, List.append_assoc] at hsent
        obtain ⟨h1, h2⟩ := List.append_inj hsent hpl.symm
        subst h1
        simp at h2
        rw [← h2.1, hs] at herr
        cases herr
      · exact ih (sent ++ [{ Result := some { Rows := Slice.of [row] } }]) hsent
          (by simp; omega)

/-- The same after a first message that `sendReply` accepted. -/
theorem sendRows_after_first (sendReply : SendReply) (msg0 : proto.QueryResult)
    (rows : List (Slice Value)) (pre post : List proto.QueryResult) (m : proto.QueryResult)
    (err : String) (h0 : sendReply [] msg0 = none)
    (hsent : (sendRows sendReply [msg0] rows).1 = pre ++ m :: post)
    (herr : sendReply pre m = some err) :
    post = [] ∧ (sendRows sendReply [msg0] rows).2 = some err := by
  cases pre with
  | nil =>
    obtain ⟨ext, hext⟩ := sendRows_extends sendReply rows [msg0]
    rw [hext] at hsent
    simp at hsent
    rw [← hsent.1, h0] at herr
    cases herr
  | cons x xs =>
    exact sendRows_failure sendReply rows [msg0] (x :: xs) post m err hsent (by simp) herr

/-- C30: a send failure stops the stream. For every streaming handler, every
server state, request and callback: if the callback returned the error `err` on
a message `m` the handler handed to it, after the messages `pre` (so `m` is the
`k`-th message, `k = pre.length + 1`), then nothing was handed over after `m`
(the callback was invoked exactly `k` times), the handler returns that same
error, and the server's gate is as before (the branch returning the sentinel
was not run); the error returned is no other than `err`, so it is the sentinel
or the fixture's error string only if the callback's own error has that
text. -/
theorem send_failure_stops_stream (f : fakeVTGateService) (ctx : Context) :
    (∀ (q : proto.Query) (sendReply : SendReply) (pre post : List proto.QueryResult)
        (m : proto.QueryResult) (err : String),
      (f.StreamExecute ctx q sendReply).sent = pre ++ m :: post → sendReply pre m = some err →
      post = [] ∧
      (f.StreamExecute ctx q sendReply).out = Outcome.ret (some err) ∧
      (f.StreamExecute ctx q sendReply).sent.length = pre.length + 1 ∧
      (f.StreamExecute ctx q sendReply).f.errorWait = f.errorWait ∧
      (∀ e : String, e ≠ err → (f.StreamExecute ctx q sendReply).out ≠ Outcome.ret (some e))) ∧
    (∀ (q : proto.QueryShard) (sendReply : SendReply) (pre post : List proto.QueryResult)
        (m : proto.QueryResult) (err : String),
      (f.StreamExecuteShard ctx q sendReply).sent = pre ++ m :: post → sendReply pre m = some err →
      post = [] ∧
      (f.StreamExecuteShard ctx q sendReply).out = Outcome.ret (some err) ∧
      (f.StreamExecuteShard ctx q sendReply).sent.length = pre.length + 1 ∧
      (f.StreamExecuteShard ctx q sendReply).f.errorWait = f.errorWait ∧
      (∀ e : String, e ≠ err → (f.StreamExecuteShard ctx q sendReply).out ≠ Outcome.ret (some e))) ∧
    (∀ (q : proto.KeyRangeQuery) (sendReply : SendReply) (pre post : List proto.QueryResult)
        (m : proto.QueryResult) (err : String),
      (f.StreamExecuteKeyRanges ctx q sendReply).sent = pre ++ m :: post → sendReply pre m = some err →
      post = [] ∧
      (f.StreamExecuteKeyRanges ctx q sendReply).out = Outcome.ret (some err) ∧
      (f.StreamExecuteKeyRanges ctx q sendReply).sent.length = pre.length + 1 ∧
      (f.StreamExecuteKeyRanges ctx q sendReply).f.errorWait = f.errorWait ∧
      (∀ e : String, e ≠ err → (f.StreamExecuteKeyRanges ctx q sendReply).out ≠ Outcome.ret (some e))) ∧
    (∀ (q : proto.KeyspaceIdQuery) (sendReply : SendReply) (pre post : List proto.QueryResult)
        (m : proto.QueryResult) (err : String),
      (f.StreamExecuteKeyspaceIds ctx q sendReply).sent = pre ++ m :: post → sendReply pre m = some err →
      post = [] ∧
      (f.StreamExecuteKeyspaceIds ctx q sendReply).out = Outcome.ret (some err) ∧
      (f.StreamExecuteKeyspaceIds ctx q sendReply).sent.length = pre.length + 1 ∧
      (f.StreamExecuteKeyspaceIds ctx q sendReply).f.errorWait = f.errorWait ∧
      (∀ e : String, e ≠ err → (f.StreamExecuteKeyspaceIds ctx q sendReply).out ≠ Outcome.ret (some e))) := by
  refine ⟨?_, ?_, ?_, ?_⟩
  · intro q sendReply pre post m err hsent herr
    have core : post = [] ∧ (f.StreamExecute ctx q sendReply).out = Outcome.ret (some err) ∧
        (f.StreamExecute ctx q sendReply).f.errorWait = f.errorWait := by
      cases hpv : f.panics with
      | true => simp [fakeVTGateService.StreamExecute, hpv] at hsent
      | false =>
        cases hm : execMap q.Sql with
        | none => simp [fakeVTGateService.StreamExecute, hpv, hm] at hsent
        | some c =>
          by_cases hq : ({ q with CallerID := none } : proto.Query) = c.execQuery
          · cases hr : c.reply.Result with
            | none => simp [fakeVTGateService.StreamExecute, hpv, hm, hq, hr] at hsent
            | some r =>
              cases hs : sendReply [] { Result := some { Fields := r.Fields } } with
              | some e0 =>
                simp only [fakeVTGateService.StreamExecute, hpv, hm, hq, hr, hs] at hsent ⊢
                simp at hsent ⊢
                obtain ⟨h1, h2, h3⟩ := singleton_eq_append_cons hsent
                subst h1; subst h2
                rw [hs] at herr
                exact ⟨h3, Option.some.inj herr, checkCallerID_errorWait _ _ _⟩
              | none =>
                cases heh : f.hasError with
                | true =>
                  cases hc : f.errorWait.closed <;>
                  · simp [fakeVTGateService.StreamExecute, hpv, hm, hq, hr, hs, checkCallerID_hasError,
                      checkCallerID_errorWait, heh, hc] at hsent
                    obtain ⟨h1, h2, h3⟩ := singleton_eq_append_cons hsent
                    subst h1; subst h2
                    rw [hs] at herr
                    cases herr
                | false =>
                  have key := sendRows_after_first sendReply
                    { Result := some { Fields := r.Fields } } r.Rows.toList pre post m err hs
                  rcases hsr : sendRows sendReply [{ Result := some { Fields := r.Fields } }]
                    r.Rows.toList with ⟨sent', _ | e⟩
                  · simp [fakeVTGateService.StreamExecute, hpv, hm, hq, hr, hs, checkCallerID_hasError, heh, hsr] at hsent
                    rw [hsr] at key
                    have := key hsent herr
                    simp at this
                  · simp [fakeVTGateService.StreamExecute, hpv, hm, hq, hr, hs, checkCallerID_hasError, heh, hsr]
                      at hsent ⊢
                    rw [hsr] at key
                    have := key hsent herr
                    exact ⟨this.1, by simpa using this.2, checkCallerID_errorWait _ _ _⟩
          · simp [fakeVTGateService.StreamExecute, hpv, hm, hq] at hsent
    obtain ⟨hpost, hout, hgate⟩ := core
    refine ⟨hpost, hout, ?_, hgate, ?_⟩
    · rw [hsent, hpost]; simp
    · intro e hne
      rw [hout]
      intro h
      injection h with h
      injection h with h
      exact hne h.symm
  · intro q sendReply pre post m err hsent herr
    have core : post = [] ∧ (f.StreamExecuteShard ctx q sendReply).out = Outcome.ret (some err) ∧
        (f.StreamExecuteShard ctx q sendReply).f.errorWait = f.errorWait := by
      cases hpv : f.panics with
      | true => simp [fakeVTGateService.StreamExecuteShard, hpv] at hsent
      | false =>
        cases hm : execMap q.Sql with
        | none => simp [fakeVTGateService.StreamExecuteShard, hpv, hm] at hsent
        | some c =>
          by_cases hq : ({ q with CallerID := none } : proto.QueryShard) = c.shardQuery
          · cases hr : c.reply.Result with
            | none => simp [fakeVTGateService.StreamExecuteShard, hpv, hm, hq, hr] at hsent
            | some r =>
              cases hs : sendReply [] { Result := some { Fields := r.Fields } } with
              | some e0 =>
                simp only [fakeVTGateService.StreamExecuteShard, hpv, hm, hq, hr, hs] at hsent ⊢
                simp at hsent ⊢
                obtain ⟨h1, h2, h3⟩ := singleton_eq_append_cons hsent
                subst h1; subst h2
                rw [hs] at herr
                exact ⟨h3, Option.some.inj herr, checkCallerID_errorWait _ _ _⟩
              | none =>
                cases heh : f.hasError with
                | true =>
                  cases hc : f.errorWait.closed <;>
                  · simp [fakeVTGateService.StreamExecuteShard, hpv, hm, hq, hr, hs, checkCallerID_hasError,
                      checkCallerID_errorWait, heh, hc] at hsent
                    obtain ⟨h1, h2, h3⟩ := singleton_eq_append_cons hsent
                    subst h1; subst h2
                    rw [hs] at herr
                    cases herr
                | false =>
                  have key := sendRows_after_first sendReply
                    { Result := some { Fields := r.Fields } } r.Rows.toList pre post m err hs
                  rcases hsr : sendRows sendReply [{ Result := some { Fields := r.Fields } }]
                    r.Rows.toList with ⟨sent', _ | e⟩
                  · simp [fakeVTGateService.StreamExecuteShard, hpv, hm, hq, hr, hs, checkCallerID_hasError, heh, hsr] at hsent
                    rw [hsr] at key
                    have := key hsent herr
                    simp at this
                  · simp [fakeVTGateService.StreamExecuteShard, hpv, hm, hq, hr, hs, checkCallerID_hasError, heh, hsr]
                      at hsent ⊢
                    rw [hsr] at key
                    have := key hsent herr
                    exact ⟨this.1, by simpa using this.2, checkCallerID_errorWait _ _ _⟩
          · simp [fakeVTGateService.StreamExecuteShard, hpv, hm, hq] at hsent
    obtain ⟨hpost, hout, hgate⟩ := core
    refine ⟨hpost, hout, ?_, hgate, ?_⟩
    · rw [hsent, hpost]; simp
    · intro e hne
      rw [hout]
      intro h
      injection h with h
      injection h with h
      exact hne h.symm
  · intro q sendReply pre post m err hsent herr
    have core : post = [] ∧ (f.StreamExecuteKeyRanges ctx q sendReply).out = Outcome.ret (some err) ∧
        (f.StreamExecuteKeyRanges ctx q sendReply).f.errorWait = f.errorWait := by
      cases hpv : f.panics with
      | true => simp [fakeVTGateService.StreamExecuteKeyRanges, hpv] at hsent
      | false =>
        cases hm : execMap q.Sql with
        | none => simp [fakeVTGateService.StreamExecuteKeyRanges, hpv, hm] at hsent
        | some c =>
          by_cases hq : ({ q with CallerID := none } : proto.KeyRangeQuery) = c.keyRangeQuery
          · cases hr : c.reply.Result with
            | none => simp [fakeVTGateService.StreamExecuteKeyRanges, hpv, hm, hq, hr] at hsent
            | some r =>
              cases hs : sendReply [] { Result := some { Fields := r.Fields } } with
              | some e0 =>
                simp only [fakeVTGateService.StreamExecuteKeyRanges, hpv, hm, hq, hr, hs] at hsent ⊢
                simp at hsent ⊢
                obtain ⟨h1, h2, h3⟩ := singleton_eq_append_cons hsent
                subst h1; subst h2
                rw [hs] at herr
                exact ⟨h3, Option.some.inj herr, checkCallerID_errorWait _ _ _⟩
              | none =>
                cases heh : f.hasError with
                | true =>
                  cases hc : f.errorWait.closed <;>
                  · simp [fakeVTGateService.StreamExecuteKeyRanges, hpv, hm, hq, hr, hs, checkCallerID_hasError,
                      checkCallerID_errorWait, heh, hc] at hsent
                    obtain ⟨h1, h2, h3⟩ := singleton_eq_append_cons hsent
                    subst h1; subst h2
                    rw [hs] at herr
                    cases herr
                | false =>
                  have key := sendRows_after_first sendReply
                    { Result := some { Fields := r.Fields } } r.Rows.toList pre post m err hs
                  rcases hsr : sendRows sendReply [{ Result := some { Fields := r.Fields } }]
                    r.Rows.toList with ⟨sent', _ | e⟩
                  · simp [fakeVTGateService.StreamExecuteKeyRanges, hpv, hm, hq, hr, hs, checkCallerID_hasError, heh, hsr] at hsent
                    rw [hsr] at key
                    have := key hsent herr
                    simp at this
                  · simp [fakeVTGateService.StreamExecuteKeyRanges, hpv, hm, hq, hr, hs, checkCallerID_hasError, heh, hsr]
                      at hsent ⊢
                    rw [hsr] at key
                    have := key hsent herr
                    exact ⟨this.1, by simpa using this.2, checkCallerID_errorWait _ _ _⟩
          · simp [fakeVTGateService.StreamExecuteKeyRanges, hpv, hm, hq] at hsent
    obtain ⟨hpost, hout, hgate⟩ := core
    refine ⟨hpost, hout, ?_, hgate, ?_⟩
    · rw [hsent, hpost]; simp
    · intro e hne
      rw [hout]
      intro h
      injection h with h
      injection h with h
      exact hne h.symm
  · intro q sendReply pre post m err hsent herr
    have core : post = [] ∧ (f.StreamExecuteKeyspaceIds ctx q sendReply).out = Outcome.ret (some err) ∧
        (f.StreamExecuteKeyspaceIds ctx q sendReply).f.errorWait = f.errorWait := by
      cases hpv : f.panics with
      | true => simp [fakeVTGateService.StreamExecuteKeyspaceIds, hpv] at hsent
      | false =>
        cases hm : execMap q.Sql with
        | none => simp [fakeVTGateService.StreamExecuteKeyspaceIds, hpv, hm] at hsent
        | some c =>
          by_cases hq : ({ q with CallerID := none } : proto.KeyspaceIdQuery) = c.keyspaceIdQuery
          · cases hr : c.reply.Result with
            | none => simp [fakeVTGateService.StreamExecuteKeyspaceIds, hpv, hm, hq, hr] at hsent
            | some r =>
              cases hs : sendReply [] { Result := some { Fields := r.Fields } } with
              | some e0 =>
                simp only [fakeVTGateService.StreamExecuteKeyspaceIds, hpv, hm, hq, hr, hs] at hsent ⊢
                simp at hsent ⊢
                obtain ⟨h1, h2, h3⟩ := singleton_eq_append_cons hsent
                subst h1; subst h2
                rw [hs] at herr
                exact ⟨h3, Option.some.inj herr, checkCallerID_errorWait _ _ _⟩
              | none =>
                cases heh : f.hasError with
                | true =>
                  cases hc : f.errorWait.closed <;>
                  · simp [fakeVTGateService.StreamExecuteKeyspaceIds, hpv, hm, hq, hr, hs, checkCallerID_hasError,
                      checkCallerID_errorWait, heh, hc] at hsent
                    obtain ⟨h1, h2, h3⟩ := singleton_eq_append_cons hsent
                    subst h1; subst h2
                    rw [hs] at herr
                    cases herr
                | false =>
                  have key := sendRows_after_first sendReply
                    { Result := some { Fields := r.Fields } } r.Rows.toList pre post m err hs
                  rcases hsr : sendRows sendReply [{ Result := some { Fields := r.Fields } }]
                    r.Rows.toList with ⟨sent', _ | e⟩
                  · simp [fakeVTGateService.StreamExecuteKeyspaceIds, hpv, hm, hq, hr, hs, checkCallerID_hasError, heh, hsr] at hsent
                    rw [hsr] at key
                    have := key hsent herr
                    simp at this
                  · simp [fakeVTGateService.StreamExecuteKeyspaceIds, hpv, hm, hq, hr, hs, checkCallerID_hasError, heh, hsr]
                      at hsent ⊢
                    rw [hsr] at key
                    have := key hsent herr
                    exact ⟨this.1, by simpa using this.2, checkCallerID_errorWait _ _ _⟩
          · simp [fakeVTGateService.StreamExecuteKeyspaceIds, hpv, hm, hq] at hsent
    obtain ⟨hpost, hout, hgate⟩ := core
    refine ⟨hpost, hout, ?_, hgate, ?_⟩
    · rw [hsent, hpost]; simp
    · intro e hne
      rw [hout]
      intro h
      injection h with h
      injection h with h
      exact hne h.symm

/-- Witness of C30 on the server made by `CreateFakeServer`: with a callback that
fails on the second message, `StreamExecute` given the "request1" request hands
over two messages and returns the callback's error. -/
theorem send_failure_stops_stream_witness :
    ((CreateFakeServer []).StreamExecute newContext execCase_request1.execQuery
      (sendFailAt 2 "send failed")).sent =
      [fieldsMessage result1] ++
        rowMessage (Slice.of [Value.String (bytesOf "row1 value1"),
        Value.String (bytesOf "row1 value2")]) :: [] ∧
    sendFailAt 2 "send failed" [fieldsMessage result1]
      (rowMessage (Slice.of [Value.String (bytesOf "row1 value1"),
        Value.String (bytesOf "row1 value2")])) =
      some "send failed" ∧
    ((CreateFakeServer []).StreamExecute newContext execCase_request1.execQuery
      (sendFailAt 2 "send failed")).out = Outcome.ret (some "send failed") ∧
    ((CreateFakeServer []).StreamExecute newContext execCase_request1.execQuery
      (sendFailAt 2 "send failed")).sent.length = 2 :=
  ⟨by decide, by decide,
   ((send_failure_stops_stream (CreateFakeServer []) newContext).1
      execCase_request1.execQuery (sendFailAt 2 "send failed") [fieldsMessage result1] []
      (rowMessage (Slice.of [Value.String (bytesOf "row1 value1"),
        Value.String (bytesOf "row1 value2")])) "send failed"
      (by decide) (by decide)).2.1,
   ((send_failure_stops_stream (CreateFakeServer []) newContext).1
      execCase_request1.execQuery (sendFailAt 2 "send failed") [fieldsMessage result1] []
      (rowMessage (Slice.of [Value.String (bytesOf "row1 value1"),
        Value.String (bytesOf "row1 value2")])) "send failed"
      (by decide) (by decide)).2.2.1⟩

/-! ## The release gate -/

/-- C25: the one-shot release gate is never reused. In declared-error mode with
`panics` clear, whenever a streaming handler (given the matching request of a
registered fixture with a result, the callback accepting the fields message)
returns the sentinel, at once behind a closed gate or on resuming after the
signal, the server's gate is a fresh one (the next identifier) that has not
been signalled. So, starting from the gate made by `CreateFakeServer`, the
eight streaming-error scenarios of `TestSuite` signal the gates 0 to 7, each
created by `make` and open when signalled, no gate twice; each ends with the
sentinel, and an open gate 8 is left. -/
theorem release_gate_never_reused (f : fakeVTGateService) (ctx : Context) (k : String)
    (c : ExecCase) (r : mproto.QueryResult) (sendReply : SendReply)
    (herr : declaredErrorMode f) (hp : f.panics = false) (hk : execMap k = some c)
    (hr : c.reply.Result = some r) (hsend : sendReply [] (fieldsMessage r) = none) :
    (∀ q : proto.Query, { q with CallerID := none } = c.execQuery →
      (f.errorWait.closed = true →
        (f.StreamExecute ctx q sendReply).out = Outcome.ret (some "test vtgate error") ∧
        (f.StreamExecute ctx q sendReply).f.errorWait =
          { id := f.errorWait.id + 1, closed := false }) ∧
      (f.errorWait.closed = false →
        (f.StreamExecute ctx q sendReply).out = Outcome.blocked ∧
        (f.StreamExecute ctx q sendReply).f.errorWait = f.errorWait ∧
        (f.StreamExecute ctx q sendReply).signal.resume.out =
          Outcome.ret (some "test vtgate error") ∧
        (f.StreamExecute ctx q sendReply).signal.resume.f.errorWait =
          { id := f.errorWait.id + 1, closed := false })) ∧
    (∀ q : proto.QueryShard, { q with CallerID := none } = c.shardQuery →
      (f.errorWait.closed = true →
        (f.StreamExecuteShard ctx q sendReply).out = Outcome.ret (some "test vtgate error") ∧
        (f.StreamExecuteShard ctx q sendReply).f.errorWait =
          { id := f.errorWait.id + 1, closed := false }) ∧
      (f.errorWait.closed = false →
        (f.StreamExecuteShard ctx q sendReply).out = Outcome.blocked ∧
        (f.StreamExecuteShard ctx q sendReply).f.errorWait = f.errorWait ∧
        (f.StreamExecuteShard ctx q sendReply).signal.resume.out =
          Outcome.ret (some "test vtgate error") ∧
        (f.StreamExecuteShard ctx q sendReply).signal.resume.f.errorWait =
          { id := f.errorWait.id + 1, closed := false })) ∧
    (∀ q : proto.KeyRangeQuery, { q with CallerID := none } = c.keyRangeQuery →
      (f.errorWait.closed = true →
        (f.StreamExecuteKeyRanges ctx q sendReply).out = Outcome.ret (some "test vtgate error") ∧
        (f.StreamExecuteKeyRanges ctx q sendReply).f.errorWait =
          { id := f.errorWait.id + 1, closed := false }) ∧
      (f.errorWait.closed = false →
        (f.StreamExecuteKeyRanges ctx q sendReply).out = Outcome.blocked ∧
        (f.StreamExecuteKeyRanges ctx q sendReply).f.errorWait = f.errorWait ∧
        (f.StreamExecuteKeyRanges ctx q sendReply).signal.resume.out =
          Outcome.ret (some "test vtgate error") ∧
        (f.StreamExecuteKeyRanges ctx q sendReply).signal.resume.f.errorWait =
          { id := f.errorWait.id + 1, closed := false })) ∧
    (∀ q : proto.KeyspaceIdQuery, { q with CallerID := none } = c.keyspaceIdQuery →
      (f.errorWait.closed = true →
        (f.StreamExecuteKeyspaceIds ctx q sendReply).out = Outcome.ret (some "test vtgate error") ∧
        (f.StreamExecuteKeyspaceIds ctx q sendReply).f.errorWait =
          { id := f.errorWait.id + 1, closed := false }) ∧
      (f.errorWait.closed = false →
        (f.StreamExecuteKeyspaceIds ctx q sendReply).out = Outcome.blocked ∧
        (f.StreamExecuteKeyspaceIds ctx q sendReply).f.errorWait = f.errorWait ∧
        (f.StreamExecuteKeyspaceIds ctx q sendReply).signal.resume.out =
          Outcome.ret (some "test vtgate error") ∧
        (f.StreamExecuteKeyspaceIds ctx q sendReply).signal.resume.f.errorWait =
          { id := f.errorWait.id + 1, closed := false })) ∧
    (CreateFakeServer []).errorWait = { id := 0, closed := false } ∧
    (runScenarios streamErrorScenarios (serverWith true false)).map (fun run => run.gate) =
      [{ id := 0, closed := false }, { id := 1, closed := false },
       { id := 2, closed := false }, { id := 3, closed := false },
       { id := 4, closed := false }, { id := 5, closed := false },
       { id := 6, closed := false }, { id := 7, closed := false }] ∧
    ((runScenarios streamErrorScenarios (serverWith true false)).map
      (fun run => run.gate.id)).Nodup ∧
    (∀ run ∈ runScenarios streamErrorScenarios (serverWith true false),
      run.gate.closed = false ∧ run.out = Outcome.ret (some "test vtgate error")) ∧
    (runScenarios streamErrorScenarios (serverWith true false)).map
      (fun run => run.f.errorWait) =
      [{ id := 1, closed := false }, { id := 2, closed := false },
       { id := 3, closed := false }, { id := 4, closed := false },
       { id := 5, closed := false }, { id := 6, closed := false },
       { id := 7, closed := false }, { id := 8, closed := false }] := by
  have he : f.hasError = true := herr
  obtain ⟨h1, h2, h3, h4⟩ := stream_declared_error ctx he hp hk hr hsend
  refine ⟨?_, ?_, ?_, ?_, rfl, by decide, by decide, by decide, by decide⟩
  · intro q hq
    refine ⟨fun hc => ?_, fun hc => ?_⟩
    · rw [h1 q hq]
      simp [hc, errTestVtGateError, Chan.make]
    · have hcall : f.StreamExecute ctx q sendReply =
          ⟨f.checkCallerID ctx "StreamExecute", { q with CallerID := none },
            [fieldsMessage r], Outcome.blocked⟩ := by
        rw [h1 q hq]; simp [hc]
      have hb : (f.StreamExecute ctx q sendReply).out = Outcome.blocked := by rw [hcall]
      have hw : (f.StreamExecute ctx q sendReply).f.errorWait = f.errorWait := by
        rw [hcall]; exact checkCallerID_errorWait _ _ _
      obtain ⟨r1, _, _, _, r5⟩ := resume_signal_blocked _ hb
      rw [hw] at r5
      exact ⟨hb, hw, r1, r5⟩
  · intro q hq
    refine ⟨fun hc => ?_, fun hc => ?_⟩
    · rw [h2 q hq]
      simp [hc, errTestVtGateError, Chan.make]
    · have hcall : f.StreamExecuteShard ctx q sendReply =
          ⟨f.checkCallerID ctx "StreamExecuteShard", { q with CallerID := none },
            [fieldsMessage r], Outcome.blocked⟩ := by
        rw [h2 q hq]; simp [hc]
      have hb : (f.StreamExecuteShard ctx q sendReply).out = Outcome.blocked := by rw [hcall]
      have hw : (f.StreamExecuteShard ctx q sendReply).f.errorWait = f.errorWait := by
        rw [hcall]; exact checkCallerID_errorWait _ _ _
      obtain ⟨r1, _, _, _, r5⟩ := resume_signal_blocked _ hb
      rw [hw] at r5
      exact ⟨hb, hw, r1, r5⟩
  · intro q hq
    refine ⟨fun hc => ?_, fun hc => ?_⟩
    · rw [h3 q hq]
      simp [hc, errTestVtGateError, Chan.make]
    · have hcall : f.StreamExecuteKeyRanges ctx q sendReply =
          ⟨f.checkCallerID ctx "StreamExecuteKeyRanges", { q with CallerID := none },
            [fieldsMessage r], Outcome.blocked⟩ := by
        rw [h3 q hq]; simp [hc]
      have hb : (f.StreamExecuteKeyRanges ctx q sendReply).out = Outcome.blocked := by rw [hcall]
      have hw : (f.StreamExecuteKeyRanges ctx q sendReply).f.errorWait = f.errorWait := by
        rw [hcall]; exact checkCallerID_errorWait _ _ _
      obtain ⟨r1, _, _, _, r5⟩ := resume_signal_blocked _ hb
      rw [hw] at r5
      exact ⟨hb, hw, r1, r5⟩
  · intro q hq
    refine ⟨fun hc => ?_, fun hc => ?_⟩
    · rw [h4 q hq]
      simp [hc, errTestVtGateError, Chan.make]
    · have hcall : f.StreamExecuteKeyspaceIds ctx q sendReply =
          ⟨f.checkCallerID ctx "StreamExecuteKeyspaceIds", { q with CallerID := none },
            [fieldsMessage r], Outcome.blocked⟩ := by
        rw [h4 q hq]; simp [hc]
      have hb : (f.StreamExecuteKeyspaceIds ctx q sendReply).out = Outcome.blocked := by rw [hcall]
      have hw : (f.StreamExecuteKeyspaceIds ctx q sendReply).f.errorWait = f.errorWait := by
        rw [hcall]; exact checkCallerID_errorWait _ _ _
      obtain ⟨r1, _, _, _, r5⟩ := resume_signal_blocked _ hb
      rw [hw] at r5
      exact ⟨hb, hw, r1, r5⟩

/-- Witness of C25 on the suite's server in declared-error mode: after the first
scenario, `StreamExecute` parked, signalled and resumed, the gate is gate 1,
open. -/
theorem release_gate_never_reused_witness :
    declaredErrorMode (serverWith true false) ∧ (serverWith true false).panics = false ∧
    execMap "request1" = some execCase_request1 ∧
    execCase_request1.reply.Result = some result1 ∧
    sendOk [] (fieldsMessage result1) = none ∧
    (serverWith true false).errorWait.closed = false ∧
    ((serverWith true false).StreamExecute newContext execCase_request1.execQuery
      sendOk).signal.resume.f.errorWait = { id := 1, closed := false } :=
  ⟨by decide, by decide, by decide, rfl, rfl, by decide,
   (((release_gate_never_reused (serverWith true false) newContext "request1"
      execCase_request1 result1 sendOk (by decide) (by decide) (by decide) rfl rfl).1
      execCase_request1.execQuery (by decide)).2 (by decide)).2.2.2⟩

/-! ## The fault flags are not changed by calls -/

/-- Every handler leaves the fault flags of the server as they were. -/
theorem HandlerCall.after_flags (call : HandlerCall) (f : fakeVTGateService) :
    (call.after f).panics = f.panics ∧ (call.after f).hasError = f.hasError := by
  cases call <;> simp only [HandlerCall.after]
  · simp only [fakeVTGateService.Execute]
    (repeat' split) <;>
      simp [checkCallerID_panics, checkCallerID_hasError, fakeVTGateService.Errorf]
  · simp only [fakeVTGateService.ExecuteShard]
    (repeat' split) <;>
      simp [checkCallerID_panics, checkCallerID_hasError, fakeVTGateService.Errorf]
  · simp only [fakeVTGateService.ExecuteKeyspaceIds]
    (repeat' split) <;>
      simp [checkCallerID_panics, checkCallerID_hasError, fakeVTGateService.Errorf]
  · simp only [fakeVTGateService.ExecuteKeyRanges]
    (repeat' split) <;>
      simp [checkCallerID_panics, checkCallerID_hasError, fakeVTGateService.Errorf]
  · simp only [fakeVTGateService.ExecuteEntityIds]
    (repeat' split) <;>
      simp [checkCallerID_panics, checkCallerID_hasError, fakeVTGateService.Errorf]
  · simp only [fakeVTGateService.ExecuteBatchShard]
    (repeat' split) <;>
      simp [checkCallerID_panics, checkCallerID_hasError, fakeVTGateService.Errorf]
  · simp only [fakeVTGateService.ExecuteBatchKeyspaceIds]
    (repeat' split) <;>
      simp [checkCallerID_panics, checkCallerID_hasError, fakeVTGateService.Errorf]
  · simp only [fakeVTGateService.StreamExecute]
    (repeat' split) <;>
      simp [checkCallerID_panics, checkCallerID_hasError, fakeVTGateService.Errorf]
  · simp only [fakeVTGateService.StreamExecuteShard]
    (repeat' split) <;>
      simp [checkCallerID_panics, checkCallerID_hasError, fakeVTGateService.Errorf]
  · simp only [fakeVTGateService.StreamExecuteKeyRanges]
    (repeat' split) <;>
      simp [checkCallerID_panics, checkCallerID_hasError, fakeVTGateService.Errorf]
  · simp only [fakeVTGateService.StreamExecuteKeyspaceIds]
    (repeat' split) <;>
      simp [checkCallerID_panics, checkCallerID_hasError, fakeVTGateService.Errorf]
  · simp only [fakeVTGateService.Begin]
    (repeat' split) <;>
      simp [checkCallerID_panics, checkCallerID_hasError, fakeVTGateService.Errorf]
  · simp only [fakeVTGateService.Commit]
    (repeat' split) <;>
      simp [checkCallerID_panics, checkCallerID_hasError, fakeVTGateService.Errorf]
  · simp only [fakeVTGateService.Rollback]
    (repeat' split) <;>
      simp [checkCallerID_panics, checkCallerID_hasError, fakeVTGateService.Errorf]
  · simp only [fakeVTGateService.SplitQuery]
    (repeat' split) <;>
      simp [checkCallerID_panics, checkCallerID_hasError, fakeVTGateService.Errorf]
  · simp only [fakeVTGateService.GetSrvKeyspace]
    (repeat' split) <;>
      simp [checkCallerID_panics, checkCallerID_hasError, fakeVTGateService.Errorf]

/-- The answer of the seven non-streaming query handlers (outcome and reply)
depends on the server only through `panics` and `hasError`. -/
theorem query_response_of_flags (g h : fakeVTGateService) (ctx : Context)
    (hp : g.panics = h.panics) (he : g.hasError = h.hasError) :
    (∀ (q : proto.Query) (reply : proto.QueryResult),
      (g.Execute ctx q reply).out = (h.Execute ctx q reply).out ∧
      (g.Execute ctx q reply).reply = (h.Execute ctx q reply).reply) ∧
    (∀ (q : proto.QueryShard) (reply : proto.QueryResult),
      (g.ExecuteShard ctx q reply).out = (h.ExecuteShard ctx q reply).out ∧
      (g.ExecuteShard ctx q reply).reply = (h.ExecuteShard ctx q reply).reply) ∧
    (∀ (q : proto.KeyspaceIdQuery) (reply : proto.QueryResult),
      (g.ExecuteKeyspaceIds ctx q reply).out = (h.ExecuteKeyspaceIds ctx q reply).out ∧
      (g.ExecuteKeyspaceIds ctx q reply).reply = (h.ExecuteKeyspaceIds ctx q reply).reply) ∧
    (∀ (q : proto.KeyRangeQuery) (reply : proto.QueryResult),
      (g.ExecuteKeyRanges ctx q reply).out = (h.ExecuteKeyRanges ctx q reply).out ∧
      (g.ExecuteKeyRanges ctx q reply).reply = (h.ExecuteKeyRanges ctx q reply).reply) ∧
    (∀ (q : proto.EntityIdsQuery) (reply : proto.QueryResult),
      (g.ExecuteEntityIds ctx q reply).out = (h.ExecuteEntityIds ctx q reply).out ∧
      (g.ExecuteEntityIds ctx q reply).reply = (h.ExecuteEntityIds ctx q reply).reply) ∧
    (∀ (b : proto.BatchQueryShard) (reply : proto.QueryResultList),
      (g.ExecuteBatchShard ctx b reply).out = (h.ExecuteBatchShard ctx b reply).out ∧
      (g.ExecuteBatchShard ctx b reply).reply = (h.ExecuteBatchShard ctx b reply).reply) ∧
    (∀ (b : proto.KeyspaceIdBatchQuery) (reply : proto.QueryResultList),
      (g.ExecuteBatchKeyspaceIds ctx b reply).out = (h.ExecuteBatchKeyspaceIds ctx b reply).out ∧
      (g.ExecuteBatchKeyspaceIds ctx b reply).reply = (h.ExecuteBatchKeyspaceIds ctx b reply).reply) := by
  refine ⟨?_, ?_, ?_, ?_, ?_, ?_, ?_⟩
  · intro q reply
    cases heh : h.hasError <;> cases hph : h.panics <;>
      simp only [fakeVTGateService.Execute, he, hp, heh, hph] <;> try exact ⟨rfl, rfl⟩
    cases hm : execMap q.Sql with
    | none => simp [hm]
    | some c =>
      by_cases hq : ({ q with CallerID := none } : proto.Query) = c.execQuery <;> simp [hm, hq]
  · intro q reply
    cases heh : h.hasError <;> cases hph : h.panics <;>
      simp only [fakeVTGateService.ExecuteShard, he, hp, heh, hph] <;> try exact ⟨rfl, rfl⟩
    cases hm : execMap q.Sql with
    | none => simp [hm]
    | some c =>
      by_cases hq : ({ q with CallerID := none } : proto.QueryShard) = c.shardQuery <;> simp [hm, hq]
  · intro q reply
    cases heh : h.hasError <;> cases hph : h.panics <;>
      simp only [fakeVTGateService.ExecuteKeyspaceIds, he, hp, heh, hph] <;> try exact ⟨rfl, rfl⟩
    cases hm : execMap q.Sql with
    | none => simp [hm]
    | some c =>
      by_cases hq : ({ q with CallerID := none } : proto.KeyspaceIdQuery) = c.keyspaceIdQuery <;> simp [hm, hq]
  · intro q reply
    cases heh : h.hasError <;> cases hph : h.panics <;>
      simp only [fakeVTGateService.ExecuteKeyRanges, he, hp, heh, hph] <;> try exact ⟨rfl, rfl⟩
    cases hm : execMap q.Sql with
    | none => simp [hm]
    | some c =>
      by_cases hq : ({ q with CallerID := none } : proto.KeyRangeQuery) = c.keyRangeQuery <;> simp [hm, hq]
  · intro q reply
    cases heh : h.hasError <;> cases hph : h.panics <;>
      simp only [fakeVTGateService.ExecuteEntityIds, he, hp, heh, hph] <;> try exact ⟨rfl, rfl⟩
    cases hm : execMap q.Sql with
    | none => simp [hm]
    | some c =>
      by_cases hq : ({ q with CallerID := none } : proto.EntityIdsQuery) = c.entityIdsQuery <;> simp [hm, hq]
  · intro b reply
    cases heh : h.hasError <;> cases hph : h.panics <;>
      simp only [fakeVTGateService.ExecuteBatchShard, he, hp, heh, hph] <;> try exact ⟨rfl, rfl⟩
    cases hb : b.Queries.toList with
    | nil => simp [hb]
    | cons q0 rest =>
      cases hm : execMap q0.Sql with
      | none => simp [hb, hm]
      | some c =>
        by_cases hq : ({ b with CallerID := none } : proto.BatchQueryShard) = c.batchQueryShard
        · have hq' := hq
          simp [hb, hm, hq']
        · have hq' := hq
          simp [hb, hm, hq']
  · intro b reply
    cases heh : h.hasError <;> cases hph : h.panics <;>
      simp only [fakeVTGateService.ExecuteBatchKeyspaceIds, he, hp, heh, hph] <;> try exact ⟨rfl, rfl⟩
    cases hb : b.Queries.toList with
    | nil => simp [hb]
    | cons q0 rest =>
      cases hm : execMap q0.Sql with
      | none => simp [hb, hm]
      | some c =>
        by_cases hq : ({ b with CallerID := none } : proto.KeyspaceIdBatchQuery) = c.keyspaceIdBatchQuery
        · have hq' := hq
          simp [hb, hm, hq']
        · have hq' := hq
          simp [hb, hm, hq']

/-! ## A transaction handle with no session attached -/

/-- C27: a handle with no active session attached. In normal mode the handle
`Begin` returns has `session1` attached, `Commit` through it fails with
"commit: session mismatch" and leaves the handle with no session attached, and
the same holds for `Begin2` and `Commit2`. For every handle with no session
attached, every server and every input, each per-query call that does not opt
out of requiring a transaction (the batch calls have no such option) fails with
exactly "<op>: not in transaction", a further `Commit` or `Commit2` fails with
exactly "commit: not in transaction", a further `Rollback` or `Rollback2`
succeeds, and each of these calls leaves the handle and the server as they were. -/
theorem detached_handle_not_in_transaction (f : fakeVTGateService) (stack : String)
    (ctx : Context) (hn : normalMode f) :
    ((VTGateConn.Begin f stack ctx).err = none ∧
      (VTGateConn.Begin f stack ctx).tx.session = some session1 ∧
      ((VTGateConn.Begin f stack ctx).tx.Commit (VTGateConn.Begin f stack ctx).f stack ctx).err =
        some "commit: session mismatch" ∧
      ((VTGateConn.Begin f stack ctx).tx.Commit
        (VTGateConn.Begin f stack ctx).f stack ctx).tx.session = none) ∧
    ((VTGateConn.Begin2 f stack ctx).err = none ∧
      (VTGateConn.Begin2 f stack ctx).tx.session = some session1 ∧
      ((VTGateConn.Begin2 f stack ctx).tx.Commit2
        (VTGateConn.Begin2 f stack ctx).f stack ctx).err = some "commit: session mismatch" ∧
      ((VTGateConn.Begin2 f stack ctx).tx.Commit2
        (VTGateConn.Begin2 f stack ctx).f stack ctx).tx.session = none) ∧
    (∀ (tx : VTGateTx) (g : fakeVTGateService), tx.session = none →
      (∀ (query : String) (bindVars : BindVariables) (tabletType : TabletType),
        (tx.Execute g stack ctx query bindVars tabletType false).err =
          some "execute: not in transaction" ∧
        (tx.Execute g stack ctx query bindVars tabletType false).tx = tx ∧
        (tx.Execute g stack ctx query bindVars tabletType false).f = g) ∧
      (∀ (query keyspace : String) (shards : Slice String) (bindVars : BindVariables)
          (tabletType : TabletType),
        (tx.ExecuteShard g stack ctx query keyspace shards bindVars tabletType false).err =
          some "executeShard: not in transaction" ∧
        (tx.ExecuteShard g stack ctx query keyspace shards bindVars tabletType false).tx = tx ∧
        (tx.ExecuteShard g stack ctx query keyspace shards bindVars tabletType false).f = g) ∧
      (∀ (query keyspace : String) (keyspaceIds : Slice KeyspaceId) (bindVars : BindVariables)
          (tabletType : TabletType),
        (tx.ExecuteKeyspaceIds g stack ctx query keyspace keyspaceIds bindVars tabletType false).err =
          some "executeKeyspaceIds: not in transaction" ∧
        (tx.ExecuteKeyspaceIds g stack ctx query keyspace keyspaceIds bindVars tabletType false).tx = tx ∧
        (tx.ExecuteKeyspaceIds g stack ctx query keyspace keyspaceIds bindVars tabletType false).f = g) ∧
      (∀ (query keyspace : String) (keyRanges : Slice KeyRange) (bindVars : BindVariables)
          (tabletType : TabletType),
        (tx.ExecuteKeyRanges g stack ctx query keyspace keyRanges bindVars tabletType false).err =
          some "executeKeyRanges: not in transaction" ∧
        (tx.ExecuteKeyRanges g stack ctx query keyspace keyRanges bindVars tabletType false).tx = tx ∧
        (tx.ExecuteKeyRanges g stack ctx query keyspace keyRanges bindVars tabletType false).f = g) ∧
      (∀ (query keyspace entityColumnName : String)
          (entityKeyspaceIDs : Slice proto.EntityId) (bindVars : BindVariables)
          (tabletType : TabletType),
        (tx.ExecuteEntityIds g stack ctx query keyspace entityColumnName entityKeyspaceIDs bindVars tabletType false).err =
          some "executeEntityIds: not in transaction" ∧
        (tx.ExecuteEntityIds g stack ctx query keyspace entityColumnName entityKeyspaceIDs bindVars tabletType false).tx = tx ∧
        (tx.ExecuteEntityIds g stack ctx query keyspace entityColumnName entityKeyspaceIDs bindVars tabletType false).f = g) ∧
      (∀ (queries : Slice proto.BoundShardQuery) (tabletType : TabletType)
          (asTransaction : Bool),
        (tx.ExecuteBatchShard g stack ctx queries tabletType asTransaction).err =
          some "executeBatchShard: not in transaction" ∧
        (tx.ExecuteBatchShard g stack ctx queries tabletType asTransaction).tx = tx ∧
        (tx.ExecuteBatchShard g stack ctx queries tabletType asTransaction).f = g) ∧
      (∀ (queries : Slice proto.BoundKeyspaceIdQuery) (tabletType : TabletType)
          (asTransaction : Bool),
        (tx.ExecuteBatchKeyspaceIds g stack ctx queries tabletType asTransaction).err =
          some "executeBatchKeyspaceIds: not in transaction" ∧
        (tx.ExecuteBatchKeyspaceIds g stack ctx queries tabletType asTransaction).tx = tx ∧
        (tx.ExecuteBatchKeyspaceIds g stack ctx queries tabletType asTransaction).f = g) ∧
      ((tx.Commit g stack ctx).err = some "commit: not in transaction" ∧
        (tx.Commit g stack ctx).tx = tx ∧ (tx.Commit g stack ctx).f = g) ∧
      ((tx.Commit2 g stack ctx).err = some "commit: not in transaction" ∧
        (tx.Commit2 g stack ctx).tx = tx ∧ (tx.Commit2 g stack ctx).f = g) ∧
      ((tx.Rollback g stack ctx).err = none ∧
        (tx.Rollback g stack ctx).tx = tx ∧ (tx.Rollback g stack ctx).f = g) ∧
      ((tx.Rollback2 g stack ctx).err = none ∧
        (tx.Rollback2 g stack ctx).tx = tx ∧ (tx.Rollback2 g stack ctx).f = g)) := by
  obtain ⟨he, hp⟩ := hn
  have hb : (VTGateConn.Begin f stack ctx).err = none ∧
      (VTGateConn.Begin f stack ctx).tx.session = some session1 ∧
      ((VTGateConn.Begin f stack ctx).tx.Commit (VTGateConn.Begin f stack ctx).f stack ctx).err =
        some "commit: session mismatch" ∧
      ((VTGateConn.Begin f stack ctx).tx.Commit
        (VTGateConn.Begin f stack ctx).f stack ctx).tx.session = none := by
    have h1 : (f.Begin ctx { InTransaction := false, ShardSessions := Slice.nil }).out =
        Outcome.ret none ∧
        (f.Begin ctx { InTransaction := false, ShardSessions := Slice.nil }).outSession = session1 ∧
        (f.Begin ctx { InTransaction := false, ShardSessions := Slice.nil }).f.hasError = false ∧
        (f.Begin ctx { InTransaction := false, ShardSessions := Slice.nil }).f.panics = false := by
      simp only [fakeVTGateService.Begin, checkCallerID_hasError, checkCallerID_panics,
        checkCallerID_forceBeginSuccess, he, hp]
      cases f.forceBeginSuccess <;> simp [checkCallerID_hasError, checkCallerID_panics, he, hp]
    obtain ⟨ho, hs, he', hp'⟩ := h1
    have hB : VTGateConn.Begin f stack ctx =
        ⟨{ session := some session1 },
          (f.Begin ctx { InTransaction := false, ShardSessions := Slice.nil }).f, (), none⟩ := by
      simp only [VTGateConn.Begin, ho, hs, clientError, recover,
        fakeVTGateService.HandlePanic]
      simp
    rw [hB]
    refine ⟨rfl, rfl, ?_, ?_⟩
    · simp only [VTGateTx.Commit, fakeVTGateService.Commit, checkCallerID_hasError,
        checkCallerID_panics, he', hp', clientError, recover, fakeVTGateService.HandlePanic]
      simp [session1, session2]
    · simp only [VTGateTx.Commit]
  refine ⟨hb, hb, ?_⟩
  intro tx g htx
  simp only [VTGateTx.Execute, VTGateTx.ExecuteShard, VTGateTx.ExecuteKeyspaceIds,
    VTGateTx.ExecuteKeyRanges, VTGateTx.ExecuteEntityIds, VTGateTx.ExecuteBatchShard,
    VTGateTx.ExecuteBatchKeyspaceIds, VTGateTx.Commit, VTGateTx.Commit2, VTGateTx.Rollback,
    VTGateTx.Rollback2, htx]
  simp

/-- Witness of C27: the server made by `CreateFakeServer` is in normal mode; the
handle of `Begin` followed by the failing `Commit` has no session attached, and
`Execute` through it fails with "execute: not in transaction". -/
theorem detached_handle_not_in_transaction_witness :
    normalMode (CreateFakeServer []) ∧
    (((VTGateConn.Begin (CreateFakeServer []) "stack" newContext).tx.Commit
        (VTGateConn.Begin (CreateFakeServer []) "stack" newContext).f "stack" newContext).tx.Execute
      (CreateFakeServer []) "stack" newContext "" GoMap.nil TabletType.TYPE_REPLICA false).err =
      some "execute: not in transaction" :=
  ⟨⟨rfl, rfl⟩,
   ((detached_handle_not_in_transaction (CreateFakeServer []) "stack" newContext ⟨rfl, rfl⟩).2.2
      _ (CreateFakeServer [])
      (detached_handle_not_in_transaction (CreateFakeServer []) "stack" newContext
        ⟨rfl, rfl⟩).1.2.2.2).1 "" GoMap.nil TabletType.TYPE_REPLICA |>.1⟩

end vtgateconntest
